import Mathlib

/-!
# VulkanSandbox: swapchain selection policies and memory-type search

A shallow embedding of the decision logic of
`vulkanTesting/HelloTriangleApplication.cpp`.  Vulkan enumerations are
embedded by their numeric values (`Nat`), `uint32_t` quantities are natural
numbers with explicit reduction modulo `2^32` where the source can wrap,
`int` fields are integers, and `std::vector` arguments are lists.
-/

namespace VulkanSandbox

/-! ## Vulkan enumerations and structures used by the source -/

/-- Values of the C enumeration `VkPresentModeKHR`. -/
abbrev VkPresentModeKHR := Nat

def VK_PRESENT_MODE_IMMEDIATE_KHR : VkPresentModeKHR := 0
def VK_PRESENT_MODE_MAILBOX_KHR : VkPresentModeKHR := 1
def VK_PRESENT_MODE_FIFO_KHR : VkPresentModeKHR := 2
def VK_PRESENT_MODE_FIFO_RELAXED_KHR : VkPresentModeKHR := 3

/-- Values of the C enumeration `VkFormat`. -/
abbrev VkFormat := Nat

def VK_FORMAT_R8G8B8A8_UNORM : VkFormat := 37
def VK_FORMAT_B8G8R8A8_UNORM : VkFormat := 44

/-- Values of the C enumeration `VkColorSpaceKHR`. -/
abbrev VkColorSpaceKHR := Nat

def VK_COLOR_SPACE_SRGB_NONLINEAR_KHR : VkColorSpaceKHR := 0
def VK_COLOR_SPACE_DISPLAY_P3_NONLINEAR_EXT : VkColorSpaceKHR := 1000104001

/-- The Vulkan structure `VkSurfaceFormatKHR`: a pixel format and a color space. -/
structure VkSurfaceFormatKHR where
  format : VkFormat
  colorSpace : VkColorSpaceKHR
  deriving DecidableEq, Repr

/-! ## Present-mode selection (source lines 258-270) -/

/-- The range-for loop of `chooseSwapPresentMode`, with the local `bestMode`
threaded through the iterations: a MAILBOX entry returns at once, an
IMMEDIATE entry overwrites `bestMode`, any other entry leaves it alone, and
the end of the list returns `bestMode`. -/
def chooseSwapPresentModeLoop (bestMode : VkPresentModeKHR) :
    List VkPresentModeKHR → VkPresentModeKHR
  | [] => bestMode
  | availablePresentMode :: rest =>
    if availablePresentMode = VK_PRESENT_MODE_MAILBOX_KHR then
      availablePresentMode
    else if availablePresentMode = VK_PRESENT_MODE_IMMEDIATE_KHR then
      chooseSwapPresentModeLoop availablePresentMode rest
    else
      chooseSwapPresentModeLoop bestMode rest

/-- The function `chooseSwapPresentMode`: `bestMode` starts as FIFO. -/
def chooseSwapPresentMode (availablePresentModes : List VkPresentModeKHR) :
    VkPresentModeKHR :=
  chooseSwapPresentModeLoop VK_PRESENT_MODE_FIFO_KHR availablePresentModes

/-! ## Surface-format selection (source lines 245-255) -/

/-- The range-for loop of `chooseSwapSurfaceFormat`: the first entry whose
format is B8G8R8A8_UNORM and whose color space is SRGB_NONLINEAR is returned;
`none` means the loop ran off the end of the list without returning. -/
def chooseSwapSurfaceFormatLoop : List VkSurfaceFormatKHR → Option VkSurfaceFormatKHR
  | [] => none
  | availableFormat :: rest =>
    if availableFormat.format = VK_FORMAT_B8G8R8A8_UNORM ∧
        availableFormat.colorSpace = VK_COLOR_SPACE_SRGB_NONLINEAR_KHR then
      some availableFormat
    else
      chooseSwapSurfaceFormatLoop rest

/-- The function `chooseSwapSurfaceFormat`.  After the loop the source returns
`availableFormats[0]`; on an empty vector that access is out of bounds, which
is the result `none` here. -/
def chooseSwapSurfaceFormat (availableFormats : List VkSurfaceFormatKHR) :
    Option VkSurfaceFormatKHR :=
  match chooseSwapSurfaceFormatLoop availableFormats with
  | some availableFormat => some availableFormat
  | none => availableFormats[0]?

/-! ## Extent selection (source lines 22-23 and 272-289) -/

/-- The largest `uint32_t`, `std::numeric_limits<uint32_t>::max()`. -/
def UINT32_MAX : Nat := 4294967295

/-- Initial value of the global `WIDTH`; the source never assigns it again. -/
def WIDTH : Nat := 800

/-- Initial value of the global `HEIGHT`; the source never assigns it again. -/
def HEIGHT : Nat := 600

/-- The Vulkan structure `VkExtent2D`. -/
structure VkExtent2D where
  width : Nat
  height : Nat
  deriving DecidableEq, Repr

/-- The fields of the Vulkan structure `VkSurfaceCapabilitiesKHR` that the
source reads. -/
structure VkSurfaceCapabilitiesKHR where
  minImageCount : Nat
  maxImageCount : Nat
  currentExtent : VkExtent2D
  minImageExtent : VkExtent2D
  maxImageExtent : VkExtent2D
  currentTransform : Nat
  deriving DecidableEq, Repr

/-- The function `chooseSwapExtent`.  It reads the globals `WIDTH` and
`HEIGHT`; they are the explicit arguments `width` and `height` here.  Only
the width of `currentExtent` is compared with the sentinel. -/
def chooseSwapExtent (width height : Nat) (capabilities : VkSurfaceCapabilitiesKHR) :
    VkExtent2D :=
  if capabilities.currentExtent.width ≠ UINT32_MAX then
    capabilities.currentExtent
  else
    let actualExtent : VkExtent2D := ⟨width, height⟩
    let actualExtent : VkExtent2D :=
      { actualExtent with
        width := max capabilities.minImageExtent.width
          (min capabilities.maxImageExtent.width actualExtent.width) }
    let actualExtent : VkExtent2D :=
      { actualExtent with
        height := max capabilities.minImageExtent.height
          (min capabilities.maxImageExtent.height actualExtent.height) }
    actualExtent

/-! ## Swapchain creation parameters (source lines 1227-1265) -/

/-- The structure `QueueFamilyIndices`: two `int` fields, `-1` when not found. -/
structure QueueFamilyIndices where
  graphicsFamily : Int := -1
  presentFamily : Int := -1
  deriving DecidableEq, Repr

/-- The method `QueueFamilyIndices::isComplete`. -/
def QueueFamilyIndices.isComplete (indices : QueueFamilyIndices) : Bool :=
  decide (indices.graphicsFamily ≥ 0) && decide (indices.presentFamily ≥ 0)

/-- The structure `SwapChainSupportDetails`, the result of `querySwapChainSupport`. -/
structure SwapChainSupportDetails where
  capabilities : VkSurfaceCapabilitiesKHR
  surfaceFormats : List VkSurfaceFormatKHR
  presentModes : List VkPresentModeKHR
  deriving DecidableEq, Repr

/-- Values of the C enumeration `VkSharingMode`. -/
abbrev VkSharingMode := Nat

def VK_SHARING_MODE_EXCLUSIVE : VkSharingMode := 0
def VK_SHARING_MODE_CONCURRENT : VkSharingMode := 1

def VK_IMAGE_USAGE_COLOR_ATTACHMENT_BIT : Nat := 16
def VK_COMPOSITE_ALPHA_OPAQUE_BIT_KHR : Nat := 1
def VK_TRUE : Nat := 1

/-- The C cast `(uint32_t) x` of an `int`. -/
def castUInt32 (x : Int) : Nat := (x % 4294967296).toNat

/-- The fields of `VkSwapchainCreateInfoKHR` that `createSwapChain` fills in
from its queries and constants (the structure tag and the surface and old
swapchain handles are left out).  `pQueueFamilyIndices` is `none` for
`nullptr` and otherwise the array it points to. -/
structure VkSwapchainCreateInfoKHR where
  minImageCount : Nat
  imageFormat : VkFormat
  imageColorSpace : VkColorSpaceKHR
  imageExtent : VkExtent2D
  imageArrayLayers : Nat
  imageUsage : Nat
  imageSharingMode : VkSharingMode
  queueFamilyIndexCount : Nat
  pQueueFamilyIndices : Option (List Nat)
  preTransform : Nat
  compositeAlpha : Nat
  presentMode : VkPresentModeKHR
  clipped : Nat
  deriving DecidableEq, Repr

/-- The local `imageCount` of `createSwapChain` when the create parameters are
filled in: `minImageCount + 1` in `uint32_t` arithmetic, replaced by
`maxImageCount` when that is positive and smaller. -/
def createSwapChainImageCount (capabilities : VkSurfaceCapabilitiesKHR) : Nat :=
  let imageCount := (capabilities.minImageCount + 1) % 4294967296
  if capabilities.maxImageCount > 0 ∧ imageCount > capabilities.maxImageCount then
    capabilities.maxImageCount
  else
    imageCount

/-- The part of `createSwapChain` that builds the argument of
`vkCreateSwapchainKHR`.  The results of `querySwapChainSupport` and of
`findQueueFamilies` are the arguments `swapChainSupport` and `indices`, the
globals `WIDTH` and `HEIGHT` the arguments `width` and `height`.  The result
is `none` exactly when `chooseSwapSurfaceFormat` reads out of bounds. -/
def createSwapChainInfo (width height : Nat) (swapChainSupport : SwapChainSupportDetails)
    (indices : QueueFamilyIndices) : Option VkSwapchainCreateInfoKHR :=
  match chooseSwapSurfaceFormat swapChainSupport.surfaceFormats with
  | none => none
  | some surfaceFormat =>
    let presentMode := chooseSwapPresentMode swapChainSupport.presentModes
    let extent := chooseSwapExtent width height swapChainSupport.capabilities
    let imageCount := createSwapChainImageCount swapChainSupport.capabilities
    let queueFamilyIndices : List Nat :=
      [castUInt32 indices.graphicsFamily, castUInt32 indices.presentFamily]
    let differ : Bool := decide (indices.graphicsFamily ≠ indices.presentFamily)
    some
      { minImageCount := imageCount
        imageFormat := surfaceFormat.format
        imageColorSpace := surfaceFormat.colorSpace
        imageExtent := extent
        imageArrayLayers := 1
        imageUsage := VK_IMAGE_USAGE_COLOR_ATTACHMENT_BIT
        imageSharingMode :=
          if differ then VK_SHARING_MODE_CONCURRENT else VK_SHARING_MODE_EXCLUSIVE
        queueFamilyIndexCount := if differ then 2 else 0
        pQueueFamilyIndices := if differ then some queueFamilyIndices else none
        preTransform := swapChainSupport.capabilities.currentTransform
        compositeAlpha := VK_COMPOSITE_ALPHA_OPAQUE_BIT_KHR
        presentMode := presentMode
        clipped := VK_TRUE }

/-! ## Memory-type search (source lines 827-842) -/

/-- Values of `VkMemoryPropertyFlagBits`. -/
def VK_MEMORY_PROPERTY_DEVICE_LOCAL_BIT : Nat := 1
def VK_MEMORY_PROPERTY_HOST_VISIBLE_BIT : Nat := 2
def VK_MEMORY_PROPERTY_HOST_COHERENT_BIT : Nat := 4

/-- Length of the array `memoryTypes` in the Vulkan headers. -/
def VK_MAX_MEMORY_TYPES : Nat := 32

/-- The Vulkan structure `VkMemoryType`. -/
structure VkMemoryType where
  propertyFlags : Nat
  heapIndex : Nat
  deriving DecidableEq, Repr

/-- The memory-type part of `VkPhysicalDeviceMemoryProperties`: `memoryTypes`
holds the first `memoryTypeCount` entries of the C array, the only ones the
loop reads, so `memoryTypeCount` is its length (at most `VK_MAX_MEMORY_TYPES`
on a real device, which keeps the shift `1 << i` below 32 bits). -/
structure VkPhysicalDeviceMemoryProperties where
  memoryTypes : List VkMemoryType
  deriving DecidableEq, Repr

/-- The field `memoryTypeCount`. -/
def VkPhysicalDeviceMemoryProperties.memoryTypeCount
    (memProperties : VkPhysicalDeviceMemoryProperties) : Nat :=
  memProperties.memoryTypes.length

/-- The for loop of `findMemoryType` from index `i` on, over the memory types
from index `i` on; `none` means the loop ended without returning. -/
def findMemoryTypeLoop (typeFilter properties : Nat) : Nat → List VkMemoryType → Option Nat
  | _, [] => none
  | i, memoryType :: rest =>
    if typeFilter &&& (1 <<< i) ≠ 0 ∧
        (memoryType.propertyFlags &&& properties) = properties then
      some i
    else
      findMemoryTypeLoop typeFilter properties (i + 1) rest

/-- The method `findMemoryType`, with the result of
`vkGetPhysicalDeviceMemoryProperties` as the argument `memProperties`; the
thrown `std::runtime_error` is `Except.error` with its message. -/
def findMemoryType (memProperties : VkPhysicalDeviceMemoryProperties)
    (typeFilter properties : Nat) : Except String Nat :=
  match findMemoryTypeLoop typeFilter properties 0 memProperties.memoryTypes with
  | some i => Except.ok i
  | none => Except.error "failed to find suitable memory type!"

/-- Memory type `i` qualifies for a type filter and required property flags:
bit `i` of the filter is set, memory type `i` exists, and every bit of the
required flags is a bit of its property flags. -/
def memoryTypeQualifies (memProperties : VkPhysicalDeviceMemoryProperties)
    (typeFilter properties : Nat) (i : Nat) : Prop :=
  typeFilter.testBit i = true ∧
    ∃ memoryType, memProperties.memoryTypes[i]? = some memoryType ∧
      ∀ b, properties.testBit b = true → memoryType.propertyFlags.testBit b = true

/-- The condition tested by the loop body of `findMemoryType` at index `i`. -/
def findMemoryTypeTest (typeFilter properties : Nat) (i : Nat) (memoryType : VkMemoryType) :
    Prop :=
  typeFilter &&& (1 <<< i) ≠ 0 ∧ (memoryType.propertyFlags &&& properties) = properties

/-! ## Device selection (source lines 179-191 and 291-432) -/

def VK_QUEUE_GRAPHICS_BIT : Nat := 1
def VK_QUEUE_COMPUTE_BIT : Nat := 2
def VK_QUEUE_TRANSFER_BIT : Nat := 4

/-- Values of the C enumeration `VkPhysicalDeviceType`. -/
abbrev VkPhysicalDeviceType := Nat

def VK_PHYSICAL_DEVICE_TYPE_OTHER : VkPhysicalDeviceType := 0
def VK_PHYSICAL_DEVICE_TYPE_INTEGRATED_GPU : VkPhysicalDeviceType := 1
def VK_PHYSICAL_DEVICE_TYPE_DISCRETE_GPU : VkPhysicalDeviceType := 2

/-- The extension name macro `VK_KHR_SWAPCHAIN_EXTENSION_NAME`. -/
def VK_KHR_SWAPCHAIN_EXTENSION_NAME : String := "VK_KHR_swapchain"

/-- The global `deviceExtensions`. -/
def deviceExtensions : List String := [VK_KHR_SWAPCHAIN_EXTENSION_NAME]

/-- The fields of the Vulkan structure `VkQueueFamilyProperties` that the
source reads. -/
structure VkQueueFamilyProperties where
  queueFlags : Nat
  queueCount : Nat
  deriving DecidableEq, Repr

/-- The Vulkan structure `VkExtensionProperties`. -/
structure VkExtensionProperties where
  extensionName : String
  specVersion : Nat
  deriving DecidableEq, Repr

/-- A physical-device handle `VkPhysicalDevice`, represented by what the
Vulkan queries of the source answer for it and for the surface:
`deviceType` from `vkGetPhysicalDeviceProperties`, `queueFamilies` from
`vkGetPhysicalDeviceQueueFamilyProperties`, `surfaceSupport i` from
`vkGetPhysicalDeviceSurfaceSupportKHR` for family `i`, `availableExtensions`
from `vkEnumerateDeviceExtensionProperties`, `swapChainSupport` from
`querySwapChainSupport`, and `memoryProperties` from
`vkGetPhysicalDeviceMemoryProperties`. -/
structure VkPhysicalDevice where
  deviceType : VkPhysicalDeviceType
  queueFamilies : List VkQueueFamilyProperties
  surfaceSupport : Nat → Bool
  availableExtensions : List VkExtensionProperties
  swapChainSupport : SwapChainSupportDetails
  memoryProperties : VkPhysicalDeviceMemoryProperties

/-- The range-for loop of `findQueueFamilies` from the family with index `i`
on, with the local `indices` threaded through.  The surface is queried only
inside the graphics branch; the loop breaks as soon as `indices` is complete. -/
def findQueueFamiliesLoop (surfaceSupport : Nat → Bool) :
    Nat → QueueFamilyIndices → List VkQueueFamilyProperties → QueueFamilyIndices
  | _, indices, [] => indices
  | i, indices, queueFamily :: rest =>
    let indices : QueueFamilyIndices :=
      if queueFamily.queueCount > 0 ∧ queueFamily.queueFlags &&& VK_QUEUE_GRAPHICS_BIT ≠ 0 then
        let indices : QueueFamilyIndices := { indices with graphicsFamily := (i : Int) }
        if surfaceSupport i = true then
          { indices with presentFamily := (i : Int) }
        else
          indices
      else
        indices
    if indices.isComplete = true then
      indices
    else
      findQueueFamiliesLoop surfaceSupport (i + 1) indices rest

/-- The function `findQueueFamilies`: `indices` starts as (-1, -1) and `i` as 0. -/
def findQueueFamilies (physicalDevice : VkPhysicalDevice) : QueueFamilyIndices :=
  findQueueFamiliesLoop physicalDevice.surfaceSupport 0 {} physicalDevice.queueFamilies

/-- The function `checkDeviceExtensionSupport`.  The `std::set` of required
names is a duplicate-free list; `erase` removes the name if it is there. -/
def checkDeviceExtensionSupport (physicalDevice : VkPhysicalDevice) : Bool :=
  let requiredExtensions : List String := deviceExtensions.dedup
  let requiredExtensions : List String :=
    physicalDevice.availableExtensions.foldl
      (fun requiredExtensions extension =>
        requiredExtensions.filter (fun name => decide (name ≠ extension.extensionName)))
      requiredExtensions
  requiredExtensions.isEmpty

/-- The function `isDeviceSuitable`. -/
def isDeviceSuitable (physicalDevice : VkPhysicalDevice) : Bool :=
  let indices := findQueueFamilies physicalDevice
  let extensionsSupported := checkDeviceExtensionSupport physicalDevice
  let swapChainAdequate :=
    if extensionsSupported then
      let swapChainSupport := physicalDevice.swapChainSupport
      !swapChainSupport.presentModes.isEmpty && !swapChainSupport.surfaceFormats.isEmpty
    else
      false
  indices.isComplete && extensionsSupported && swapChainAdequate

/-- The function `isPhysicalDeviceSuitable`: the device is a discrete GPU. -/
def isPhysicalDeviceSuitable (device : VkPhysicalDevice) : Bool :=
  decide (device.deviceType = VK_PHYSICAL_DEVICE_TYPE_DISCRETE_GPU)

/-- The selecting loop of `getPhysicalDevice`; `none` is `VK_NULL_HANDLE`. -/
def getPhysicalDeviceLoop : List VkPhysicalDevice → Option VkPhysicalDevice
  | [] => none
  | device :: rest =>
    if (isPhysicalDeviceSuitable device && isDeviceSuitable device) = true then
      some device
    else
      getPhysicalDeviceLoop rest

/-- The function `getPhysicalDevice`, with the result of
`vkEnumeratePhysicalDevices` as the argument `devices`; `none` is
`VK_NULL_HANDLE`.  The loop that only prints is left out. -/
def getPhysicalDevice (devices : List VkPhysicalDevice) :
    Except String (Option VkPhysicalDevice) :=
  let deviceCount := devices.length
  if deviceCount = 0 then
    Except.error "failed to find GPUs with Vulkan support!"
  else
    Except.ok (getPhysicalDeviceLoop devices)

/-- The method `pickPhysicalDevice`; the result is the new `_physicalDevice`. -/
def pickPhysicalDevice (devices : List VkPhysicalDevice) : Except String VkPhysicalDevice :=
  match getPhysicalDevice devices with
  | Except.error what => Except.error what
  | Except.ok none => Except.error "failed to find a suitable GPU!"
  | Except.ok (some physicalDevice) => Except.ok physicalDevice

/-- A queue family has graphics capability: the condition of the graphics
branch of `findQueueFamilies`. -/
abbrev graphicsCapable (queueFamily : VkQueueFamilyProperties) : Prop :=
  queueFamily.queueCount > 0 ∧ queueFamily.queueFlags &&& VK_QUEUE_GRAPHICS_BIT ≠ 0

/-- Family `i` of the device has graphics capability. -/
def graphicsAt (physicalDevice : VkPhysicalDevice) (i : Nat) : Prop :=
  ∃ queueFamily, physicalDevice.queueFamilies[i]? = some queueFamily ∧
    graphicsCapable queueFamily

/-- The surface reports family `i` of the device as presentable. -/
def presentableAt (physicalDevice : VkPhysicalDevice) (i : Nat) : Prop :=
  i < physicalDevice.queueFamilies.length ∧ physicalDevice.surfaceSupport i = true

/-- The error class `NoSuitableDeviceError` of the specification: the two
messages with which device selection throws. -/
def NoSuitableDeviceError (what : String) : Prop :=
  what = "failed to find GPUs with Vulkan support!" ∨ what = "failed to find a suitable GPU!"

/-- A swapchain support answer with one format and one present mode, used in
the examples. -/
def exampleSwapChainSupport : SwapChainSupportDetails :=
  ⟨⟨2, 0, ⟨640, 480⟩, ⟨400, 300⟩, ⟨1024, 768⟩, 1⟩,
    [⟨VK_FORMAT_B8G8R8A8_UNORM, VK_COLOR_SPACE_SRGB_NONLINEAR_KHR⟩], [VK_PRESENT_MODE_FIFO_KHR]⟩

/-- A device with the given type, queue families, surface answers and
extension names, with `exampleSwapChainSupport` and two memory types
(device-local; host-visible and host-coherent), used in the examples. -/
def exampleDevice (deviceType : VkPhysicalDeviceType)
    (queueFamilies : List VkQueueFamilyProperties) (surfaceSupport : Nat → Bool)
    (extensionNames : List String) : VkPhysicalDevice :=
  ⟨deviceType, queueFamilies, surfaceSupport,
    extensionNames.map (fun name => ⟨name, 1⟩), exampleSwapChainSupport,
    ⟨[⟨VK_MEMORY_PROPERTY_DEVICE_LOCAL_BIT, 0⟩,
      ⟨VK_MEMORY_PROPERTY_HOST_VISIBLE_BIT ||| VK_MEMORY_PROPERTY_HOST_COHERENT_BIT, 1⟩]⟩⟩

/-! ## Results of device calls and of methods -/

/-- Values of the C enumeration `VkResult`. -/
abbrev VkResult := Int

def VK_SUCCESS : VkResult := 0
def VK_TIMEOUT : VkResult := 2
def VK_ERROR_OUT_OF_HOST_MEMORY : VkResult := -1
def VK_ERROR_DEVICE_LOST : VkResult := -4
def VK_ERROR_EXTENSION_NOT_PRESENT : VkResult := -7
def VK_ERROR_OUT_OF_DATE_KHR : VkResult := -1000001004

/-- How a method ends: it returns, it throws a `std::runtime_error` with the
message `what`, or its behaviour is undefined (an out-of-bounds read). -/
inductive Outcome (α : Type) where
  | ok (value : α)
  | thrown (what : String)
  | undefined

/-- Sequencing of two steps: the second runs only when the first returned. -/
def Outcome.bind {α β : Type} (first : Outcome α) (next : α → Outcome β) : Outcome β :=
  match first with
  | Outcome.ok value => next value
  | Outcome.thrown what => Outcome.thrown what
  | Outcome.undefined => Outcome.undefined

/-- A thrown `std::runtime_error` given as `Except.error` becomes `thrown`. -/
def Outcome.ofExcept {α : Type} (result : Except String α) : Outcome α :=
  match result with
  | Except.ok value => Outcome.ok value
  | Except.error what => Outcome.thrown what

/-! ## Application state (members of `HelloTriangleApplication`) -/

/-- The constant `MAX_FRAMES_IN_FLIGHT`. -/
def MAX_FRAMES_IN_FLIGHT : Nat := 2

/-- A swapchain image handle `VkImage`, an opaque number given by the device. -/
abbrev VkImage := Nat

def VK_IMAGE_VIEW_TYPE_2D : Nat := 1
def VK_COMPONENT_SWIZZLE_IDENTITY : Nat := 0
def VK_IMAGE_ASPECT_COLOR_BIT : Nat := 1

/-- The fields of `VkImageViewCreateInfo` that `createImageView` fills in. -/
structure VkImageViewCreateInfo where
  image : VkImage
  viewType : Nat
  format : VkFormat
  componentsR : Nat
  componentsG : Nat
  componentsB : Nat
  componentsA : Nat
  aspectMask : Nat
  baseMipLevel : Nat
  levelCount : Nat
  baseArrayLayer : Nat
  layerCount : Nat
  deriving DecidableEq, Repr

/-- An image-view handle `VkImageView`, represented by the parameters of the
`vkCreateImageView` call that produced it. -/
structure VkImageView where
  createInfo : VkImageViewCreateInfo
  deriving DecidableEq, Repr

/-- The fields of `VkFramebufferCreateInfo` that `createFrameBuffers` fills in
(the render pass handle is left out); `attachmentCount` is the length of
`attachments`. -/
structure VkFramebufferCreateInfo where
  attachments : List VkImageView
  width : Nat
  height : Nat
  layers : Nat
  deriving DecidableEq, Repr

/-- A framebuffer handle `VkFramebuffer`, represented by the parameters of the
`vkCreateFramebuffer` call that produced it. -/
structure VkFramebuffer where
  createInfo : VkFramebufferCreateInfo
  deriving DecidableEq, Repr

/-- The commands that `createCommandBuffers` records, with the arguments that
vary or are constants of the source (pipeline, render pass and vertex buffer
handles are left out). -/
inductive Command where
  | vkCmdBeginRenderPass (framebuffer : VkFramebuffer) (renderAreaExtent : VkExtent2D)
  | vkCmdBindPipeline
  | vkCmdBindVertexBuffers (firstBinding bindingCount : Nat)
  | vkCmdDraw (vertexCount instanceCount firstVertex firstInstance : Nat)
  | vkCmdEndRenderPass
  deriving DecidableEq, Repr

/-- A command-buffer handle `VkCommandBuffer`, represented by the state of the
buffer: how often `vkBeginCommandBuffer` started a recording on it, and the
commands of the latest recording. -/
structure VkCommandBuffer where
  beginCount : Nat
  commands : List Command
  deriving DecidableEq, Repr

def VK_FENCE_CREATE_SIGNALED_BIT : Nat := 1

/-- A semaphore handle `VkSemaphore`, represented by the flags it was created with. -/
structure VkSemaphore where
  flags : Nat
  deriving DecidableEq, Repr

/-- A fence handle `VkFence`, represented by the flags it was created with. -/
structure VkFence where
  flags : Nat
  deriving DecidableEq, Repr

/-- Modelled from the spec: the class `HelloTriangleApplication` is declared in
`HelloTriangleApplication.h`, which is not among the sources.  These are the
members that the embedded methods read or write (the presentation chain of the
data model: ordered images, parallel image views and framebuffers, the
pre-recorded command buffers, the per-slot synchronisation objects and the
current-frame counter); members that hold one opaque handle are left out. -/
structure HelloTriangleApplication where
  _physicalDevice : VkPhysicalDevice
  _swapChainImages : List VkImage
  _swapChainImageFormat : VkFormat
  _swapChainExtent : VkExtent2D
  _swapChainImageViews : List VkImageView
  _swapChainBuffers : List VkFramebuffer
  _commandBuffers : List VkCommandBuffer
  _imageAvailableSemaphores : List VkSemaphore
  _renderFinishedSemaphores : List VkSemaphore
  _inFlightFences : List VkFence
  _currentFrame : Nat

/-- A member of `HelloTriangleApplication` that holds a handle, by its name,
with the index of the element for the members that are vectors. -/
inductive Member where
  | _renderFinishedSemaphores (i : Nat)
  | _imageAvailableSemaphores (i : Nat)
  | _inFlightFences (i : Nat)
  | _commandPool
  | _swapChainBuffers (i : Nat)
  | _graphicsPipeline
  | _pipelineLayout
  | _renderPass
  | _vertexShaderModule
  | _fragmentShaderModule
  | _vertexBuffer
  | _vertexBufferMemory
  | _swapChainImageViews (i : Nat)
  | _swapChain
  | _device
  | _callback
  | _surface
  | _instance
  | _window
  | _commandBuffers (i : Nat)
  | _graphicsQueue
  | _presentQueue
  deriving DecidableEq, Repr

/-! ## The frame loop (source lines 106-167) -/

def VK_PIPELINE_STAGE_COLOR_ATTACHMENT_OUTPUT_BIT : Nat := 1024

/-- What the device answers to the calls of one `drawFrame`: the result of
each call and the image index written by `vkAcquireNextImageKHR`. -/
structure DrawFrameOutcomes where
  vkWaitForFences : VkResult
  vkResetFences : VkResult
  vkAcquireNextImageKHR : VkResult
  imageIndex : Nat
  vkQueueSubmit : VkResult
  vkQueuePresentKHR : VkResult
  deriving DecidableEq, Repr

/-- A device call of `drawFrame` with the arguments that vary and its result.
Fences, semaphores and command buffers are named by their index in
`_inFlightFences`, `_imageAvailableSemaphores` (wait semaphore of the submit
and semaphore of the acquire), `_renderFinishedSemaphores` (signal semaphore
of the submit and wait semaphore of the present) and `_commandBuffers`; the
model does not tell an index beyond the end of its vector apart. -/
inductive DeviceCall where
  | vkWaitForFences (fence : Nat) (result : VkResult)
  | vkResetFences (fence : Nat) (result : VkResult)
  | vkAcquireNextImageKHR (semaphore : Nat) (result : VkResult)
  | vkQueueSubmit (waitSemaphore waitDstStageMask commandBuffer signalSemaphore fence : Nat)
      (result : VkResult)
  | vkQueuePresentKHR (waitSemaphore imageIndex : Nat) (result : VkResult)
  deriving DecidableEq, Repr

def UINT64_MAX : Nat := 18446744073709551615

/-- The fields of `VkSubmitInfo` that `drawFrame` sets, the structure tag
apart.  A pointer field is the array it points to, of handles named by the
member that holds them. -/
structure VkSubmitInfo where
  waitSemaphoreCount : Nat
  pWaitSemaphores : List Member
  pWaitDstStageMask : List Nat
  commandBufferCount : Nat
  pCommandBuffers : List Member
  signalSemaphoreCount : Nat
  pSignalSemaphores : List Member
  deriving DecidableEq, Repr

/-- The fields of `VkPresentInfoKHR` that `drawFrame` sets, the structure tag
apart; `pResults` is `none` for `nullptr`. -/
structure VkPresentInfoKHR where
  waitSemaphoreCount : Nat
  pWaitSemaphores : List Member
  swapchainCount : Nat
  pSwapchains : List Member
  pImageIndices : List Nat
  pResults : Option Unit
  deriving DecidableEq, Repr

/-- A device call of `drawFrame` with all the arguments that the source
passes: every handle is named by the member that holds it, `none` is
`VK_NULL_HANDLE`, and a pointer argument is the array or structure it points
to (the allocator and the address of `imageIndex` apart). -/
inductive FrameCall where
  | vkWaitForFences (device : Member) (fenceCount : Nat) (pFences : List Member)
      (waitAll timeout : Nat) (result : VkResult)
  | vkResetFences (device : Member) (fenceCount : Nat) (pFences : List Member)
      (result : VkResult)
  | vkAcquireNextImageKHR (device swapchain : Member) (timeout : Nat)
      (semaphore fence : Option Member) (result : VkResult)
  | vkQueueSubmit (queue : Member) (submitCount : Nat) (pSubmits : List VkSubmitInfo)
      (fence : Option Member) (result : VkResult)
  | vkQueuePresentKHR (queue : Member) (pPresentInfo : VkPresentInfoKHR) (result : VkResult)
  deriving DecidableEq, Repr

/-- One run of `drawFrame`: the device calls it issued, in order, once with
the slot and image numbers only (`calls`) and once with all their arguments
(`trace`), and how it ended (the new application state, or the message of the
thrown error). -/
structure DrawFrameRun where
  calls : List DeviceCall
  trace : List FrameCall
  result : Except String HelloTriangleApplication

/-- The method `drawFrame`.  The constant `MAX_FRAMES_IN_FLIGHT` is the
argument `framesInFlight`.  Only the result of `vkQueueSubmit` is inspected;
the only member written is `_currentFrame`. -/
def drawFrame (framesInFlight : Nat) (outcomes : DrawFrameOutcomes)
    (app : HelloTriangleApplication) : DrawFrameRun :=
  let imageIndex := outcomes.imageIndex
  let calls : List DeviceCall :=
    [DeviceCall.vkWaitForFences app._currentFrame outcomes.vkWaitForFences,
      DeviceCall.vkResetFences app._currentFrame outcomes.vkResetFences,
      DeviceCall.vkAcquireNextImageKHR app._currentFrame outcomes.vkAcquireNextImageKHR,
      DeviceCall.vkQueueSubmit app._currentFrame VK_PIPELINE_STAGE_COLOR_ATTACHMENT_OUTPUT_BIT
        imageIndex app._currentFrame app._currentFrame outcomes.vkQueueSubmit]
  let waitSemaphores : List Member := [Member._imageAvailableSemaphores app._currentFrame]
  let waitStages : List Nat := [VK_PIPELINE_STAGE_COLOR_ATTACHMENT_OUTPUT_BIT]
  let signalSemaphores : List Member := [Member._renderFinishedSemaphores app._currentFrame]
  let submitInfo : VkSubmitInfo :=
    { waitSemaphoreCount := 1
      pWaitSemaphores := waitSemaphores
      pWaitDstStageMask := waitStages
      commandBufferCount := 1
      pCommandBuffers := [Member._commandBuffers imageIndex]
      signalSemaphoreCount := 1
      pSignalSemaphores := signalSemaphores }
  let trace : List FrameCall :=
    [FrameCall.vkWaitForFences Member._device 1 [Member._inFlightFences app._currentFrame]
        VK_TRUE UINT64_MAX outcomes.vkWaitForFences,
      FrameCall.vkResetFences Member._device 1 [Member._inFlightFences app._currentFrame]
        outcomes.vkResetFences,
      FrameCall.vkAcquireNextImageKHR Member._device Member._swapChain UINT64_MAX
        (some (Member._imageAvailableSemaphores app._currentFrame)) none
        outcomes.vkAcquireNextImageKHR,
      FrameCall.vkQueueSubmit Member._graphicsQueue 1 [submitInfo]
        (some (Member._inFlightFences app._currentFrame)) outcomes.vkQueueSubmit]
  if outcomes.vkQueueSubmit ≠ VK_SUCCESS then
    { calls := calls
      trace := trace
      result := Except.error "failed to submit draw command buffer!" }
  else
    let swapChains : List Member := [Member._swapChain]
    let presentInfo : VkPresentInfoKHR :=
      { waitSemaphoreCount := 1
        pWaitSemaphores := signalSemaphores
        swapchainCount := 1
        pSwapchains := swapChains
        pImageIndices := [imageIndex]
        pResults := none }
    { calls := calls ++
        [DeviceCall.vkQueuePresentKHR app._currentFrame imageIndex outcomes.vkQueuePresentKHR]
      trace := trace ++
        [FrameCall.vkQueuePresentKHR Member._presentQueue presentInfo
          outcomes.vkQueuePresentKHR]
      result := Except.ok
        { app with _currentFrame := (app._currentFrame + 1) % framesInFlight } }

/-- The loop of `mainLoop`: one `drawFrame` per element of `frames`, the
device answers of the frames drawn before the window closes; a throwing frame
ends the loop.  The result lists the calls of every frame entered. -/
def mainLoopFrames (framesInFlight : Nat) :
    List DrawFrameOutcomes → HelloTriangleApplication →
      List (List DeviceCall) × Except String HelloTriangleApplication
  | [], app => ([], Except.ok app)
  | outcomes :: frames, app =>
    match (drawFrame framesInFlight outcomes app).result with
    | Except.error what =>
      ([(drawFrame framesInFlight outcomes app).calls], Except.error what)
    | Except.ok app1 =>
      ((drawFrame framesInFlight outcomes app).calls ::
          (mainLoopFrames framesInFlight frames app1).1,
        (mainLoopFrames framesInFlight frames app1).2)

/-- An application state used in the examples: one device, three swapchain
images, no views, framebuffers or command buffers yet, frame counter 0. -/
def exampleApp : HelloTriangleApplication :=
  { _physicalDevice :=
      exampleDevice VK_PHYSICAL_DEVICE_TYPE_DISCRETE_GPU [⟨1, 1⟩] (fun _ => true)
        ["VK_KHR_swapchain"]
    _swapChainImages := [11, 12, 13]
    _swapChainImageFormat := VK_FORMAT_B8G8R8A8_UNORM
    _swapChainExtent := ⟨640, 480⟩
    _swapChainImageViews := []
    _swapChainBuffers := []
    _commandBuffers := []
    _imageAvailableSemaphores := []
    _renderFinishedSemaphores := []
    _inFlightFences := []
    _currentFrame := 0 }

/-- Device answers of a frame in which every call reports success and the
acquired image has the given index. -/
def frameSuccess (imageIndex : Nat) : DrawFrameOutcomes :=
  ⟨VK_SUCCESS, VK_SUCCESS, VK_SUCCESS, imageIndex, VK_SUCCESS, VK_SUCCESS⟩

/-! ## Frame pacing: the calls of `drawFrame` interleaved with GPU completions -/

/-- State of the interleaving of the host with the GPU.  `app` is the
application state between frames; `todo` holds the calls of the running
`drawFrame` that the host has not issued yet and `result` how that frame ends
once they are issued; `stopped` says that a frame has thrown.  `fences` is the
signaled state of each fence of `_inFlightFences`, and `outstanding` lists,
for every submission that the GPU has not completed, the index of its fence. -/
structure PacingState where
  app : HelloTriangleApplication
  stopped : Bool
  todo : List DeviceCall
  result : Except String HelloTriangleApplication
  fences : List Bool
  outstanding : List Nat

/-- An event of the interleaving: the host enters `drawFrame` (with the
answers the device will give in that frame), the host issues the next call of
the running frame, or the GPU completes the outstanding submission at position
`k` and signals its fence. -/
inductive PacingEvent where
  | enter (outcomes : DrawFrameOutcomes)
  | call
  | complete (k : Nat)

/-- Effect of one device call on the fences and the outstanding submissions;
`none` means that the host is blocked.  A wait passes only when its fence is
signaled; a successful reset unsignals the fence; a successful submit adds an
outstanding submission with its fence. -/
def applyDeviceCall (fences : List Bool) (outstanding : List Nat) :
    DeviceCall → Option (List Bool × List Nat)
  | DeviceCall.vkWaitForFences fence _ =>
    if fences[fence]? = some true then some (fences, outstanding) else none
  | DeviceCall.vkResetFences fence result =>
    if result = VK_SUCCESS then some (fences.set fence false, outstanding)
    else some (fences, outstanding)
  | DeviceCall.vkAcquireNextImageKHR _ _ => some (fences, outstanding)
  | DeviceCall.vkQueueSubmit _ _ _ _ fence result =>
    if result = VK_SUCCESS then some (fences, outstanding ++ [fence])
    else some (fences, outstanding)
  | DeviceCall.vkQueuePresentKHR _ _ _ => some (fences, outstanding)

/-- One event of the interleaving for `framesInFlight` slots; an event that is
not enabled leaves the state as it is. -/
def pacingStep (framesInFlight : Nat) (s : PacingState) : PacingEvent → PacingState
  | PacingEvent.enter outcomes =>
    if s.stopped = true ∨ s.todo ≠ [] then s
    else
      { s with
        todo := (drawFrame framesInFlight outcomes s.app).calls
        result := (drawFrame framesInFlight outcomes s.app).result }
  | PacingEvent.call =>
    match s.todo with
    | [] => s
    | deviceCall :: rest =>
      match applyDeviceCall s.fences s.outstanding deviceCall with
      | none => s
      | some (fences, outstanding) =>
        if rest = [] then
          match s.result with
          | Except.ok app =>
            { s with app := app, todo := [], fences := fences, outstanding := outstanding }
          | Except.error _ =>
            { s with stopped := true, todo := [], fences := fences, outstanding := outstanding }
        else
          { s with todo := rest, fences := fences, outstanding := outstanding }
  | PacingEvent.complete k =>
    match s.outstanding[k]? with
    | none => s
    | some fence =>
      { s with fences := s.fences.set fence true, outstanding := s.outstanding.eraseIdx k }

/-- The state before the first frame: every fence was created signaled
(`VK_FENCE_CREATE_SIGNALED_BIT` in `createSynchronizationObjects`) and nothing
is outstanding. -/
def pacingInit (framesInFlight : Nat) (app : HelloTriangleApplication) : PacingState :=
  { app := app
    stopped := false
    todo := []
    result := Except.ok app
    fences := List.replicate framesInFlight true
    outstanding := [] }

/-- The state after a sequence of events. -/
def pacingRun (framesInFlight : Nat) (s : PacingState) (events : List PacingEvent) :
    PacingState :=
  events.foldl (pacingStep framesInFlight) s

/-- The present call that follows a successful submit, if any. -/
def presentTail (slot : Nat) (outcomes : DrawFrameOutcomes) : List DeviceCall :=
  if outcomes.vkQueueSubmit ≠ VK_SUCCESS then []
  else [DeviceCall.vkQueuePresentKHR slot outcomes.imageIndex outcomes.vkQueuePresentKHR]

/-- The submit call of a frame that runs on `slot`. -/
def submitCall (slot : Nat) (outcomes : DrawFrameOutcomes) : DeviceCall :=
  DeviceCall.vkQueueSubmit slot VK_PIPELINE_STAGE_COLOR_ATTACHMENT_OUTPUT_BIT
    outcomes.imageIndex slot slot outcomes.vkQueueSubmit

/-- Where the running frame stands, read off `todo`, with what is known about
the fence of its slot at that point. -/
def PacingFrameInv (framesInFlight : Nat) (s : PacingState) : Prop :=
  s.todo = [] ∨
    ∃ outcomes : DrawFrameOutcomes,
      outcomes.vkResetFences = VK_SUCCESS ∧
      s.result = (drawFrame framesInFlight outcomes s.app).result ∧
      (s.todo =
          DeviceCall.vkWaitForFences s.app._currentFrame outcomes.vkWaitForFences ::
            DeviceCall.vkResetFences s.app._currentFrame outcomes.vkResetFences ::
            DeviceCall.vkAcquireNextImageKHR s.app._currentFrame
              outcomes.vkAcquireNextImageKHR ::
            submitCall s.app._currentFrame outcomes ::
            presentTail s.app._currentFrame outcomes ∨
        (s.todo =
            DeviceCall.vkResetFences s.app._currentFrame outcomes.vkResetFences ::
              DeviceCall.vkAcquireNextImageKHR s.app._currentFrame
                outcomes.vkAcquireNextImageKHR ::
              submitCall s.app._currentFrame outcomes ::
              presentTail s.app._currentFrame outcomes ∧
          s.app._currentFrame ∉ s.outstanding) ∨
        (s.todo =
            DeviceCall.vkAcquireNextImageKHR s.app._currentFrame
                outcomes.vkAcquireNextImageKHR ::
              submitCall s.app._currentFrame outcomes ::
              presentTail s.app._currentFrame outcomes ∧
          s.app._currentFrame ∉ s.outstanding ∧
          s.fences[s.app._currentFrame]? = some false) ∨
        (s.todo =
            submitCall s.app._currentFrame outcomes ::
              presentTail s.app._currentFrame outcomes ∧
          s.app._currentFrame ∉ s.outstanding ∧
          s.fences[s.app._currentFrame]? = some false) ∨
        (s.todo = presentTail s.app._currentFrame outcomes ∧
          outcomes.vkQueueSubmit = VK_SUCCESS))

/-- The invariant of the interleaving: one fence per slot, the frame counter
names a slot, the outstanding submissions have pairwise different fences, all
of them unsignaled, and the running frame is consistent with them. -/
def PacingInv (framesInFlight : Nat) (s : PacingState) : Prop :=
  s.fences.length = framesInFlight ∧
    s.app._currentFrame < framesInFlight ∧
    s.outstanding.Nodup ∧
    (∀ fence ∈ s.outstanding, s.fences[fence]? = some false) ∧
    PacingFrameInv framesInFlight s

/-! ## Teardown (source lines 507-556) -/

/-- A call issued by `cleanup`, with the member whose handle it receives. -/
inductive CleanupCall where
  | vkDestroySemaphore (member : Member)
  | vkDestroyFence (member : Member)
  | vkDestroyCommandPool (member : Member)
  | vkDestroyFramebuffer (member : Member)
  | vkDestroyPipeline (member : Member)
  | vkDestroyPipelineLayout (member : Member)
  | vkDestroyRenderPass (member : Member)
  | vkDestroyShaderModule (member : Member)
  | vkDestroyBuffer (member : Member)
  | vkFreeMemory (member : Member)
  | vkDestroyImageView (member : Member)
  | vkDestroySwapchainKHR (member : Member)
  | vkDestroyDevice (member : Member)
  | DestroyDebugUtilsMessengerEXT (member : Member)
  | vkDestroySurfaceKHR (member : Member)
  | vkDestroyInstance (member : Member)
  | glfwDestroyWindow (member : Member)
  | glfwTerminate
  deriving DecidableEq, Repr

/-- The first loop of `cleanup`, from slot `i` on with `remaining` slots to
go: both semaphores and the fence of each slot. -/
def cleanupSyncLoop : Nat → Nat → List CleanupCall
  | _, 0 => []
  | i, remaining + 1 =>
    CleanupCall.vkDestroySemaphore (Member._renderFinishedSemaphores i) ::
      CleanupCall.vkDestroySemaphore (Member._imageAvailableSemaphores i) ::
      CleanupCall.vkDestroyFence (Member._inFlightFences i) ::
      cleanupSyncLoop (i + 1) remaining

/-- The range-for loop of `cleanup` over `_swapChainBuffers`, from the element
with index `i` on. -/
def cleanupFramebufferLoop : Nat → List VkFramebuffer → List CleanupCall
  | _, [] => []
  | i, _ :: rest =>
    CleanupCall.vkDestroyFramebuffer (Member._swapChainBuffers i) ::
      cleanupFramebufferLoop (i + 1) rest

/-- The range-for loop of `cleanup` over `_swapChainImageViews`, from the
element with index `i` on. -/
def cleanupImageViewLoop : Nat → List VkImageView → List CleanupCall
  | _, [] => []
  | i, _ :: rest =>
    CleanupCall.vkDestroyImageView (Member._swapChainImageViews i) ::
      cleanupImageViewLoop (i + 1) rest

/-- The method `cleanup`: the calls it issues, in order.  The compile-time
constant `enableValidationLayers` is an argument. -/
def cleanup (enableValidationLayers : Bool) (app : HelloTriangleApplication) :
    List CleanupCall :=
  cleanupSyncLoop 0 MAX_FRAMES_IN_FLIGHT ++
    [CleanupCall.vkDestroyCommandPool Member._commandPool] ++
    cleanupFramebufferLoop 0 app._swapChainBuffers ++
    [CleanupCall.vkDestroyPipeline Member._graphicsPipeline,
      CleanupCall.vkDestroyPipelineLayout Member._pipelineLayout,
      CleanupCall.vkDestroyRenderPass Member._renderPass,
      CleanupCall.vkDestroyShaderModule Member._vertexShaderModule,
      CleanupCall.vkDestroyShaderModule Member._fragmentShaderModule,
      CleanupCall.vkDestroyBuffer Member._vertexBuffer,
      CleanupCall.vkFreeMemory Member._vertexBufferMemory] ++
    cleanupImageViewLoop 0 app._swapChainImageViews ++
    [CleanupCall.vkDestroySwapchainKHR Member._swapChain,
      CleanupCall.vkDestroyDevice Member._device] ++
    (if enableValidationLayers = true then
      [CleanupCall.DestroyDebugUtilsMessengerEXT Member._callback]
    else []) ++
    [CleanupCall.vkDestroySurfaceKHR Member._surface,
      CleanupCall.vkDestroyInstance Member._instance,
      CleanupCall.glfwDestroyWindow Member._window,
      CleanupCall.glfwTerminate]

/-- The place of a call in the teardown order of the specification: sync
objects, command pool, framebuffers, pipeline with layout and render pass,
shader modules, vertex buffer with memory, image views, swapchain, device,
diagnostics hook, surface, instance; the window system comes last. -/
def teardownStage : CleanupCall → Nat
  | CleanupCall.vkDestroySemaphore _ => 1
  | CleanupCall.vkDestroyFence _ => 1
  | CleanupCall.vkDestroyCommandPool _ => 2
  | CleanupCall.vkDestroyFramebuffer _ => 3
  | CleanupCall.vkDestroyPipeline _ => 4
  | CleanupCall.vkDestroyPipelineLayout _ => 4
  | CleanupCall.vkDestroyRenderPass _ => 4
  | CleanupCall.vkDestroyShaderModule _ => 5
  | CleanupCall.vkDestroyBuffer _ => 6
  | CleanupCall.vkFreeMemory _ => 6
  | CleanupCall.vkDestroyImageView _ => 7
  | CleanupCall.vkDestroySwapchainKHR _ => 8
  | CleanupCall.vkDestroyDevice _ => 9
  | CleanupCall.DestroyDebugUtilsMessengerEXT _ => 10
  | CleanupCall.vkDestroySurfaceKHR _ => 11
  | CleanupCall.vkDestroyInstance _ => 12
  | CleanupCall.glfwDestroyWindow _ => 13
  | CleanupCall.glfwTerminate => 13

/-! ## Initialisation (source lines 89-104, 435-462, 558-799, 844-1291) -/

/-- The global `validationLayers`. -/
def validationLayers : List String := ["VK_LAYER_LUNARG_standard_validation"]

/-- The inner loop of `checkValidationLayerSupport`: the value of `layerFound`
after the scan of the available layer names. -/
def checkValidationLayerFound (layerName : String) : List String → Bool
  | [] => false
  | layerProperty :: rest =>
    if layerName = layerProperty then true else checkValidationLayerFound layerName rest

/-- The outer loop of `checkValidationLayerSupport` over the requested names. -/
def checkValidationLayerSupportLoop (availableLayers : List String) : List String → Bool
  | [] => true
  | layerName :: rest =>
    if checkValidationLayerFound layerName availableLayers = false then false
    else checkValidationLayerSupportLoop availableLayers rest

/-- The function `checkValidationLayerSupport`, with the layer names answered
by `vkEnumerateInstanceLayerProperties` as the argument. -/
def checkValidationLayerSupport (availableLayers : List String) : Bool :=
  checkValidationLayerSupportLoop availableLayers validationLayers

/-- What the device answers to the calls of one `createBuffer`. -/
structure CreateBufferOutcomes where
  vkCreateBuffer : VkResult
  memoryTypeBits : Nat
  vkAllocateMemory : VkResult
  deriving DecidableEq, Repr

/-- What the device answers to the calls of `copyBuffer` that return a
`VkResult`. -/
structure CopyBufferOutcomes where
  vkAllocateCommandBuffers : VkResult
  vkBeginCommandBuffer : VkResult
  vkEndCommandBuffer : VkResult
  vkQueueSubmit : VkResult
  vkQueueWaitIdle : VkResult
  deriving DecidableEq, Repr

/-- What the environment answers to the calls of one `createShaderModule`:
the size of the file read by `shaderReader::readFile` and the result of
`vkCreateShaderModule`. -/
structure CreateShaderModuleOutcomes where
  shaderSize : Nat
  vkCreateShaderModule : VkResult
  deriving DecidableEq, Repr

/-- What the window system and the device answer to the calls of
`initVulkan`.  A result indexed by a number belongs to the call for the
element with that index.  `vkCreateDebugUtilsMessengerEXT` is `none` when
`vkGetInstanceProcAddr` returns a null pointer and otherwise the result of the
resolved function. -/
structure InitOutcomes where
  availableLayers : List String
  vkCreateInstance : VkResult
  vkCreateDebugUtilsMessengerEXT : Option VkResult
  glfwCreateWindowSurface : VkResult
  devices : List VkPhysicalDevice
  vkCreateDevice : VkResult
  vkCreateSwapchainKHR : VkResult
  swapChainImages : List VkImage
  vkCreateImageView : Nat → VkResult
  vkCreateRenderPass : VkResult
  vertexShader : CreateShaderModuleOutcomes
  fragmentShader : CreateShaderModuleOutcomes
  vkCreatePipelineLayout : VkResult
  vkCreateGraphicsPipelines : VkResult
  vkCreateFramebuffer : Nat → VkResult
  vkCreateCommandPool : VkResult
  stagingBuffer : CreateBufferOutcomes
  vertexBuffer : CreateBufferOutcomes
  copyBuffer : CopyBufferOutcomes
  vkAllocateCommandBuffers : VkResult
  vkBeginCommandBuffer : Nat → VkResult
  vkEndCommandBuffer : Nat → VkResult
  vkCreateSemaphoreImageAvailable : Nat → VkResult
  vkCreateSemaphoreRenderFinished : Nat → VkResult
  vkCreateFence : Nat → VkResult

/-- The layer part of the `VkInstanceCreateInfo` that `createInstance` fills
in; the extension names, which come from the window system, are left out. -/
structure VkInstanceCreateInfo where
  enabledLayerCount : Nat
  ppEnabledLayerNames : List String
  deriving DecidableEq, Repr

/-- The calls of `createInstance` to the Vulkan loader and the window system,
in the order of a run. -/
inductive InstanceCall where
  | vkEnumerateInstanceLayerProperties
  | glfwGetRequiredInstanceExtensions
  | vkCreateInstance (pCreateInfo : VkInstanceCreateInfo) (result : VkResult)
  deriving DecidableEq, Repr

/-- A run of `createInstance`: the calls it made and how it ended. -/
structure CreateInstanceRun where
  calls : List InstanceCall
  result : Outcome HelloTriangleApplication

/-- The method `createInstance`: the layer check when validation is enabled
(`checkValidationLayerSupport` asks for the layers twice, first for their
number), then the extension names (asked for here and in
`getRequiredExtensions`), then `vkCreateInstance`. -/
def createInstance (enableValidationLayers : Bool) (env : InitOutcomes)
    (app : HelloTriangleApplication) : CreateInstanceRun :=
  let layerCalls : List InstanceCall :=
    if enableValidationLayers = true then
      [InstanceCall.vkEnumerateInstanceLayerProperties,
        InstanceCall.vkEnumerateInstanceLayerProperties]
    else []
  if enableValidationLayers = true ∧ checkValidationLayerSupport env.availableLayers = false then
    { calls := layerCalls
      result := Outcome.thrown "validation layers requested, but not available" }
  else
    let createInfo : VkInstanceCreateInfo :=
      if enableValidationLayers = true then
        { enabledLayerCount := validationLayers.length % 4294967296
          ppEnabledLayerNames := validationLayers }
      else
        { enabledLayerCount := 0, ppEnabledLayerNames := [] }
    let calls : List InstanceCall :=
      layerCalls ++
        [InstanceCall.glfwGetRequiredInstanceExtensions,
          InstanceCall.glfwGetRequiredInstanceExtensions,
          InstanceCall.vkCreateInstance createInfo env.vkCreateInstance]
    if env.vkCreateInstance ≠ VK_SUCCESS then
      { calls := calls, result := Outcome.thrown "Failed to create Vulkan instance!" }
    else
      { calls := calls, result := Outcome.ok app }

/-- The function `CreateDebugUtilsMessengerEXT`: the result of the resolved
function, or `VK_ERROR_EXTENSION_NOT_PRESENT` when it is not resolved. -/
def CreateDebugUtilsMessengerEXT (func : Option VkResult) : VkResult :=
  match func with
  | some result => result
  | none => VK_ERROR_EXTENSION_NOT_PRESENT

/-- The method `setupDebugCallback`. -/
def setupDebugCallback (enableValidationLayers : Bool) (env : InitOutcomes)
    (app : HelloTriangleApplication) : Outcome HelloTriangleApplication :=
  if enableValidationLayers = false then
    Outcome.ok app
  else if CreateDebugUtilsMessengerEXT env.vkCreateDebugUtilsMessengerEXT ≠ VK_SUCCESS then
    Outcome.thrown "failed to set up debug callback!"
  else
    Outcome.ok app

/-- The method `createSurface`. -/
def createSurface (env : InitOutcomes) (app : HelloTriangleApplication) :
    Outcome HelloTriangleApplication :=
  if env.glfwCreateWindowSurface ≠ VK_SUCCESS then
    Outcome.thrown "failed to create window"
  else
    Outcome.ok app

/-- The method `pickPhysicalDevice` as a step on the application state. -/
def pickPhysicalDeviceStep (env : InitOutcomes) (app : HelloTriangleApplication) :
    Outcome HelloTriangleApplication :=
  (Outcome.ofExcept (pickPhysicalDevice env.devices)).bind
    (fun physicalDevice => Outcome.ok { app with _physicalDevice := physicalDevice })

/-- The fields of `VkDeviceQueueCreateInfo` that `createLogicalDevice` fills
in, the priority apart. -/
structure VkDeviceQueueCreateInfo where
  queueFamilyIndex : Nat
  queueCount : Nat
  deriving DecidableEq, Repr

/-- The fields of `VkDeviceCreateInfo` that `createLogicalDevice` fills in, the
(zeroed) device features apart. -/
structure VkDeviceCreateInfo where
  pQueueCreateInfos : List VkDeviceQueueCreateInfo
  queueCreateInfoCount : Nat
  enabledExtensionCount : Nat
  ppEnabledExtensionNames : List String
  deriving DecidableEq, Repr

/-- Insertion of `x` into a `std::set<int>`, held as the ascending list of its
elements (the order in which a range-for visits them). -/
def stdSetInsert (x : Int) : List Int → List Int
  | [] => [x]
  | y :: rest =>
    if x < y then x :: y :: rest
    else if x = y then y :: rest
    else y :: stdSetInsert x rest

/-- The local `uniqueQueueFamilies` of `createLogicalDevice`: the set built
from the two family indices. -/
def uniqueQueueFamilies (indices : QueueFamilyIndices) : List Int :=
  stdSetInsert indices.presentFamily (stdSetInsert indices.graphicsFamily [])

/-- The part of `createLogicalDevice` that builds the argument of
`vkCreateDevice`: one queue-create record with one queue for every element of
`uniqueQueueFamilies`, and the global `deviceExtensions`. -/
def createLogicalDeviceInfo (indices : QueueFamilyIndices) : VkDeviceCreateInfo :=
  let queueCreateInfos : List VkDeviceQueueCreateInfo :=
    (uniqueQueueFamilies indices).map
      (fun queueFamily => { queueFamilyIndex := castUInt32 queueFamily, queueCount := 1 })
  { pQueueCreateInfos := queueCreateInfos
    queueCreateInfoCount := queueCreateInfos.length % 4294967296
    enabledExtensionCount := deviceExtensions.length % 4294967296
    ppEnabledExtensionNames := deviceExtensions }

/-- A run of `createLogicalDevice`: the argument of `vkCreateDevice` and how
the method ended. -/
structure CreateLogicalDeviceRun where
  pCreateInfo : VkDeviceCreateInfo
  result : Outcome HelloTriangleApplication

/-- The method `createLogicalDevice`; the queue handles fetched after the
creation are left out. -/
def createLogicalDevice (env : InitOutcomes) (app : HelloTriangleApplication) :
    CreateLogicalDeviceRun :=
  let indices := findQueueFamilies app._physicalDevice
  let createInfo := createLogicalDeviceInfo indices
  if env.vkCreateDevice ≠ VK_SUCCESS then
    { pCreateInfo := createInfo, result := Outcome.thrown "failed to create logical device!" }
  else
    { pCreateInfo := createInfo, result := Outcome.ok app }

/-- The method `createSwapChain`.  The parameters are those of
`createSwapChainInfo` for the globals `WIDTH` and `HEIGHT`; the images are the
ones that `vkGetSwapchainImagesKHR` hands out. -/
def createSwapChain (env : InitOutcomes) (app : HelloTriangleApplication) :
    Outcome HelloTriangleApplication :=
  let swapChainSupport := app._physicalDevice.swapChainSupport
  let indices := findQueueFamilies app._physicalDevice
  match createSwapChainInfo WIDTH HEIGHT swapChainSupport indices with
  | none => Outcome.undefined
  | some createInfo =>
    if env.vkCreateSwapchainKHR ≠ VK_SUCCESS then
      Outcome.thrown "failed to create swap chain!"
    else
      Outcome.ok
        { app with
          _swapChainImages := env.swapChainImages
          _swapChainImageFormat := createInfo.imageFormat
          _swapChainExtent := createInfo.imageExtent }

/-- The loop of `createImageView` from the image with index `i` on: the views
written to the elements `i`, `i + 1`, ... of `_swapChainImageViews`. -/
def createImageViewLoop (results : Nat → VkResult) (format : VkFormat) :
    Nat → List VkImage → Outcome (List VkImageView)
  | _, [] => Outcome.ok []
  | i, image :: rest =>
    let createInfo : VkImageViewCreateInfo :=
      { image := image
        viewType := VK_IMAGE_VIEW_TYPE_2D
        format := format
        componentsR := VK_COMPONENT_SWIZZLE_IDENTITY
        componentsG := VK_COMPONENT_SWIZZLE_IDENTITY
        componentsB := VK_COMPONENT_SWIZZLE_IDENTITY
        componentsA := VK_COMPONENT_SWIZZLE_IDENTITY
        aspectMask := VK_IMAGE_ASPECT_COLOR_BIT
        baseMipLevel := 0
        levelCount := 1
        baseArrayLayer := 0
        layerCount := 1 }
    if results i ≠ VK_SUCCESS then
      Outcome.thrown "failed to create image views!"
    else
      (createImageViewLoop results format (i + 1) rest).bind
        (fun views => Outcome.ok (⟨createInfo⟩ :: views))

/-- The method `createImageView`: `_swapChainImageViews` is resized to the
number of images and every element is written by the loop. -/
def createImageView (env : InitOutcomes) (app : HelloTriangleApplication) :
    Outcome HelloTriangleApplication :=
  (createImageViewLoop env.vkCreateImageView app._swapChainImageFormat 0
      app._swapChainImages).bind
    (fun views => Outcome.ok { app with _swapChainImageViews := views })

def VK_SAMPLE_COUNT_1_BIT : Nat := 1
def VK_ATTACHMENT_LOAD_OP_CLEAR : Nat := 1
def VK_ATTACHMENT_STORE_OP_STORE : Nat := 0
def VK_IMAGE_LAYOUT_UNDEFINED : Nat := 0
def VK_IMAGE_LAYOUT_COLOR_ATTACHMENT_OPTIMAL : Nat := 2
def VK_IMAGE_LAYOUT_PRESENT_SRC_KHR : Nat := 1000001002
def VK_PIPELINE_BIND_POINT_GRAPHICS : Nat := 0
def VK_SUBPASS_EXTERNAL : Nat := 4294967295
def VK_ACCESS_COLOR_ATTACHMENT_READ_BIT : Nat := 128
def VK_ACCESS_COLOR_ATTACHMENT_WRITE_BIT : Nat := 256

/-- The fields of `VkAttachmentDescription` that `createRenderPass` sets. -/
structure VkAttachmentDescription where
  format : VkFormat
  samples : Nat
  loadOp : Nat
  storeOp : Nat
  initialLayout : Nat
  finalLayout : Nat
  deriving DecidableEq, Repr

/-- The Vulkan structure `VkAttachmentReference`. -/
structure VkAttachmentReference where
  attachment : Nat
  layout : Nat
  deriving DecidableEq, Repr

/-- The fields of `VkSubpassDescription` that `createRenderPass` sets. -/
structure VkSubpassDescription where
  pipelineBindPoint : Nat
  colorAttachmentCount : Nat
  pColorAttachments : List VkAttachmentReference
  deriving DecidableEq, Repr

/-- The fields of `VkSubpassDependency` that `createRenderPass` sets. -/
structure VkSubpassDependency where
  srcSubpass : Nat
  dstSubpass : Nat
  srcStageMask : Nat
  srcAccessMask : Nat
  dstStageMask : Nat
  dstAccessMask : Nat
  deriving DecidableEq, Repr

/-- The Vulkan structure `VkRenderPassCreateInfo`, the structure tag apart; a
null pointer is the empty list. -/
structure VkRenderPassCreateInfo where
  attachmentCount : Nat
  pAttachments : List VkAttachmentDescription
  subpassCount : Nat
  pSubpasses : List VkSubpassDescription
  dependencyCount : Nat
  pDependencies : List VkSubpassDependency
  deriving DecidableEq, Repr

/-- A run of `createRenderPass`: the structure that `vkCreateRenderPass` was
given, the local `renderPassInfo` as it is when the method ends, and how the
method ended. -/
structure CreateRenderPassRun where
  pCreateInfo : VkRenderPassCreateInfo
  renderPassInfo : VkRenderPassCreateInfo
  result : Outcome HelloTriangleApplication

/-- The method `createRenderPass`, statement by statement: the attachment, its
reference, the subpass, the create structure (zero-initialised, then four
fields), the call of `vkCreateRenderPass`, and after it the dependency and the
two assignments that enter it in `renderPassInfo`. -/
def createRenderPass (env : InitOutcomes) (app : HelloTriangleApplication) :
    CreateRenderPassRun :=
  let colorAttachment : VkAttachmentDescription :=
    { format := app._swapChainImageFormat
      samples := VK_SAMPLE_COUNT_1_BIT
      loadOp := VK_ATTACHMENT_LOAD_OP_CLEAR
      storeOp := VK_ATTACHMENT_STORE_OP_STORE
      initialLayout := VK_IMAGE_LAYOUT_UNDEFINED
      finalLayout := VK_IMAGE_LAYOUT_PRESENT_SRC_KHR }
  let colorAttachmentRef : VkAttachmentReference :=
    { attachment := 0, layout := VK_IMAGE_LAYOUT_COLOR_ATTACHMENT_OPTIMAL }
  let subpass : VkSubpassDescription :=
    { pipelineBindPoint := VK_PIPELINE_BIND_POINT_GRAPHICS
      colorAttachmentCount := 1
      pColorAttachments := [colorAttachmentRef] }
  let renderPassInfo : VkRenderPassCreateInfo :=
    { attachmentCount := 1
      pAttachments := [colorAttachment]
      subpassCount := 1
      pSubpasses := [subpass]
      dependencyCount := 0
      pDependencies := [] }
  if env.vkCreateRenderPass ≠ VK_SUCCESS then
    { pCreateInfo := renderPassInfo
      renderPassInfo := renderPassInfo
      result := Outcome.thrown "failed to create render pass!" }
  else
    let dependency : VkSubpassDependency :=
      { srcSubpass := VK_SUBPASS_EXTERNAL
        dstSubpass := 0
        srcStageMask := VK_PIPELINE_STAGE_COLOR_ATTACHMENT_OUTPUT_BIT
        srcAccessMask := 0
        dstStageMask := VK_PIPELINE_STAGE_COLOR_ATTACHMENT_OUTPUT_BIT
        dstAccessMask :=
          VK_ACCESS_COLOR_ATTACHMENT_READ_BIT ||| VK_ACCESS_COLOR_ATTACHMENT_WRITE_BIT }
    { pCreateInfo := renderPassInfo
      renderPassInfo := { renderPassInfo with dependencyCount := 1, pDependencies := [dependency] }
      result := Outcome.ok app }

/-- The method `createShaderModule` for the file at `shaderFilePath`. -/
def createShaderModule (outcomes : CreateShaderModuleOutcomes) (shaderFilePath : String) :
    Outcome Unit :=
  if outcomes.shaderSize = 0 then
    Outcome.thrown ("Did not find file : " ++ shaderFilePath)
  else if outcomes.vkCreateShaderModule ≠ VK_SUCCESS then
    Outcome.thrown "failed to create shader module!"
  else
    Outcome.ok ()

def VK_SHADER_STAGE_VERTEX_BIT : Nat := 1
def VK_SHADER_STAGE_FRAGMENT_BIT : Nat := 16
def VK_DYNAMIC_STATE_VIEWPORT : Nat := 0
def VK_DYNAMIC_STATE_LINE_WIDTH : Nat := 2

/-- The fields of `VkPipelineShaderStageCreateInfo` that
`createGraphicsPipeline` sets, the module handle apart. -/
structure VkPipelineShaderStageCreateInfo where
  stage : Nat
  pName : String
  deriving DecidableEq, Repr

/-- The Vulkan structure `VkPipelineDynamicStateCreateInfo`, the structure tag
apart. -/
structure VkPipelineDynamicStateCreateInfo where
  dynamicStateCount : Nat
  pDynamicStates : List Nat
  deriving DecidableEq, Repr

/-- The fields of `VkGraphicsPipelineCreateInfo` that are not pointers to the
fixed-function records (vertex input, input assembly, viewport, rasteriser,
multisampling, colour blending, all of them set) or handles.  A pointer field
is `none` when the source sets it to `nullptr`. -/
structure VkGraphicsPipelineCreateInfo where
  stageCount : Nat
  pStages : List VkPipelineShaderStageCreateInfo
  pDepthStencilState : Option Unit
  pDynamicState : Option VkPipelineDynamicStateCreateInfo
  subpass : Nat
  basePipelineIndex : Int
  deriving DecidableEq, Repr

/-- A run of `createGraphicsPipeline`: the local `dynamicState` once the
method has filled it in, the structure that `vkCreateGraphicsPipelines` was
given once that call is reached, and how the method ended. -/
structure CreateGraphicsPipelineRun where
  dynamicState : Option VkPipelineDynamicStateCreateInfo
  pCreateInfo : Option VkGraphicsPipelineCreateInfo
  result : Outcome HelloTriangleApplication

/-- The method `createGraphicsPipeline`: both shader modules, the local
records (of which `dynamicStates` and `dynamicState` are kept here), the
pipeline layout, the create structure and the pipeline. -/
def createGraphicsPipeline (env : InitOutcomes) (app : HelloTriangleApplication) :
    CreateGraphicsPipelineRun :=
  match createShaderModule env.vertexShader
      "/Users/enowak/Downloads/vulkanTesting/vulkanTesting/shaders/vert.spv" with
  | Outcome.thrown what =>
    { dynamicState := none, pCreateInfo := none, result := Outcome.thrown what }
  | Outcome.undefined =>
    { dynamicState := none, pCreateInfo := none, result := Outcome.undefined }
  | Outcome.ok _ =>
    let vertShaderStageInfo : VkPipelineShaderStageCreateInfo :=
      { stage := VK_SHADER_STAGE_VERTEX_BIT, pName := "main" }
    match createShaderModule env.fragmentShader
        "/Users/enowak/Downloads/vulkanTesting/vulkanTesting/shaders/frag.spv" with
    | Outcome.thrown what =>
      { dynamicState := none, pCreateInfo := none, result := Outcome.thrown what }
    | Outcome.undefined =>
      { dynamicState := none, pCreateInfo := none, result := Outcome.undefined }
    | Outcome.ok _ =>
      let fragShaderStageInfo : VkPipelineShaderStageCreateInfo :=
        { stage := VK_SHADER_STAGE_FRAGMENT_BIT, pName := "main" }
      let shaderStages := [vertShaderStageInfo, fragShaderStageInfo]
      let dynamicStates : List Nat := [VK_DYNAMIC_STATE_VIEWPORT, VK_DYNAMIC_STATE_LINE_WIDTH]
      let dynamicState : VkPipelineDynamicStateCreateInfo :=
        { dynamicStateCount := 2, pDynamicStates := dynamicStates }
      if env.vkCreatePipelineLayout ≠ VK_SUCCESS then
        { dynamicState := some dynamicState
          pCreateInfo := none
          result := Outcome.thrown "failed to create pipeline layout!" }
      else
        let pipelineInfo : VkGraphicsPipelineCreateInfo :=
          { stageCount := 2
            pStages := shaderStages
            pDepthStencilState := none
            pDynamicState := none
            subpass := 0
            basePipelineIndex := -1 }
        if env.vkCreateGraphicsPipelines ≠ VK_SUCCESS then
          { dynamicState := some dynamicState
            pCreateInfo := some pipelineInfo
            result := Outcome.thrown "failed to create graphics pipeline!" }
        else
          { dynamicState := some dynamicState
            pCreateInfo := some pipelineInfo
            result := Outcome.ok app }

/-- The loop of `createFrameBuffers` from the view with index `i` on: the
framebuffers written to the elements `i`, `i + 1`, ... of `_swapChainBuffers`. -/
def createFrameBuffersLoop (results : Nat → VkResult) (extent : VkExtent2D) :
    Nat → List VkImageView → Outcome (List VkFramebuffer)
  | _, [] => Outcome.ok []
  | i, imageView :: rest =>
    let attachments : List VkImageView := [imageView]
    let framebufferInfo : VkFramebufferCreateInfo :=
      { attachments := attachments
        width := extent.width
        height := extent.height
        layers := 1 }
    if results i ≠ VK_SUCCESS then
      Outcome.thrown "failed to create framebuffer!"
    else
      (createFrameBuffersLoop results extent (i + 1) rest).bind
        (fun framebuffers => Outcome.ok (⟨framebufferInfo⟩ :: framebuffers))

/-- The method `createFrameBuffers`: `_swapChainBuffers` is resized to the
number of image views and every element is written by the loop. -/
def createFrameBuffers (env : InitOutcomes) (app : HelloTriangleApplication) :
    Outcome HelloTriangleApplication :=
  (createFrameBuffersLoop env.vkCreateFramebuffer app._swapChainExtent 0
      app._swapChainImageViews).bind
    (fun framebuffers => Outcome.ok { app with _swapChainBuffers := framebuffers })

/-- The method `createCommandPool`, as far as its control flow goes. -/
def createCommandPool (env : InitOutcomes) (app : HelloTriangleApplication) :
    Outcome HelloTriangleApplication :=
  if env.vkCreateCommandPool ≠ VK_SUCCESS then
    Outcome.thrown "failed to create command pool!"
  else
    Outcome.ok app

def VK_BUFFER_USAGE_TRANSFER_SRC_BIT : Nat := 1
def VK_BUFFER_USAGE_TRANSFER_DST_BIT : Nat := 2
def VK_BUFFER_USAGE_VERTEX_BUFFER_BIT : Nat := 128

/-- The buffer variables of `createVertexBuffer`: the local `stagingBuffer`
and the member `_vertexBuffer`. -/
inductive BufferVar where
  | stagingBuffer
  | _vertexBuffer
  deriving DecidableEq, Repr

/-- The memory variables of `createVertexBuffer`: the local
`stagingBufferMemory` and the member `_vertexBufferMemory`. -/
inductive MemoryVar where
  | stagingBufferMemory
  | _vertexBufferMemory
  deriving DecidableEq, Repr

/-- The calls of `createVertexBuffer`, `createBuffer` and `copyBuffer`, each
with the variables it reads or writes and, where the call returns one and the
environment decides it, its result. -/
inductive UploadCall where
  | vkCreateBuffer (usage : Nat) (buffer : BufferVar) (result : VkResult)
  | vkGetBufferMemoryRequirements (buffer : BufferVar)
  | vkAllocateMemory (memoryTypeIndex : Nat) (memory : MemoryVar) (result : VkResult)
  | vkBindBufferMemory (buffer : BufferVar) (memory : MemoryVar)
  | vkMapMemory (memory : MemoryVar)
  | memcpy
  | vkUnmapMemory (memory : MemoryVar)
  | vkAllocateCommandBuffers (result : VkResult)
  | vkBeginCommandBuffer (result : VkResult)
  | vkCmdCopyBuffer (srcBuffer dstBuffer : BufferVar)
  | vkEndCommandBuffer (result : VkResult)
  | vkQueueSubmit (result : VkResult)
  | vkQueueWaitIdle (result : VkResult)
  | vkFreeCommandBuffers
  | vkDestroyBuffer (buffer : BufferVar)
  | vkFreeMemory (memory : MemoryVar)
  deriving DecidableEq, Repr

/-- A run of `createBuffer` or of `copyBuffer`: the calls made and how the
method ended. -/
structure UploadRun where
  calls : List UploadCall
  result : Outcome Unit

/-- The method `createBuffer` with the variables that its reference
parameters `buffer` and `bufferMemory` are bound to; the result of
`vkBindBufferMemory` is not inspected by the source. -/
def createBuffer (outcomes : CreateBufferOutcomes) (usage properties : Nat)
    (buffer : BufferVar) (bufferMemory : MemoryVar) (app : HelloTriangleApplication) :
    UploadRun :=
  let created := UploadCall.vkCreateBuffer usage buffer outcomes.vkCreateBuffer
  if outcomes.vkCreateBuffer ≠ VK_SUCCESS then
    { calls := [created], result := Outcome.thrown "failed to create buffer!" }
  else
    let required := UploadCall.vkGetBufferMemoryRequirements buffer
    match findMemoryType app._physicalDevice.memoryProperties outcomes.memoryTypeBits
        properties with
    | Except.error what => { calls := [created, required], result := Outcome.thrown what }
    | Except.ok memoryTypeIndex =>
      let allocated :=
        UploadCall.vkAllocateMemory memoryTypeIndex bufferMemory outcomes.vkAllocateMemory
      if outcomes.vkAllocateMemory ≠ VK_SUCCESS then
        { calls := [created, required, allocated]
          result := Outcome.thrown "failed to allocate buffer memory!" }
      else
        { calls :=
            [created, required, allocated, UploadCall.vkBindBufferMemory buffer bufferMemory]
          result := Outcome.ok () }

/-- The method `copyBuffer`.  The source inspects the result of none of its
calls, so all seven are made whatever the earlier ones returned, and the
method returns. -/
def copyBuffer (outcomes : CopyBufferOutcomes) (srcBuffer dstBuffer : BufferVar) : UploadRun :=
  { calls :=
      [UploadCall.vkAllocateCommandBuffers outcomes.vkAllocateCommandBuffers,
        UploadCall.vkBeginCommandBuffer outcomes.vkBeginCommandBuffer,
        UploadCall.vkCmdCopyBuffer srcBuffer dstBuffer,
        UploadCall.vkEndCommandBuffer outcomes.vkEndCommandBuffer,
        UploadCall.vkQueueSubmit outcomes.vkQueueSubmit,
        UploadCall.vkQueueWaitIdle outcomes.vkQueueWaitIdle,
        UploadCall.vkFreeCommandBuffers]
    result := Outcome.ok () }

/-- A run of `createVertexBuffer`: the calls made and how the method ended. -/
structure CreateVertexBufferRun where
  calls : List UploadCall
  result : Outcome HelloTriangleApplication

/-- The method `createVertexBuffer`: the staging buffer, the copy of the
vertices into its mapped memory, the destination buffer, `copyBuffer`, the
release of the staging buffer.  An exception of `createBuffer` leaves the
method at once. -/
def createVertexBuffer (env : InitOutcomes) (app : HelloTriangleApplication) :
    CreateVertexBufferRun :=
  let staging :=
    createBuffer env.stagingBuffer VK_BUFFER_USAGE_TRANSFER_SRC_BIT
      (VK_MEMORY_PROPERTY_HOST_VISIBLE_BIT ||| VK_MEMORY_PROPERTY_HOST_COHERENT_BIT)
      BufferVar.stagingBuffer MemoryVar.stagingBufferMemory app
  match staging.result with
  | Outcome.thrown what => { calls := staging.calls, result := Outcome.thrown what }
  | Outcome.undefined => { calls := staging.calls, result := Outcome.undefined }
  | Outcome.ok _ =>
    let filled : List UploadCall :=
      [UploadCall.vkMapMemory MemoryVar.stagingBufferMemory,
        UploadCall.memcpy,
        UploadCall.vkUnmapMemory MemoryVar.stagingBufferMemory]
    let destination :=
      createBuffer env.vertexBuffer
        (VK_BUFFER_USAGE_TRANSFER_DST_BIT ||| VK_BUFFER_USAGE_VERTEX_BUFFER_BIT)
        VK_MEMORY_PROPERTY_DEVICE_LOCAL_BIT
        BufferVar._vertexBuffer MemoryVar._vertexBufferMemory app
    match destination.result with
    | Outcome.thrown what =>
      { calls := staging.calls ++ filled ++ destination.calls, result := Outcome.thrown what }
    | Outcome.undefined =>
      { calls := staging.calls ++ filled ++ destination.calls, result := Outcome.undefined }
    | Outcome.ok _ =>
      let copied := copyBuffer env.copyBuffer BufferVar.stagingBuffer BufferVar._vertexBuffer
      { calls :=
          staging.calls ++ filled ++ destination.calls ++ copied.calls ++
            [UploadCall.vkDestroyBuffer BufferVar.stagingBuffer,
              UploadCall.vkFreeMemory MemoryVar.stagingBufferMemory]
        result := Outcome.ok app }

/-- The number of elements of the global `vertices`. -/
def verticesSize : Nat := 3

/-- The loop of `createCommandBuffers` from the buffer with index `i` on, over
the framebuffers from that index on.  Each allocated buffer (no recording yet)
is begun once, receives the five commands and is ended. -/
def createCommandBuffersLoop (beginResults endResults : Nat → VkResult)
    (extent : VkExtent2D) : Nat → List VkFramebuffer → Outcome (List VkCommandBuffer)
  | _, [] => Outcome.ok []
  | i, framebuffer :: rest =>
    let allocated : VkCommandBuffer := { beginCount := 0, commands := [] }
    if beginResults i ≠ VK_SUCCESS then
      Outcome.thrown "failed to begin recording command buffer!"
    else
      let begun : VkCommandBuffer :=
        { allocated with beginCount := allocated.beginCount + 1, commands := [] }
      let recorded : VkCommandBuffer :=
        { begun with
          commands := begun.commands ++
            [Command.vkCmdBeginRenderPass framebuffer extent,
              Command.vkCmdBindPipeline,
              Command.vkCmdBindVertexBuffers 0 1,
              Command.vkCmdDraw verticesSize 1 0 0,
              Command.vkCmdEndRenderPass] }
      if endResults i ≠ VK_SUCCESS then
        Outcome.thrown "failed to record command buffer!"
      else
        (createCommandBuffersLoop beginResults endResults extent (i + 1) rest).bind
          (fun commandBuffers => Outcome.ok (recorded :: commandBuffers))

/-- The method `createCommandBuffers`: `_commandBuffers` is resized to the
number of framebuffers, allocated in one call, and every element is recorded
by the loop. -/
def createCommandBuffers (env : InitOutcomes) (app : HelloTriangleApplication) :
    Outcome HelloTriangleApplication :=
  if env.vkAllocateCommandBuffers ≠ VK_SUCCESS then
    Outcome.thrown "failed to allocate command buffers!"
  else
    (createCommandBuffersLoop env.vkBeginCommandBuffer env.vkEndCommandBuffer
        app._swapChainExtent 0 app._swapChainBuffers).bind
      (fun commandBuffers => Outcome.ok { app with _commandBuffers := commandBuffers })

/-- The loop of `createSynchronizationObjects` from slot `i` on with
`remaining` slots to go: the two semaphores and the fence of each slot, the
fence created signaled. -/
def createSynchronizationObjectsLoop (env : InitOutcomes) :
    Nat → Nat → Outcome (List VkSemaphore × List VkSemaphore × List VkFence)
  | _, 0 => Outcome.ok ([], [], [])
  | i, remaining + 1 =>
    if env.vkCreateSemaphoreImageAvailable i ≠ VK_SUCCESS ∨
        env.vkCreateSemaphoreRenderFinished i ≠ VK_SUCCESS ∨
        env.vkCreateFence i ≠ VK_SUCCESS then
      Outcome.thrown "failed to create semaphore!"
    else
      (createSynchronizationObjectsLoop env (i + 1) remaining).bind
        (fun objects =>
          Outcome.ok
            ((⟨0⟩ : VkSemaphore) :: objects.1, (⟨0⟩ : VkSemaphore) :: objects.2.1,
              (⟨VK_FENCE_CREATE_SIGNALED_BIT⟩ : VkFence) :: objects.2.2))

/-- The method `createSynchronizationObjects`. -/
def createSynchronizationObjects (env : InitOutcomes) (app : HelloTriangleApplication) :
    Outcome HelloTriangleApplication :=
  (createSynchronizationObjectsLoop env 0 MAX_FRAMES_IN_FLIGHT).bind
    (fun objects =>
      Outcome.ok
        { app with
          _imageAvailableSemaphores := objects.1
          _renderFinishedSemaphores := objects.2.1
          _inFlightFences := objects.2.2 })

/-- The method `initVulkan`: the fourteen steps in the order of the source. -/
def initVulkan (enableValidationLayers : Bool) (env : InitOutcomes)
    (app : HelloTriangleApplication) : Outcome HelloTriangleApplication :=
  (createInstance enableValidationLayers env app).result.bind fun app =>
  (setupDebugCallback enableValidationLayers env app).bind fun app =>
  (createSurface env app).bind fun app =>
  (pickPhysicalDeviceStep env app).bind fun app =>
  (createLogicalDevice env app).result.bind fun app =>
  (createSwapChain env app).bind fun app =>
  (createImageView env app).bind fun app =>
  (createRenderPass env app).result.bind fun app =>
  (createGraphicsPipeline env app).result.bind fun app =>
  (createFrameBuffers env app).bind fun app =>
  (createCommandPool env app).bind fun app =>
  (createVertexBuffer env app).result.bind fun app =>
  (createCommandBuffers env app).bind fun app =>
  createSynchronizationObjects env app

/-- Answers with which every call of `initVulkan` succeeds: one capable
discrete GPU and the given swapchain images. -/
def exampleInitOutcomes (swapChainImages : List VkImage) : InitOutcomes :=
  { availableLayers := ["VK_LAYER_LUNARG_standard_validation"]
    vkCreateInstance := VK_SUCCESS
    vkCreateDebugUtilsMessengerEXT := some VK_SUCCESS
    glfwCreateWindowSurface := VK_SUCCESS
    devices :=
      [exampleDevice VK_PHYSICAL_DEVICE_TYPE_DISCRETE_GPU [⟨1, 1⟩] (fun _ => true)
        ["VK_KHR_swapchain"]]
    vkCreateDevice := VK_SUCCESS
    vkCreateSwapchainKHR := VK_SUCCESS
    swapChainImages := swapChainImages
    vkCreateImageView := fun _ => VK_SUCCESS
    vkCreateRenderPass := VK_SUCCESS
    vertexShader := ⟨1504, VK_SUCCESS⟩
    fragmentShader := ⟨608, VK_SUCCESS⟩
    vkCreatePipelineLayout := VK_SUCCESS
    vkCreateGraphicsPipelines := VK_SUCCESS
    vkCreateFramebuffer := fun _ => VK_SUCCESS
    vkCreateCommandPool := VK_SUCCESS
    stagingBuffer := ⟨VK_SUCCESS, 3, VK_SUCCESS⟩
    vertexBuffer := ⟨VK_SUCCESS, 3, VK_SUCCESS⟩
    copyBuffer := ⟨VK_SUCCESS, VK_SUCCESS, VK_SUCCESS, VK_SUCCESS, VK_SUCCESS⟩
    vkAllocateCommandBuffers := VK_SUCCESS
    vkBeginCommandBuffer := fun _ => VK_SUCCESS
    vkEndCommandBuffer := fun _ => VK_SUCCESS
    vkCreateSemaphoreImageAvailable := fun _ => VK_SUCCESS
    vkCreateSemaphoreRenderFinished := fun _ => VK_SUCCESS
    vkCreateFence := fun _ => VK_SUCCESS }

/-- The view that `createImageView` creates from an image. -/
def imageViewOf (format : VkFormat) (image : VkImage) : VkImageView :=
  ⟨{ image := image
     viewType := VK_IMAGE_VIEW_TYPE_2D
     format := format
     componentsR := VK_COMPONENT_SWIZZLE_IDENTITY
     componentsG := VK_COMPONENT_SWIZZLE_IDENTITY
     componentsB := VK_COMPONENT_SWIZZLE_IDENTITY
     componentsA := VK_COMPONENT_SWIZZLE_IDENTITY
     aspectMask := VK_IMAGE_ASPECT_COLOR_BIT
     baseMipLevel := 0
     levelCount := 1
     baseArrayLayer := 0
     layerCount := 1 }⟩

/-- The framebuffer that `createFrameBuffers` creates from an image view. -/
def framebufferOf (extent : VkExtent2D) (imageView : VkImageView) : VkFramebuffer :=
  ⟨{ attachments := [imageView], width := extent.width, height := extent.height, layers := 1 }⟩

/-- The command buffer that `createCommandBuffers` records for a framebuffer. -/
def commandBufferOf (extent : VkExtent2D) (framebuffer : VkFramebuffer) : VkCommandBuffer :=
  { beginCount := 1
    commands :=
      [Command.vkCmdBeginRenderPass framebuffer extent,
        Command.vkCmdBindPipeline,
        Command.vkCmdBindVertexBuffers 0 1,
        Command.vkCmdDraw 3 1 0 0,
        Command.vkCmdEndRenderPass] }

/-- The application state of the examples with the given per-image lists and
synchronisation objects. -/
def exampleStateWith (images : List VkImage) (views : List VkImageView)
    (framebuffers : List VkFramebuffer) (commandBuffers : List VkCommandBuffer)
    (imageAvailable renderFinished : List VkSemaphore) (fences : List VkFence) :
    HelloTriangleApplication :=
  { _physicalDevice :=
      exampleDevice VK_PHYSICAL_DEVICE_TYPE_DISCRETE_GPU [⟨1, 1⟩] (fun _ => true)
        ["VK_KHR_swapchain"]
    _swapChainImages := images
    _swapChainImageFormat := VK_FORMAT_B8G8R8A8_UNORM
    _swapChainExtent := ⟨640, 480⟩
    _swapChainImageViews := views
    _swapChainBuffers := framebuffers
    _commandBuffers := commandBuffers
    _imageAvailableSemaphores := imageAvailable
    _renderFinishedSemaphores := renderFinished
    _inFlightFences := fences
    _currentFrame := 0 }

/-- The state in which `initVulkan` leaves the application of the examples
when the device hands out `images` and every call succeeds. -/
def exampleInitialised (images : List VkImage) : HelloTriangleApplication :=
  exampleStateWith images
    (images.map (imageViewOf VK_FORMAT_B8G8R8A8_UNORM))
    ((images.map (imageViewOf VK_FORMAT_B8G8R8A8_UNORM)).map (framebufferOf ⟨640, 480⟩))
    (((images.map (imageViewOf VK_FORMAT_B8G8R8A8_UNORM)).map
      (framebufferOf ⟨640, 480⟩)).map (commandBufferOf ⟨640, 480⟩))
    [⟨0⟩, ⟨0⟩] [⟨0⟩, ⟨0⟩]
    [⟨VK_FENCE_CREATE_SIGNALED_BIT⟩, ⟨VK_FENCE_CREATE_SIGNALED_BIT⟩]

/-- Whether a call of `cleanup` destroys or frees a Vulkan object; the two
calls to the window system do not. -/
def destroysVulkanObject : CleanupCall → Bool
  | CleanupCall.glfwDestroyWindow _ => false
  | CleanupCall.glfwTerminate => false
  | _ => true

/-- The answers of `exampleInitOutcomes` for three images, except that
`vkGetInstanceProcAddr` does not resolve `vkCreateDebugUtilsMessengerEXT`. -/
def exampleUnresolvedMessenger : InitOutcomes :=
  { exampleInitOutcomes [11, 12, 13] with vkCreateDebugUtilsMessengerEXT := none }

def VK_ERROR_OUT_OF_DEVICE_MEMORY : VkResult := -2

/-- Whether a buffer variable holds a live buffer after the calls, given
whether it did before them: a successful `vkCreateBuffer` into the variable
makes it live, a `vkDestroyBuffer` of it ends that. -/
def bufferAliveFrom (buffer : BufferVar) : Bool → List UploadCall → Bool
  | alive, [] => alive
  | alive, UploadCall.vkCreateBuffer _ b result :: rest =>
    bufferAliveFrom buffer (if b = buffer ∧ result = VK_SUCCESS then true else alive) rest
  | alive, UploadCall.vkDestroyBuffer b :: rest =>
    bufferAliveFrom buffer (if b = buffer then false else alive) rest
  | alive, _ :: rest => bufferAliveFrom buffer alive rest

/-- Whether a buffer variable holds a live buffer after the calls of a run
that starts with no buffer. -/
def bufferAlive (buffer : BufferVar) (calls : List UploadCall) : Bool :=
  bufferAliveFrom buffer false calls

/-- Whether a memory variable holds live device memory after the calls, given
whether it did before them: a successful `vkAllocateMemory` into the variable
makes it live, a `vkFreeMemory` of it ends that. -/
def memoryAliveFrom (memory : MemoryVar) : Bool → List UploadCall → Bool
  | alive, [] => alive
  | alive, UploadCall.vkAllocateMemory _ m result :: rest =>
    memoryAliveFrom memory (if m = memory ∧ result = VK_SUCCESS then true else alive) rest
  | alive, UploadCall.vkFreeMemory m :: rest =>
    memoryAliveFrom memory (if m = memory then false else alive) rest
  | alive, _ :: rest => memoryAliveFrom memory alive rest

/-- Whether a memory variable holds live device memory after the calls of a
run that starts with no allocation. -/
def memoryAlive (memory : MemoryVar) (calls : List UploadCall) : Bool :=
  memoryAliveFrom memory false calls

/-- Whether a call releases a buffer or device memory. -/
def UploadCall.releases : UploadCall → Bool
  | UploadCall.vkDestroyBuffer _ => true
  | UploadCall.vkFreeMemory _ => true
  | _ => false

/-- Whether a method returned. -/
def Outcome.returned {α : Type} : Outcome α → Bool
  | Outcome.ok _ => true
  | _ => false

/-- The answers of `exampleInitOutcomes` for three images, except that the
device rejects the creation of the destination buffer. -/
def exampleDestinationRejected : InitOutcomes :=
  { exampleInitOutcomes [11, 12, 13] with
    vertexBuffer := ⟨VK_ERROR_OUT_OF_DEVICE_MEMORY, 3, VK_SUCCESS⟩ }

/-- The answers of `exampleInitOutcomes` for three images, except that the
device rejects the allocation of the one-shot command buffer of `copyBuffer`. -/
def exampleUploadAllocationRejected : InitOutcomes :=
  { exampleInitOutcomes [11, 12, 13] with
    copyBuffer :=
      ⟨VK_ERROR_OUT_OF_HOST_MEMORY, VK_SUCCESS, VK_SUCCESS, VK_SUCCESS, VK_SUCCESS⟩ }

/-- The answers of `exampleInitOutcomes` for three images, except that the
device rejects the allocation of the command buffers of `createCommandBuffers`. -/
def exampleRecordingAllocationRejected : InitOutcomes :=
  { exampleInitOutcomes [11, 12, 13] with
    vkAllocateCommandBuffers := VK_ERROR_OUT_OF_HOST_MEMORY }

/-- The answers of `exampleInitOutcomes` for three images, except that the
loader reports no layer but an unrelated one. -/
def exampleLayerMissing : InitOutcomes :=
  { exampleInitOutcomes [11, 12, 13] with availableLayers := ["VK_LAYER_KHRONOS_validation"] }

/-- A capable discrete GPU whose family 0 is a presentable compute family and
whose family 1 is a presentable graphics family. -/
def exampleTwoFamilyDevice : VkPhysicalDevice :=
  exampleDevice VK_PHYSICAL_DEVICE_TYPE_DISCRETE_GPU
    [⟨VK_QUEUE_COMPUTE_BIT, 1⟩, ⟨VK_QUEUE_GRAPHICS_BIT, 1⟩] (fun _ => true)
    ["VK_KHR_swapchain"]

/-- The short form of a call of `drawFrame`: the fence of a wait or reset, the
semaphore of an acquire, the wait semaphore, stage, command buffer, signal
semaphore and fence of a submit with one `VkSubmitInfo`, and the wait
semaphore and image of a present, each handle by its index in
`_inFlightFences`, `_imageAvailableSemaphores` (acquire, wait of the submit),
`_renderFinishedSemaphores` (signal of the submit, wait of the present) and
`_commandBuffers`.  A call whose handles come from other members, or whose
arrays do not have one element each, has no short form. -/
def FrameCall.toDeviceCall : FrameCall → Option DeviceCall
  | FrameCall.vkWaitForFences _ 1 [Member._inFlightFences fence] _ _ result =>
    some (DeviceCall.vkWaitForFences fence result)
  | FrameCall.vkResetFences _ 1 [Member._inFlightFences fence] result =>
    some (DeviceCall.vkResetFences fence result)
  | FrameCall.vkAcquireNextImageKHR _ _ _ (some (Member._imageAvailableSemaphores semaphore))
      none result =>
    some (DeviceCall.vkAcquireNextImageKHR semaphore result)
  | FrameCall.vkQueueSubmit _ 1
      [⟨1, [Member._imageAvailableSemaphores waitSemaphore], [waitDstStageMask], 1,
        [Member._commandBuffers commandBuffer], 1,
        [Member._renderFinishedSemaphores signalSemaphore]⟩]
      (some (Member._inFlightFences fence)) result =>
    some (DeviceCall.vkQueueSubmit waitSemaphore waitDstStageMask commandBuffer signalSemaphore
      fence result)
  | FrameCall.vkQueuePresentKHR _
      ⟨1, [Member._renderFinishedSemaphores waitSemaphore], 1, [_], [imageIndex], _⟩ result =>
    some (DeviceCall.vkQueuePresentKHR waitSemaphore imageIndex result)
  | _ => none

/-! ## Present-mode selection: MAILBOX, then IMMEDIATE, then FIFO -/

/-- A MAILBOX entry anywhere ends the loop with MAILBOX, whatever `bestMode` is. -/
theorem chooseSwapPresentModeLoop_mailbox (bestMode : VkPresentModeKHR)
    (modes : List VkPresentModeKHR) (h : VK_PRESENT_MODE_MAILBOX_KHR ∈ modes) :
    chooseSwapPresentModeLoop bestMode modes = VK_PRESENT_MODE_MAILBOX_KHR := by
  induction modes generalizing bestMode with
  | nil => simp at h
  | cons m rest ih =>
    by_cases hm : m = VK_PRESENT_MODE_MAILBOX_KHR
    · simp [chooseSwapPresentModeLoop, hm]
    · have hrest : VK_PRESENT_MODE_MAILBOX_KHR ∈ rest := by
        rcases List.mem_cons.mp h with h0 | h0
        · exact absurd h0.symm hm
        · exact h0
      by_cases hi : m = VK_PRESENT_MODE_IMMEDIATE_KHR
      · simp only [chooseSwapPresentModeLoop, if_neg hm, if_pos hi]
        exact ih m hrest
      · simp only [chooseSwapPresentModeLoop, if_neg hm, if_neg hi]
        exact ih bestMode hrest

/-- Without a MAILBOX entry the loop ends with IMMEDIATE when the list has
one and with the incoming `bestMode` otherwise. -/
theorem chooseSwapPresentModeLoop_no_mailbox (bestMode : VkPresentModeKHR)
    (modes : List VkPresentModeKHR) (h : VK_PRESENT_MODE_MAILBOX_KHR ∉ modes) :
    chooseSwapPresentModeLoop bestMode modes =
      if VK_PRESENT_MODE_IMMEDIATE_KHR ∈ modes then VK_PRESENT_MODE_IMMEDIATE_KHR
      else bestMode := by
  induction modes generalizing bestMode with
  | nil => simp [chooseSwapPresentModeLoop]
  | cons m rest ih =>
    have hm : m ≠ VK_PRESENT_MODE_MAILBOX_KHR := by
      intro hm
      exact h (by simp [hm])
    have hrest : VK_PRESENT_MODE_MAILBOX_KHR ∉ rest := by
      intro h0
      exact h (List.mem_cons_of_mem _ h0)
    by_cases hi : m = VK_PRESENT_MODE_IMMEDIATE_KHR
    · simp only [chooseSwapPresentModeLoop, if_neg hm, if_pos hi]
      rw [ih m hrest]
      by_cases hr : VK_PRESENT_MODE_IMMEDIATE_KHR ∈ rest
      · simp [hr]
      · simp [hr, hi]
    · simp only [chooseSwapPresentModeLoop, if_neg hm, if_neg hi]
      rw [ih bestMode hrest]
      have hne : ¬ VK_PRESENT_MODE_IMMEDIATE_KHR = m := fun h0 => hi h0.symm
      simp [List.mem_cons, hne]

/-- C1: for every list of available present modes that contains MAILBOX at
any position, `chooseSwapPresentMode` returns MAILBOX. -/
theorem chooseSwapPresentMode_mailbox (availablePresentModes : List VkPresentModeKHR)
    (h : VK_PRESENT_MODE_MAILBOX_KHR ∈ availablePresentModes) :
    chooseSwapPresentMode availablePresentModes = VK_PRESENT_MODE_MAILBOX_KHR :=
  chooseSwapPresentModeLoop_mailbox _ _ h

/-- Witness for C1: MAILBOX in last position, after FIFO and IMMEDIATE. -/
theorem chooseSwapPresentMode_mailbox_witness :
    VK_PRESENT_MODE_MAILBOX_KHR ∈
        [VK_PRESENT_MODE_FIFO_KHR, VK_PRESENT_MODE_IMMEDIATE_KHR, VK_PRESENT_MODE_MAILBOX_KHR] ∧
      chooseSwapPresentMode
        [VK_PRESENT_MODE_FIFO_KHR, VK_PRESENT_MODE_IMMEDIATE_KHR, VK_PRESENT_MODE_MAILBOX_KHR] =
        VK_PRESENT_MODE_MAILBOX_KHR :=
  ⟨by decide, chooseSwapPresentMode_mailbox _ (by decide)⟩

/-- C2: for every list of available present modes without MAILBOX,
`chooseSwapPresentMode` returns IMMEDIATE if IMMEDIATE occurs in the list and
FIFO otherwise. -/
theorem chooseSwapPresentMode_no_mailbox (availablePresentModes : List VkPresentModeKHR)
    (h : VK_PRESENT_MODE_MAILBOX_KHR ∉ availablePresentModes) :
    (VK_PRESENT_MODE_IMMEDIATE_KHR ∈ availablePresentModes →
        chooseSwapPresentMode availablePresentModes = VK_PRESENT_MODE_IMMEDIATE_KHR) ∧
      (VK_PRESENT_MODE_IMMEDIATE_KHR ∉ availablePresentModes →
        chooseSwapPresentMode availablePresentModes = VK_PRESENT_MODE_FIFO_KHR) := by
  unfold chooseSwapPresentMode
  rw [chooseSwapPresentModeLoop_no_mailbox _ _ h]
  constructor
  · intro hi
    simp [hi]
  · intro hi
    simp [hi]

/-- Witness for C2: the empty list and a list of only FIFO_RELAXED yield
FIFO, and a list with IMMEDIATE before FIFO yields IMMEDIATE. -/
theorem chooseSwapPresentMode_no_mailbox_witness :
    chooseSwapPresentMode [] = VK_PRESENT_MODE_FIFO_KHR ∧
      chooseSwapPresentMode [VK_PRESENT_MODE_FIFO_RELAXED_KHR, VK_PRESENT_MODE_FIFO_RELAXED_KHR] =
        VK_PRESENT_MODE_FIFO_KHR ∧
      chooseSwapPresentMode [VK_PRESENT_MODE_IMMEDIATE_KHR, VK_PRESENT_MODE_FIFO_KHR] =
        VK_PRESENT_MODE_IMMEDIATE_KHR :=
  ⟨(chooseSwapPresentMode_no_mailbox [] (by decide)).2 (by decide),
    (chooseSwapPresentMode_no_mailbox _ (by decide)).2 (by decide),
    (chooseSwapPresentMode_no_mailbox _ (by decide)).1 (by decide)⟩

/-! ## Surface-format selection -/

/-- The loop returns the preferred pair when the list contains it. -/
theorem chooseSwapSurfaceFormatLoop_mem (formats : List VkSurfaceFormatKHR)
    (h : (⟨VK_FORMAT_B8G8R8A8_UNORM, VK_COLOR_SPACE_SRGB_NONLINEAR_KHR⟩ : VkSurfaceFormatKHR)
      ∈ formats) :
    chooseSwapSurfaceFormatLoop formats =
      some ⟨VK_FORMAT_B8G8R8A8_UNORM, VK_COLOR_SPACE_SRGB_NONLINEAR_KHR⟩ := by
  induction formats with
  | nil => simp at h
  | cons f rest ih =>
    by_cases hf : f.format = VK_FORMAT_B8G8R8A8_UNORM ∧
        f.colorSpace = VK_COLOR_SPACE_SRGB_NONLINEAR_KHR
    · simp only [chooseSwapSurfaceFormatLoop, if_pos hf]
      cases f
      simp only at hf
      rw [hf.1, hf.2]
    · simp only [chooseSwapSurfaceFormatLoop, if_neg hf]
      apply ih
      rcases List.mem_cons.mp h with h0 | h0
      · exact absurd (by rw [← h0]; exact ⟨rfl, rfl⟩) hf
      · exact h0

/-- The loop falls through when the list does not contain the preferred pair. -/
theorem chooseSwapSurfaceFormatLoop_not_mem (formats : List VkSurfaceFormatKHR)
    (h : (⟨VK_FORMAT_B8G8R8A8_UNORM, VK_COLOR_SPACE_SRGB_NONLINEAR_KHR⟩ : VkSurfaceFormatKHR)
      ∉ formats) :
    chooseSwapSurfaceFormatLoop formats = none := by
  induction formats with
  | nil => rfl
  | cons f rest ih =>
    have hf : ¬ (f.format = VK_FORMAT_B8G8R8A8_UNORM ∧
        f.colorSpace = VK_COLOR_SPACE_SRGB_NONLINEAR_KHR) := by
      intro hf
      apply h
      cases f
      simp only at hf
      rw [hf.1, hf.2]
      exact List.mem_cons_self _ _
    simp only [chooseSwapSurfaceFormatLoop, if_neg hf]
    exact ih (fun h0 => h (List.mem_cons_of_mem _ h0))

/-- Whatever the loop returns is an entry of the list. -/
theorem chooseSwapSurfaceFormatLoop_some_mem (formats : List VkSurfaceFormatKHR)
    (f : VkSurfaceFormatKHR) (h : chooseSwapSurfaceFormatLoop formats = some f) :
    f ∈ formats := by
  induction formats with
  | nil => simp [chooseSwapSurfaceFormatLoop] at h
  | cons g rest ih =>
    by_cases hg : g.format = VK_FORMAT_B8G8R8A8_UNORM ∧
        g.colorSpace = VK_COLOR_SPACE_SRGB_NONLINEAR_KHR
    · simp only [chooseSwapSurfaceFormatLoop, if_pos hg, Option.some.injEq] at h
      rw [← h]
      exact List.mem_cons_self _ _
    · simp only [chooseSwapSurfaceFormatLoop, if_neg hg] at h
      exact List.mem_cons_of_mem _ (ih h)

/-- C3: for every list of (format, color-space) pairs that contains
(B8G8R8A8_UNORM, SRGB_NONLINEAR) at any position, `chooseSwapSurfaceFormat`
returns that pair. -/
theorem chooseSwapSurfaceFormat_preferred (availableFormats : List VkSurfaceFormatKHR)
    (h : (⟨VK_FORMAT_B8G8R8A8_UNORM, VK_COLOR_SPACE_SRGB_NONLINEAR_KHR⟩ : VkSurfaceFormatKHR)
      ∈ availableFormats) :
    chooseSwapSurfaceFormat availableFormats =
      some ⟨VK_FORMAT_B8G8R8A8_UNORM, VK_COLOR_SPACE_SRGB_NONLINEAR_KHR⟩ := by
  unfold chooseSwapSurfaceFormat
  rw [chooseSwapSurfaceFormatLoop_mem _ h]

/-- Witness for C3: the preferred pair in last position. -/
theorem chooseSwapSurfaceFormat_preferred_witness :
    chooseSwapSurfaceFormat
        [⟨VK_FORMAT_R8G8B8A8_UNORM, VK_COLOR_SPACE_SRGB_NONLINEAR_KHR⟩,
          ⟨VK_FORMAT_B8G8R8A8_UNORM, VK_COLOR_SPACE_DISPLAY_P3_NONLINEAR_EXT⟩,
          ⟨VK_FORMAT_B8G8R8A8_UNORM, VK_COLOR_SPACE_SRGB_NONLINEAR_KHR⟩] =
      some ⟨VK_FORMAT_B8G8R8A8_UNORM, VK_COLOR_SPACE_SRGB_NONLINEAR_KHR⟩ :=
  chooseSwapSurfaceFormat_preferred _ (by decide)

/-- On a non-empty list the index-0 access is in bounds: a result exists and
is an entry of the list. -/
theorem chooseSwapSurfaceFormat_some_mem (formats : List VkSurfaceFormatKHR)
    (hne : formats ≠ []) :
    ∃ f, chooseSwapSurfaceFormat formats = some f ∧ f ∈ formats := by
  cases formats with
  | nil => exact absurd rfl hne
  | cons g rest =>
    unfold chooseSwapSurfaceFormat
    cases hl : chooseSwapSurfaceFormatLoop (g :: rest) with
    | none => exact ⟨g, by simp, List.mem_cons_self _ _⟩
    | some f => exact ⟨f, rfl, chooseSwapSurfaceFormatLoop_some_mem _ _ hl⟩

/-- C4: for every non-empty list without the pair (B8G8R8A8_UNORM,
SRGB_NONLINEAR), `chooseSwapSurfaceFormat` returns the first element; and for
every non-empty list the index-0 access is in bounds, so a result exists and
is a member of the list. -/
theorem chooseSwapSurfaceFormat_fallback (availableFormats : List VkSurfaceFormatKHR)
    (hne : availableFormats ≠ []) :
    ((⟨VK_FORMAT_B8G8R8A8_UNORM, VK_COLOR_SPACE_SRGB_NONLINEAR_KHR⟩ : VkSurfaceFormatKHR)
          ∉ availableFormats →
        chooseSwapSurfaceFormat availableFormats = some (availableFormats.head hne)) ∧
      (∃ f, chooseSwapSurfaceFormat availableFormats = some f ∧ f ∈ availableFormats) := by
  cases availableFormats with
  | nil => exact absurd rfl hne
  | cons g rest =>
    constructor
    · intro h
      unfold chooseSwapSurfaceFormat
      rw [chooseSwapSurfaceFormatLoop_not_mem _ h]
      simp
    · exact chooseSwapSurfaceFormat_some_mem _ hne

/-- Witness for C4: a list where one entry matches only in the format and
another only in the color space returns its first entry. -/
theorem chooseSwapSurfaceFormat_fallback_witness :
    chooseSwapSurfaceFormat
        [⟨VK_FORMAT_B8G8R8A8_UNORM, VK_COLOR_SPACE_DISPLAY_P3_NONLINEAR_EXT⟩,
          ⟨VK_FORMAT_R8G8B8A8_UNORM, VK_COLOR_SPACE_SRGB_NONLINEAR_KHR⟩] =
      some ⟨VK_FORMAT_B8G8R8A8_UNORM, VK_COLOR_SPACE_DISPLAY_P3_NONLINEAR_EXT⟩ :=
  (chooseSwapSurfaceFormat_fallback
    [⟨VK_FORMAT_B8G8R8A8_UNORM, VK_COLOR_SPACE_DISPLAY_P3_NONLINEAR_EXT⟩,
      ⟨VK_FORMAT_R8G8B8A8_UNORM, VK_COLOR_SPACE_SRGB_NONLINEAR_KHR⟩]
    (by decide)).1 (by decide)

/-! ## Extent selection -/

/-- With the sentinel width, each component of the result is the window
component clamped by `std::max(min, std::min(max, window))`. -/
theorem chooseSwapExtent_clamp (width height : Nat) (capabilities : VkSurfaceCapabilitiesKHR)
    (hs : capabilities.currentExtent.width = UINT32_MAX) :
    chooseSwapExtent width height capabilities =
      ⟨max capabilities.minImageExtent.width (min capabilities.maxImageExtent.width width),
        max capabilities.minImageExtent.height
          (min capabilities.maxImageExtent.height height)⟩ := by
  simp [chooseSwapExtent, hs]

/-- C5: when `currentExtent.width` is the sentinel 0xFFFFFFFF and
`minImageExtent <= maxImageExtent` on each axis, `chooseSwapExtent` returns the
default window size (800, 600) clamped per axis into the bounds: each component
lies within its bounds, equals the default component when that is within
bounds, and equals the violated bound otherwise. -/
theorem chooseSwapExtent_sentinel (capabilities : VkSurfaceCapabilitiesKHR)
    (hs : capabilities.currentExtent.width = 4294967295)
    (hw : capabilities.minImageExtent.width ≤ capabilities.maxImageExtent.width)
    (hh : capabilities.minImageExtent.height ≤ capabilities.maxImageExtent.height) :
    (capabilities.minImageExtent.width ≤ (chooseSwapExtent WIDTH HEIGHT capabilities).width ∧
        (chooseSwapExtent WIDTH HEIGHT capabilities).width ≤
          capabilities.maxImageExtent.width) ∧
      (capabilities.minImageExtent.height ≤ (chooseSwapExtent WIDTH HEIGHT capabilities).height ∧
        (chooseSwapExtent WIDTH HEIGHT capabilities).height ≤
          capabilities.maxImageExtent.height) ∧
      (capabilities.minImageExtent.width ≤ 800 → 800 ≤ capabilities.maxImageExtent.width →
        (chooseSwapExtent WIDTH HEIGHT capabilities).width = 800) ∧
      (capabilities.minImageExtent.height ≤ 600 → 600 ≤ capabilities.maxImageExtent.height →
        (chooseSwapExtent WIDTH HEIGHT capabilities).height = 600) ∧
      (800 < capabilities.minImageExtent.width →
        (chooseSwapExtent WIDTH HEIGHT capabilities).width =
          capabilities.minImageExtent.width) ∧
      (capabilities.maxImageExtent.width < 800 →
        (chooseSwapExtent WIDTH HEIGHT capabilities).width =
          capabilities.maxImageExtent.width) ∧
      (600 < capabilities.minImageExtent.height →
        (chooseSwapExtent WIDTH HEIGHT capabilities).height =
          capabilities.minImageExtent.height) ∧
      (capabilities.maxImageExtent.height < 600 →
        (chooseSwapExtent WIDTH HEIGHT capabilities).height =
          capabilities.maxImageExtent.height) := by
  rw [chooseSwapExtent_clamp WIDTH HEIGHT capabilities hs]
  simp only [WIDTH, HEIGHT]
  refine ⟨⟨?_, ?_⟩, ⟨?_, ?_⟩, ?_, ?_, ?_, ?_, ?_, ?_⟩ <;> omega

/-- Witness for C5: bounds (400, 300) to (1024, 768) give (800, 600). -/
theorem chooseSwapExtent_sentinel_witness :
    chooseSwapExtent WIDTH HEIGHT
        ⟨2, 0, ⟨4294967295, 4294967295⟩, ⟨400, 300⟩, ⟨1024, 768⟩, 1⟩ = ⟨800, 600⟩ := by
  have h := chooseSwapExtent_sentinel
    ⟨2, 0, ⟨4294967295, 4294967295⟩, ⟨400, 300⟩, ⟨1024, 768⟩, 1⟩ rfl (by decide) (by decide)
  have hwidth := h.2.2.1 (by decide) (by decide)
  have hheight := h.2.2.2.1 (by decide) (by decide)
  cases hr : chooseSwapExtent WIDTH HEIGHT
      ⟨2, 0, ⟨4294967295, 4294967295⟩, ⟨400, 300⟩, ⟨1024, 768⟩, 1⟩ with
  | mk w h0 =>
    rw [hr] at hwidth hheight
    simp only at hwidth hheight
    rw [hwidth, hheight]

/-- The second extent example of the specification: a window of (1200, 900)
under the bounds (400, 300) to (1024, 768) is clamped to (1024, 768). -/
theorem chooseSwapExtent_clamp_example :
    chooseSwapExtent 1200 900
        ⟨2, 0, ⟨4294967295, 4294967295⟩, ⟨400, 300⟩, ⟨1024, 768⟩, 1⟩ = ⟨1024, 768⟩ := by
  decide

/-- C6: when `currentExtent.width` differs from 0xFFFFFFFF, `chooseSwapExtent`
returns `currentExtent` unchanged, for every default window size, every
`minImageExtent`/`maxImageExtent` and every `currentExtent.height`. -/
theorem chooseSwapExtent_current (width height : Nat) (capabilities : VkSurfaceCapabilitiesKHR)
    (h : capabilities.currentExtent.width ≠ 4294967295) :
    chooseSwapExtent width height capabilities = capabilities.currentExtent := by
  unfold chooseSwapExtent
  rw [if_pos (by simpa [UINT32_MAX] using h)]

/-- Witness for C6: the height is the sentinel and the extent lies outside
the bounds, yet (640, 4294967295) is returned as it is. -/
theorem chooseSwapExtent_current_witness :
    chooseSwapExtent 1200 900
        ⟨2, 0, ⟨640, 4294967295⟩, ⟨700, 300⟩, ⟨1024, 768⟩, 1⟩ = ⟨640, 4294967295⟩ :=
  chooseSwapExtent_current 1200 900
    ⟨2, 0, ⟨640, 4294967295⟩, ⟨700, 300⟩, ⟨1024, 768⟩, 1⟩ (by decide)

/-! ## Swapchain creation parameters -/

/-- With a non-empty format list `createSwapChainInfo` produces parameters,
and their image count and sharing fields are the ones computed from the
capabilities and the queue-family indices. -/
theorem createSwapChainInfo_some (width height : Nat) (swapChainSupport : SwapChainSupportDetails)
    (indices : QueueFamilyIndices) (hne : swapChainSupport.surfaceFormats ≠ []) :
    ∃ info, createSwapChainInfo width height swapChainSupport indices = some info ∧
      info.minImageCount = createSwapChainImageCount swapChainSupport.capabilities ∧
      info.imageSharingMode =
        (if indices.graphicsFamily ≠ indices.presentFamily then VK_SHARING_MODE_CONCURRENT
          else VK_SHARING_MODE_EXCLUSIVE) ∧
      info.queueFamilyIndexCount =
        (if indices.graphicsFamily ≠ indices.presentFamily then 2 else 0) ∧
      info.pQueueFamilyIndices =
        (if indices.graphicsFamily ≠ indices.presentFamily then
          some [castUInt32 indices.graphicsFamily, castUInt32 indices.presentFamily]
          else none) := by
  obtain ⟨f, hf, _⟩ := chooseSwapSurfaceFormat_some_mem _ hne
  unfold createSwapChainInfo
  rw [hf]
  refine ⟨_, rfl, rfl, ?_, ?_, ?_⟩ <;>
    by_cases hd : indices.graphicsFamily = indices.presentFamily <;> simp [hd]

/-- C7: for every surface capabilities with `minImageCount < 2^32 - 1`, the
image count computed by `createSwapChain` is `minImageCount + 1` when
`maxImageCount` is 0 or `minImageCount + 1 <= maxImageCount`, and
`maxImageCount` otherwise; it never exceeds a non-zero `maxImageCount`, it is
at least `minImageCount` when `minImageCount <= maxImageCount` or
`maxImageCount = 0`, and it is the `minImageCount` field of the create
parameters whenever these are produced (the format list is non-empty). -/
theorem createSwapChain_imageCount (capabilities : VkSurfaceCapabilitiesKHR)
    (hmin : capabilities.minImageCount < 4294967295) :
    (capabilities.maxImageCount = 0 ∨
          capabilities.minImageCount + 1 ≤ capabilities.maxImageCount →
        createSwapChainImageCount capabilities = capabilities.minImageCount + 1) ∧
      (¬ (capabilities.maxImageCount = 0 ∨
          capabilities.minImageCount + 1 ≤ capabilities.maxImageCount) →
        createSwapChainImageCount capabilities = capabilities.maxImageCount) ∧
      (capabilities.maxImageCount ≠ 0 →
        createSwapChainImageCount capabilities ≤ capabilities.maxImageCount) ∧
      (capabilities.minImageCount ≤ capabilities.maxImageCount ∨
          capabilities.maxImageCount = 0 →
        capabilities.minImageCount ≤ createSwapChainImageCount capabilities) ∧
      (∀ (width height : Nat) (surfaceFormats : List VkSurfaceFormatKHR)
          (presentModes : List VkPresentModeKHR) (indices : QueueFamilyIndices),
        surfaceFormats ≠ [] →
        ∃ info,
          createSwapChainInfo width height ⟨capabilities, surfaceFormats, presentModes⟩
              indices = some info ∧
            info.minImageCount = createSwapChainImageCount capabilities) := by
  have hmod : (capabilities.minImageCount + 1) % 4294967296 =
      capabilities.minImageCount + 1 := Nat.mod_eq_of_lt (by omega)
  refine ⟨?_, ?_, ?_, ?_, ?_⟩
  · intro h
    unfold createSwapChainImageCount
    simp only [hmod]
    split <;> omega
  · intro h
    unfold createSwapChainImageCount
    simp only [hmod]
    split <;> omega
  · intro h
    unfold createSwapChainImageCount
    simp only [hmod]
    split <;> omega
  · intro h
    unfold createSwapChainImageCount
    simp only [hmod]
    split <;> omega
  · intro width height surfaceFormats presentModes indices hne
    obtain ⟨info, hinfo, hcount, _⟩ := createSwapChainInfo_some width height
      ⟨capabilities, surfaceFormats, presentModes⟩ indices hne
    exact ⟨info, hinfo, hcount⟩

/-- Witness for C7: `minImageCount = 2` with `maxImageCount = 0` requests 3
images, and with `maxImageCount = 2` requests 2. -/
theorem createSwapChain_imageCount_witness :
    (∃ info, createSwapChainInfo 800 600
        ⟨⟨2, 0, ⟨640, 480⟩, ⟨400, 300⟩, ⟨1024, 768⟩, 1⟩, [⟨44, 0⟩], [2]⟩ ⟨0, 0⟩ = some info ∧
      info.minImageCount = 3) ∧
    createSwapChainImageCount ⟨2, 2, ⟨640, 480⟩, ⟨400, 300⟩, ⟨1024, 768⟩, 1⟩ = 2 := by
  constructor
  · obtain ⟨h1, _, _, _, hinfo⟩ := createSwapChain_imageCount
      ⟨2, 0, ⟨640, 480⟩, ⟨400, 300⟩, ⟨1024, 768⟩, 1⟩ (by decide)
    obtain ⟨info, hsome, hcount⟩ := hinfo 800 600 [⟨44, 0⟩] [2] ⟨0, 0⟩ (by decide)
    exact ⟨info, hsome, hcount.trans (h1 (by decide))⟩
  · exact (createSwapChain_imageCount
      ⟨2, 2, ⟨640, 480⟩, ⟨400, 300⟩, ⟨1024, 768⟩, 1⟩ (by decide)).2.1 (by decide)

/-- The cast to `uint32_t` keeps a non-negative `int`. -/
theorem castUInt32_of_nonneg (x : Int) (h0 : 0 ≤ x) (h1 : x < 2147483648) :
    (castUInt32 x : Int) = x := by
  unfold castUInt32
  omega

/-- C8: for every pair of queue-family indices (and a non-empty format list,
so that parameters are produced), the swapchain create parameters use
concurrent sharing with count 2 and the array (graphics, present), each cast
to `uint32_t`, when the indices differ, and exclusive sharing with count 0 and
a null array when they are equal; the cast keeps every non-negative index. -/
theorem createSwapChain_sharingMode (width height : Nat)
    (swapChainSupport : SwapChainSupportDetails) (indices : QueueFamilyIndices)
    (hne : swapChainSupport.surfaceFormats ≠ []) :
    ∃ info, createSwapChainInfo width height swapChainSupport indices = some info ∧
      (indices.graphicsFamily ≠ indices.presentFamily →
        info.imageSharingMode = VK_SHARING_MODE_CONCURRENT ∧
          info.queueFamilyIndexCount = 2 ∧
          info.pQueueFamilyIndices =
            some [castUInt32 indices.graphicsFamily, castUInt32 indices.presentFamily] ∧
          (0 ≤ indices.graphicsFamily → indices.graphicsFamily < 2147483648 →
            (castUInt32 indices.graphicsFamily : Int) = indices.graphicsFamily) ∧
          (0 ≤ indices.presentFamily → indices.presentFamily < 2147483648 →
            (castUInt32 indices.presentFamily : Int) = indices.presentFamily)) ∧
      (indices.graphicsFamily = indices.presentFamily →
        info.imageSharingMode = VK_SHARING_MODE_EXCLUSIVE ∧
          info.queueFamilyIndexCount = 0 ∧
          info.pQueueFamilyIndices = none) := by
  obtain ⟨info, hinfo, _, hmode, hcount, hptr⟩ :=
    createSwapChainInfo_some width height swapChainSupport indices hne
  refine ⟨info, hinfo, ?_, ?_⟩
  · intro hd
    rw [hmode, hcount, hptr]
    exact ⟨if_pos hd, if_pos hd, if_pos hd, castUInt32_of_nonneg _, castUInt32_of_nonneg _⟩
  · intro hd
    rw [hmode, hcount, hptr]
    simp [hd]

/-- Witness for C8: indices (0, 1) give concurrent sharing over [0, 1], and
indices (0, 0) exclusive sharing with no listed index. -/
theorem createSwapChain_sharingMode_witness :
    (∃ info, createSwapChainInfo 800 600
        ⟨⟨2, 0, ⟨640, 480⟩, ⟨400, 300⟩, ⟨1024, 768⟩, 1⟩, [⟨44, 0⟩], [2]⟩ ⟨0, 1⟩ = some info ∧
      info.imageSharingMode = VK_SHARING_MODE_CONCURRENT ∧
      info.queueFamilyIndexCount = 2 ∧ info.pQueueFamilyIndices = some [0, 1]) ∧
    (∃ info, createSwapChainInfo 800 600
        ⟨⟨2, 0, ⟨640, 480⟩, ⟨400, 300⟩, ⟨1024, 768⟩, 1⟩, [⟨44, 0⟩], [2]⟩ ⟨0, 0⟩ = some info ∧
      info.imageSharingMode = VK_SHARING_MODE_EXCLUSIVE ∧
      info.queueFamilyIndexCount = 0 ∧ info.pQueueFamilyIndices = none) := by
  constructor
  · obtain ⟨info, hinfo, h1, _⟩ := createSwapChain_sharingMode 800 600
      ⟨⟨2, 0, ⟨640, 480⟩, ⟨400, 300⟩, ⟨1024, 768⟩, 1⟩, [⟨44, 0⟩], [2]⟩ ⟨0, 1⟩ (by decide)
    obtain ⟨hm, hc, hp, _⟩ := h1 (by decide)
    exact ⟨info, hinfo, hm, hc, hp⟩
  · obtain ⟨info, hinfo, _, h2⟩ := createSwapChain_sharingMode 800 600
      ⟨⟨2, 0, ⟨640, 480⟩, ⟨400, 300⟩, ⟨1024, 768⟩, 1⟩, [⟨44, 0⟩], [2]⟩ ⟨0, 0⟩ (by decide)
    exact ⟨info, hinfo, h2 rfl⟩

/-! ## Memory-type search -/

/-- The mask test `typeFilter & (1 << i)` is non-zero exactly when bit `i` of
the filter is set. -/
theorem and_one_shiftLeft_ne_zero_iff (typeFilter i : Nat) :
    typeFilter &&& (1 <<< i) ≠ 0 ↔ typeFilter.testBit i = true := by
  rw [Nat.one_shiftLeft]
  constructor
  · intro h
    by_contra hbit
    apply h
    apply Nat.eq_of_testBit_eq
    intro k
    rw [Nat.testBit_and, Nat.testBit_two_pow, Nat.zero_testBit]
    by_cases hk : i = k
    · subst hk
      simp [hbit]
    · simp [hk]
  · intro h h0
    have hb : (typeFilter &&& 2 ^ i).testBit i = true := by
      rw [Nat.testBit_and, h, Nat.testBit_two_pow_self]
      rfl
    rw [h0, Nat.zero_testBit] at hb
    exact Bool.false_ne_true hb

/-- The flag test `(flags & properties) == properties` holds exactly when
every bit of `properties` is a bit of `flags`. -/
theorem and_eq_right_iff_testBit (flags properties : Nat) :
    flags &&& properties = properties ↔
      ∀ b, properties.testBit b = true → flags.testBit b = true := by
  constructor
  · intro h b hb
    have hand : (flags &&& properties).testBit b = true := by rw [h]; exact hb
    rw [Nat.testBit_and] at hand
    exact (Bool.and_eq_true_iff.mp hand).1
  · intro h
    apply Nat.eq_of_testBit_eq
    intro k
    rw [Nat.testBit_and]
    cases hk : properties.testBit k with
    | false => simp
    | true => simp [h k hk]

/-- The loop test at index `i` is the qualification of memory type `i`. -/
theorem findMemoryTypeTest_iff (memProperties : VkPhysicalDeviceMemoryProperties)
    (typeFilter properties i : Nat) (memoryType : VkMemoryType)
    (h : memProperties.memoryTypes[i]? = some memoryType) :
    findMemoryTypeTest typeFilter properties i memoryType ↔
      memoryTypeQualifies memProperties typeFilter properties i := by
  unfold findMemoryTypeTest memoryTypeQualifies
  rw [and_one_shiftLeft_ne_zero_iff, and_eq_right_iff_testBit]
  constructor
  · rintro ⟨h1, h2⟩
    exact ⟨h1, memoryType, h, h2⟩
  · rintro ⟨h1, t, ht, h2⟩
    rw [h] at ht
    cases ht
    exact ⟨h1, h2⟩

/-- A returned index `k` of the loop started at `i` over `l` is `i + n` for a
position `n` of `l` that passes the test, and no earlier position passes. -/
theorem findMemoryTypeLoop_some (typeFilter properties : Nat) (l : List VkMemoryType)
    (i k : Nat) (h : findMemoryTypeLoop typeFilter properties i l = some k) :
    ∃ n t, k = i + n ∧ l[n]? = some t ∧ findMemoryTypeTest typeFilter properties k t ∧
      ∀ m u, m < n → l[m]? = some u → ¬ findMemoryTypeTest typeFilter properties (i + m) u := by
  induction l generalizing i with
  | nil => simp [findMemoryTypeLoop] at h
  | cons t rest ih =>
    by_cases ht : typeFilter &&& (1 <<< i) ≠ 0 ∧ (t.propertyFlags &&& properties) = properties
    · simp only [findMemoryTypeLoop, if_pos ht, Option.some.injEq] at h
      subst h
      exact ⟨0, t, rfl, List.getElem?_cons_zero, ht, fun m u hm => absurd hm (Nat.not_lt_zero m)⟩
    · simp only [findMemoryTypeLoop, if_neg ht] at h
      obtain ⟨n, u, hk, hu, htest, hmin⟩ := ih (i + 1) h
      refine ⟨n + 1, u, by omega, by simpa using hu, htest, ?_⟩
      intro m v hm hv
      cases m with
      | zero =>
        simp only [List.getElem?_cons_zero, Option.some.injEq] at hv
        subst hv
        exact ht
      | succ m =>
        simp only [List.getElem?_cons_succ] at hv
        have := hmin m v (by omega) hv
        rwa [Nat.add_assoc, Nat.add_comm 1 m] at this

/-- The loop started at `i` over `l` ends without returning exactly when no
position of `l` passes the test. -/
theorem findMemoryTypeLoop_none (typeFilter properties : Nat) (l : List VkMemoryType)
    (i : Nat) :
    findMemoryTypeLoop typeFilter properties i l = none ↔
      ∀ m u, l[m]? = some u → ¬ findMemoryTypeTest typeFilter properties (i + m) u := by
  induction l generalizing i with
  | nil => simp [findMemoryTypeLoop]
  | cons t rest ih =>
    by_cases ht : typeFilter &&& (1 <<< i) ≠ 0 ∧ (t.propertyFlags &&& properties) = properties
    · simp only [findMemoryTypeLoop, if_pos ht]
      constructor
      · intro h
        cases h
      · intro h
        exact absurd ht (h 0 t List.getElem?_cons_zero)
    · simp only [findMemoryTypeLoop, if_neg ht]
      rw [ih (i + 1)]
      constructor
      · intro h m u hu
        cases m with
        | zero =>
          simp only [List.getElem?_cons_zero, Option.some.injEq] at hu
          subst hu
          exact ht
        | succ m =>
          simp only [List.getElem?_cons_succ] at hu
          have := h m u hu
          rwa [Nat.add_assoc, Nat.add_comm 1 m] at this
      · intro h m u hu
        have := h (m + 1) u (by simpa using hu)
        rwa [Nat.add_assoc, Nat.add_comm 1 m]

/-- An index returned by the loop from 0 lies below the memory-type count,
qualifies, and is the smallest qualifying index. -/
theorem findMemoryTypeLoop_zero_some (memProperties : VkPhysicalDeviceMemoryProperties)
    (typeFilter properties i : Nat)
    (h : findMemoryTypeLoop typeFilter properties 0 memProperties.memoryTypes = some i) :
    i < memProperties.memoryTypeCount ∧
      memoryTypeQualifies memProperties typeFilter properties i ∧
      ∀ j, j < i → ¬ memoryTypeQualifies memProperties typeFilter properties j := by
  obtain ⟨n, t, hk, ht, htest, hmin⟩ := findMemoryTypeLoop_some _ _ _ _ _ h
  rw [Nat.zero_add] at hk
  subst hk
  refine ⟨?_, (findMemoryTypeTest_iff memProperties _ _ _ t ht).mp htest, ?_⟩
  · unfold VkPhysicalDeviceMemoryProperties.memoryTypeCount
    by_contra hlt
    rw [List.getElem?_eq_none (Nat.le_of_not_lt hlt)] at ht
    cases ht
  · rintro j hj ⟨hbit, u, hu, hflags⟩
    have hnot := hmin j u hj hu
    rw [Nat.zero_add] at hnot
    exact hnot ((findMemoryTypeTest_iff memProperties _ _ _ u hu).mpr ⟨hbit, u, hu, hflags⟩)

/-- The loop from 0 ends without returning exactly when no index qualifies. -/
theorem findMemoryTypeLoop_zero_none (memProperties : VkPhysicalDeviceMemoryProperties)
    (typeFilter properties : Nat) :
    findMemoryTypeLoop typeFilter properties 0 memProperties.memoryTypes = none ↔
      ¬ ∃ i, i < memProperties.memoryTypeCount ∧
        memoryTypeQualifies memProperties typeFilter properties i := by
  rw [findMemoryTypeLoop_none]
  constructor
  · rintro h ⟨i, _, hbit, u, hu, hflags⟩
    have hnot := h i u hu
    rw [Nat.zero_add] at hnot
    exact hnot ((findMemoryTypeTest_iff memProperties _ _ _ u hu).mpr ⟨hbit, u, hu, hflags⟩)
  · intro h m u hu htest
    rw [Nat.zero_add] at htest
    apply h
    refine ⟨m, ?_, (findMemoryTypeTest_iff memProperties _ _ _ u hu).mp htest⟩
    unfold VkPhysicalDeviceMemoryProperties.memoryTypeCount
    by_contra hlt
    rw [List.getElem?_eq_none (Nat.le_of_not_lt hlt)] at hu
    cases hu

/-- C9: whenever `findMemoryType` returns an index `i`, then `i` is below the
memory-type count, bit `i` of the filter is set, the property flags of memory
type `i` include all required flags, and no index `j < i` satisfies both
conditions. -/
theorem findMemoryType_smallest (memProperties : VkPhysicalDeviceMemoryProperties)
    (typeFilter properties i : Nat)
    (h : findMemoryType memProperties typeFilter properties = Except.ok i) :
    i < memProperties.memoryTypeCount ∧
      memoryTypeQualifies memProperties typeFilter properties i ∧
      ∀ j, j < i → ¬ memoryTypeQualifies memProperties typeFilter properties j := by
  unfold findMemoryType at h
  cases hl : findMemoryTypeLoop typeFilter properties 0 memProperties.memoryTypes with
  | none =>
    rw [hl] at h
    cases h
  | some k =>
    rw [hl] at h
    cases h
    exact findMemoryTypeLoop_zero_some memProperties typeFilter properties _ hl

/-- Witness for C9: filter 0b0110, required host-visible, types [devLocal,
hostVisible, hostVisible|hostCoherent, devLocal] returns 1, which qualifies
while index 0 does not. -/
theorem findMemoryType_smallest_witness :
    findMemoryType ⟨[⟨1, 0⟩, ⟨2, 1⟩, ⟨6, 1⟩, ⟨1, 0⟩]⟩ 6 2 = Except.ok 1 ∧
      (1 < (⟨[⟨1, 0⟩, ⟨2, 1⟩, ⟨6, 1⟩, ⟨1, 0⟩]⟩ :
          VkPhysicalDeviceMemoryProperties).memoryTypeCount ∧
        memoryTypeQualifies ⟨[⟨1, 0⟩, ⟨2, 1⟩, ⟨6, 1⟩, ⟨1, 0⟩]⟩ 6 2 1 ∧
        ∀ j, j < 1 → ¬ memoryTypeQualifies ⟨[⟨1, 0⟩, ⟨2, 1⟩, ⟨6, 1⟩, ⟨1, 0⟩]⟩ 6 2 j) :=
  ⟨rfl, findMemoryType_smallest ⟨[⟨1, 0⟩, ⟨2, 1⟩, ⟨6, 1⟩, ⟨1, 0⟩]⟩ 6 2 1 rfl⟩

/-- C10: `findMemoryType` fails with the error "failed to find suitable memory
type!" if and only if no index below the memory-type count has its filter bit
set and property flags that include all required flags; a filter with no bit
set below the memory-type count always fails; and when some index qualifies
the search returns an index. -/
theorem findMemoryType_error_iff (memProperties : VkPhysicalDeviceMemoryProperties)
    (typeFilter properties : Nat) :
    (findMemoryType memProperties typeFilter properties =
          Except.error "failed to find suitable memory type!" ↔
        ¬ ∃ i, i < memProperties.memoryTypeCount ∧
          memoryTypeQualifies memProperties typeFilter properties i) ∧
      ((∀ i, i < memProperties.memoryTypeCount → typeFilter.testBit i = false) →
        findMemoryType memProperties typeFilter properties =
          Except.error "failed to find suitable memory type!") ∧
      ((∃ i, i < memProperties.memoryTypeCount ∧
          memoryTypeQualifies memProperties typeFilter properties i) →
        ∃ k, findMemoryType memProperties typeFilter properties = Except.ok k) := by
  have hiff : findMemoryType memProperties typeFilter properties =
        Except.error "failed to find suitable memory type!" ↔
      ¬ ∃ i, i < memProperties.memoryTypeCount ∧
        memoryTypeQualifies memProperties typeFilter properties i := by
    rw [← findMemoryTypeLoop_zero_none]
    unfold findMemoryType
    cases findMemoryTypeLoop typeFilter properties 0 memProperties.memoryTypes with
    | none => simp
    | some k => simp
  refine ⟨hiff, ?_, ?_⟩
  · intro hbits
    rw [hiff]
    rintro ⟨i, hi, hbit, _⟩
    rw [hbits i hi] at hbit
    exact Bool.false_ne_true hbit
  · intro hex
    cases hl : findMemoryTypeLoop typeFilter properties 0 memProperties.memoryTypes with
    | none => exact absurd hex ((findMemoryTypeLoop_zero_none _ _ _).mp hl)
    | some k =>
      refine ⟨k, ?_⟩
      unfold findMemoryType
      rw [hl]

/-- Witness for C10: filter 0b1000 with required host-visible against
[devLocal, hostVisible, hostVisible|hostCoherent, devLocal] fails, so no index
qualifies; and filter 0b10000, whose only bit lies beyond the four memory
types, fails as well. -/
theorem findMemoryType_error_iff_witness :
    findMemoryType ⟨[⟨1, 0⟩, ⟨2, 1⟩, ⟨6, 1⟩, ⟨1, 0⟩]⟩ 8 2 =
        Except.error "failed to find suitable memory type!" ∧
      (¬ ∃ i, i < (⟨[⟨1, 0⟩, ⟨2, 1⟩, ⟨6, 1⟩, ⟨1, 0⟩]⟩ :
          VkPhysicalDeviceMemoryProperties).memoryTypeCount ∧
        memoryTypeQualifies ⟨[⟨1, 0⟩, ⟨2, 1⟩, ⟨6, 1⟩, ⟨1, 0⟩]⟩ 8 2 i) ∧
      findMemoryType ⟨[⟨1, 0⟩, ⟨2, 1⟩, ⟨6, 1⟩, ⟨1, 0⟩]⟩ 16 2 =
        Except.error "failed to find suitable memory type!" :=
  ⟨rfl,
    (findMemoryType_error_iff ⟨[⟨1, 0⟩, ⟨2, 1⟩, ⟨6, 1⟩, ⟨1, 0⟩]⟩ 8 2).1.mp rfl,
    (findMemoryType_error_iff ⟨[⟨1, 0⟩, ⟨2, 1⟩, ⟨6, 1⟩, ⟨1, 0⟩]⟩ 16 2).2.1 (by decide)⟩

/-! ## Queue-family search -/

/-- While the present family is still -1 the indices are not complete. -/
theorem isComplete_present_neg (g : Int) :
    QueueFamilyIndices.isComplete ⟨g, -1⟩ = false := by
  simp [QueueFamilyIndices.isComplete]

/-- Indices that name the same family `i` for both queues are complete. -/
theorem isComplete_same (i : Nat) :
    QueueFamilyIndices.isComplete ⟨(i : Int), (i : Int)⟩ = true := by
  simp [QueueFamilyIndices.isComplete]

/-- The loop started at index `i` with graphics index `g` and no present
index: when position `k` holds the first family that has graphics capability
and is reported presentable, both indices become `i + k`. -/
theorem findQueueFamiliesLoop_first_both (surfaceSupport : Nat → Bool)
    (l : List VkQueueFamilyProperties) (i : Nat) (g : Int) (k : Nat)
    (q : VkQueueFamilyProperties) (hq : l[k]? = some q) (hcap : graphicsCapable q)
    (hsup : surfaceSupport (i + k) = true)
    (hmin : ∀ j r, j < k → l[j]? = some r →
      ¬ (graphicsCapable r ∧ surfaceSupport (i + j) = true)) :
    findQueueFamiliesLoop surfaceSupport i ⟨g, -1⟩ l =
      ⟨((i + k : Nat) : Int), ((i + k : Nat) : Int)⟩ := by
  induction l generalizing i g k with
  | nil => simp at hq
  | cons q0 rest ih =>
    cases k with
    | zero =>
      simp only [List.getElem?_cons_zero, Option.some.injEq] at hq
      subst hq
      rw [Nat.add_zero] at hsup
      have hcap0 : q0.queueCount > 0 ∧ q0.queueFlags &&& VK_QUEUE_GRAPHICS_BIT ≠ 0 := hcap
      simp only [findQueueFamiliesLoop, if_pos hcap0, hsup, if_true, isComplete_same,
        Nat.add_zero]
    | succ k =>
      simp only [List.getElem?_cons_succ] at hq
      have h0 := hmin 0 q0 (Nat.succ_pos k) List.getElem?_cons_zero
      rw [Nat.add_zero] at h0
      have hrest : ∀ j r, j < k → rest[j]? = some r →
          ¬ (graphicsCapable r ∧ surfaceSupport (i + 1 + j) = true) := by
        intro j r hj hr
        have := hmin (j + 1) r (Nat.succ_lt_succ hj) (by simpa using hr)
        rwa [Nat.add_assoc, Nat.add_comm 1 j]
      have hsup1 : surfaceSupport (i + 1 + k) = true := by
        rwa [Nat.add_assoc, Nat.add_comm 1 k]
      have hidx : i + (k + 1) = i + 1 + k := by omega
      by_cases hcap0 : q0.queueCount > 0 ∧ q0.queueFlags &&& VK_QUEUE_GRAPHICS_BIT ≠ 0
      · have hns : ¬ surfaceSupport i = true := fun hs => h0 ⟨hcap0, hs⟩
        simp only [findQueueFamiliesLoop, if_pos hcap0, if_neg hns, isComplete_present_neg,
          Bool.false_eq_true, if_false]
        rw [ih (i + 1) (i : Int) k hq hsup1 hrest, hidx]
      · simp only [findQueueFamiliesLoop, if_neg hcap0, isComplete_present_neg,
          Bool.false_eq_true, if_false]
        rw [ih (i + 1) g k hq hsup1 hrest, hidx]

/-- The loop started at index `i` with graphics index `g` and no present
index, over families none of which both has graphics capability and is
reported presentable: the present index stays -1, and the graphics index is
that of the last family with graphics capability, or `g` when there is none. -/
theorem findQueueFamiliesLoop_no_both (surfaceSupport : Nat → Bool)
    (l : List VkQueueFamilyProperties) (i : Nat) (g : Int)
    (hno : ∀ k q, l[k]? = some q → ¬ (graphicsCapable q ∧ surfaceSupport (i + k) = true)) :
    (findQueueFamiliesLoop surfaceSupport i ⟨g, -1⟩ l).presentFamily = -1 ∧
      ((∀ (k : Nat) q, l[k]? = some q → ¬ graphicsCapable q) →
        (findQueueFamiliesLoop surfaceSupport i ⟨g, -1⟩ l).graphicsFamily = g) ∧
      (∀ (k : Nat) q, l[k]? = some q → graphicsCapable q →
        (∀ (j : Nat) r, k < j → l[j]? = some r → ¬ graphicsCapable r) →
        (findQueueFamiliesLoop surfaceSupport i ⟨g, -1⟩ l).graphicsFamily =
          ((i + k : Nat) : Int)) := by
  induction l generalizing i g with
  | nil =>
    refine ⟨rfl, fun _ => rfl, ?_⟩
    intro k q hq
    simp at hq
  | cons q0 rest ih =>
    have h0 := hno 0 q0 List.getElem?_cons_zero
    rw [Nat.add_zero] at h0
    have hrest : ∀ k q, rest[k]? = some q →
        ¬ (graphicsCapable q ∧ surfaceSupport (i + 1 + k) = true) := by
      intro k q hq
      have := hno (k + 1) q (by simpa using hq)
      rwa [Nat.add_assoc, Nat.add_comm 1 k]
    by_cases hcap0 : q0.queueCount > 0 ∧ q0.queueFlags &&& VK_QUEUE_GRAPHICS_BIT ≠ 0
    · have hns : ¬ surfaceSupport i = true := fun hs => h0 ⟨hcap0, hs⟩
      simp only [findQueueFamiliesLoop, if_pos hcap0, if_neg hns, isComplete_present_neg,
        Bool.false_eq_true, if_false]
      obtain ⟨hp, hnone, hlast⟩ := ih (i + 1) (i : Int) hrest
      refine ⟨hp, ?_, ?_⟩
      · intro hall
        exact absurd hcap0 (hall 0 q0 List.getElem?_cons_zero)
      · intro k q hq hcap hlater
        cases k with
        | zero =>
          rw [Nat.add_zero]
          apply hnone
          intro j r hr
          exact hlater (j + 1) r (Nat.succ_pos j) (by simpa using hr)
        | succ k =>
          simp only [List.getElem?_cons_succ] at hq
          have hidx : i + (k + 1) = i + 1 + k := by omega
          rw [hidx]
          apply hlast k q hq hcap
          intro j r hj hr
          exact hlater (j + 1) r (Nat.succ_lt_succ hj) (by simpa using hr)
    · simp only [findQueueFamiliesLoop, if_neg hcap0, isComplete_present_neg,
        Bool.false_eq_true, if_false]
      obtain ⟨hp, hnone, hlast⟩ := ih (i + 1) g hrest
      refine ⟨hp, ?_, ?_⟩
      · intro hall
        apply hnone
        intro k q hq
        exact hall (k + 1) q (by simpa using hq)
      · intro k q hq hcap hlater
        cases k with
        | zero =>
          simp only [List.getElem?_cons_zero, Option.some.injEq] at hq
          subst hq
          exact absurd hcap hcap0
        | succ k =>
          simp only [List.getElem?_cons_succ] at hq
          have hidx : i + (k + 1) = i + 1 + k := by omega
          rw [hidx]
          apply hlast k q hq hcap
          intro j r hj hr
          exact hlater (j + 1) r (Nat.succ_lt_succ hj) (by simpa using hr)

/-- When family `i` is the first that has graphics capability and is reported
presentable, `findQueueFamilies` returns `i` for both indices. -/
theorem findQueueFamilies_first_both (physicalDevice : VkPhysicalDevice) (i : Nat)
    (hg : graphicsAt physicalDevice i) (hs : physicalDevice.surfaceSupport i = true)
    (hmin : ∀ j, j < i →
      ¬ (graphicsAt physicalDevice j ∧ physicalDevice.surfaceSupport j = true)) :
    findQueueFamilies physicalDevice = ⟨(i : Int), (i : Int)⟩ := by
  obtain ⟨q, hq, hcap⟩ := hg
  have h := findQueueFamiliesLoop_first_both physicalDevice.surfaceSupport
    physicalDevice.queueFamilies 0 (-1) i q hq hcap (by rwa [Nat.zero_add])
    (by
      intro j r hj hr hboth
      rw [Nat.zero_add] at hboth
      exact hmin j hj ⟨⟨r, hr, hboth.1⟩, hboth.2⟩)
  rw [Nat.zero_add] at h
  exact h

/-- When no family both has graphics capability and is reported presentable,
`findQueueFamilies` leaves the present index at -1 and returns the last family
with graphics capability as the graphics index. -/
theorem findQueueFamilies_no_both (physicalDevice : VkPhysicalDevice)
    (hno : ∀ j, ¬ (graphicsAt physicalDevice j ∧ physicalDevice.surfaceSupport j = true)) :
    (findQueueFamilies physicalDevice).presentFamily = -1 ∧
      ((∀ j, ¬ graphicsAt physicalDevice j) →
        (findQueueFamilies physicalDevice).graphicsFamily = -1) ∧
      (∀ i, graphicsAt physicalDevice i → (∀ j, i < j → ¬ graphicsAt physicalDevice j) →
        (findQueueFamilies physicalDevice).graphicsFamily = (i : Int)) := by
  obtain ⟨hp, hnone, hlast⟩ := findQueueFamiliesLoop_no_both physicalDevice.surfaceSupport
    physicalDevice.queueFamilies 0 (-1)
    (by
      intro k q hq hboth
      rw [Nat.zero_add] at hboth
      exact hno k ⟨⟨q, hq, hboth.1⟩, hboth.2⟩)
  refine ⟨hp, ?_, ?_⟩
  · intro hall
    apply hnone
    intro k q hq hcap
    exact hall k ⟨q, hq, hcap⟩
  · rintro i ⟨q, hq, hcap⟩ hlater
    have h := hlast i q hq hcap (fun j r hj hr hc => hlater j hj ⟨r, hr, hc⟩)
    rw [Nat.zero_add] at h
    exact h

/-- An index with graphics capability lies below the number of families. -/
theorem graphicsAt_lt (physicalDevice : VkPhysicalDevice) (i : Nat)
    (h : graphicsAt physicalDevice i) : i < physicalDevice.queueFamilies.length := by
  obtain ⟨q, hq, _⟩ := h
  by_contra hlt
  rw [List.getElem?_eq_none (Nat.le_of_not_lt hlt)] at hq
  cases hq

/-- Counterexample to C14 as stated: with two graphics families of which only
the second is presentable, family 0 is the first with graphics capability but
the returned `graphicsFamily` is 1. -/
theorem findQueueFamilies_graphicsFamily_not_first :
    graphicsAt
        (exampleDevice VK_PHYSICAL_DEVICE_TYPE_DISCRETE_GPU [⟨1, 1⟩, ⟨1, 1⟩]
          (fun i => i == 1) ["VK_KHR_swapchain"]) 0 ∧
      (findQueueFamilies
        (exampleDevice VK_PHYSICAL_DEVICE_TYPE_DISCRETE_GPU [⟨1, 1⟩, ⟨1, 1⟩]
          (fun i => i == 1) ["VK_KHR_swapchain"])).graphicsFamily = 1 ∧
      (findQueueFamilies
        (exampleDevice VK_PHYSICAL_DEVICE_TYPE_DISCRETE_GPU [⟨1, 1⟩, ⟨1, 1⟩]
          (fun i => i == 1) ["VK_KHR_swapchain"])).graphicsFamily ≠ 0 :=
  ⟨⟨⟨1, 1⟩, rfl, by decide⟩, by decide, by decide⟩

/-- C14 (amended): for every list of queue families with at least one family
with graphics capability, the returned `graphicsFamily` is the index of a
family with graphics capability: the first family that has graphics capability
and is reported presentable by the surface when there is such a family, and
the last family with graphics capability otherwise. -/
theorem findQueueFamilies_graphicsFamily (physicalDevice : VkPhysicalDevice)
    (h : ∃ i, graphicsAt physicalDevice i) :
    ∃ i : Nat, (findQueueFamilies physicalDevice).graphicsFamily = (i : Int) ∧
      graphicsAt physicalDevice i ∧
      ((∃ j, graphicsAt physicalDevice j ∧ physicalDevice.surfaceSupport j = true) →
        physicalDevice.surfaceSupport i = true ∧
          ∀ j, j < i →
            ¬ (graphicsAt physicalDevice j ∧ physicalDevice.surfaceSupport j = true)) ∧
      ((¬ ∃ j, graphicsAt physicalDevice j ∧ physicalDevice.surfaceSupport j = true) →
        ∀ j, i < j → ¬ graphicsAt physicalDevice j) := by
  classical
  by_cases hboth : ∃ j, graphicsAt physicalDevice j ∧ physicalDevice.surfaceSupport j = true
  · have hspec := Nat.find_spec hboth
    have hmin : ∀ j, j < Nat.find hboth →
        ¬ (graphicsAt physicalDevice j ∧ physicalDevice.surfaceSupport j = true) :=
      fun j hj => Nat.find_min hboth hj
    refine ⟨Nat.find hboth, ?_, hspec.1, fun _ => ⟨hspec.2, hmin⟩, fun hn => absurd hboth hn⟩
    rw [findQueueFamilies_first_both physicalDevice _ hspec.1 hspec.2 hmin]
  · obtain ⟨i0, hi0⟩ := h
    have hle : i0 ≤ physicalDevice.queueFamilies.length :=
      Nat.le_of_lt (graphicsAt_lt physicalDevice i0 hi0)
    have hgreat : graphicsAt physicalDevice
        (Nat.findGreatest (graphicsAt physicalDevice) physicalDevice.queueFamilies.length) :=
      Nat.findGreatest_spec hle hi0
    have hlater : ∀ j,
        Nat.findGreatest (graphicsAt physicalDevice) physicalDevice.queueFamilies.length < j →
        ¬ graphicsAt physicalDevice j := by
      intro j hj hgj
      exact Nat.findGreatest_is_greatest hj
        (Nat.le_of_lt (graphicsAt_lt physicalDevice j hgj)) hgj
    have hno : ∀ j,
        ¬ (graphicsAt physicalDevice j ∧ physicalDevice.surfaceSupport j = true) :=
      fun j hj => hboth ⟨j, hj⟩
    exact ⟨_, (findQueueFamilies_no_both physicalDevice hno).2.2 _ hgreat hlater, hgreat,
      fun hb => absurd hb hboth, fun _ => hlater⟩

/-- Witness for C14 (amended): with two graphics families of which only the
second is presentable the graphics index is that of the second. -/
theorem findQueueFamilies_graphicsFamily_witness :
    ∃ i : Nat,
      (findQueueFamilies
        (exampleDevice VK_PHYSICAL_DEVICE_TYPE_DISCRETE_GPU [⟨1, 1⟩, ⟨1, 1⟩]
          (fun i => i == 1) ["VK_KHR_swapchain"])).graphicsFamily = (i : Int) ∧
      graphicsAt
        (exampleDevice VK_PHYSICAL_DEVICE_TYPE_DISCRETE_GPU [⟨1, 1⟩, ⟨1, 1⟩]
          (fun i => i == 1) ["VK_KHR_swapchain"]) i := by
  obtain ⟨i, h1, h2, _⟩ := findQueueFamilies_graphicsFamily
    (exampleDevice VK_PHYSICAL_DEVICE_TYPE_DISCRETE_GPU [⟨1, 1⟩, ⟨1, 1⟩]
      (fun i => i == 1) ["VK_KHR_swapchain"]) ⟨0, ⟨1, 1⟩, rfl, by decide⟩
  exact ⟨i, h1, h2⟩

/-- Counterexample to C15 as stated: with a presentable compute-only family
before a presentable graphics family, family 0 is the first that the surface
reports as presentable but the returned `presentFamily` is 1; and when only
the compute-only family is presentable, `presentFamily` stays -1. -/
theorem findQueueFamilies_presentFamily_not_first :
    presentableAt
        (exampleDevice VK_PHYSICAL_DEVICE_TYPE_DISCRETE_GPU [⟨2, 1⟩, ⟨1, 1⟩]
          (fun _ => true) ["VK_KHR_swapchain"]) 0 ∧
      (findQueueFamilies
        (exampleDevice VK_PHYSICAL_DEVICE_TYPE_DISCRETE_GPU [⟨2, 1⟩, ⟨1, 1⟩]
          (fun _ => true) ["VK_KHR_swapchain"])).presentFamily = 1 ∧
      presentableAt
        (exampleDevice VK_PHYSICAL_DEVICE_TYPE_DISCRETE_GPU [⟨2, 1⟩, ⟨1, 1⟩]
          (fun i => i == 0) ["VK_KHR_swapchain"]) 0 ∧
      (findQueueFamilies
        (exampleDevice VK_PHYSICAL_DEVICE_TYPE_DISCRETE_GPU [⟨2, 1⟩, ⟨1, 1⟩]
          (fun i => i == 0) ["VK_KHR_swapchain"])).presentFamily = -1 :=
  ⟨⟨by decide, rfl⟩, by decide, ⟨by decide, rfl⟩, by decide⟩

/-- C15 (amended): when the surface reports at least one family with graphics
capability as presentable, the returned `presentFamily` is the index of the
first family that has graphics capability and is reported presentable;
otherwise (families without graphics capability are not queried)
`presentFamily` is -1. -/
theorem findQueueFamilies_presentFamily (physicalDevice : VkPhysicalDevice) :
    ((∃ j, graphicsAt physicalDevice j ∧ physicalDevice.surfaceSupport j = true) →
        ∃ i : Nat, (findQueueFamilies physicalDevice).presentFamily = (i : Int) ∧
          graphicsAt physicalDevice i ∧ physicalDevice.surfaceSupport i = true ∧
          ∀ j, j < i →
            ¬ (graphicsAt physicalDevice j ∧ physicalDevice.surfaceSupport j = true)) ∧
      ((¬ ∃ j, graphicsAt physicalDevice j ∧ physicalDevice.surfaceSupport j = true) →
        (findQueueFamilies physicalDevice).presentFamily = -1) := by
  classical
  constructor
  · intro hboth
    have hspec := Nat.find_spec hboth
    have hmin : ∀ j, j < Nat.find hboth →
        ¬ (graphicsAt physicalDevice j ∧ physicalDevice.surfaceSupport j = true) :=
      fun j hj => Nat.find_min hboth hj
    refine ⟨Nat.find hboth, ?_, hspec.1, hspec.2, hmin⟩
    rw [findQueueFamilies_first_both physicalDevice _ hspec.1 hspec.2 hmin]
  · intro hboth
    exact (findQueueFamilies_no_both physicalDevice (fun j hj => hboth ⟨j, hj⟩)).1

/-- Witness for C15 (amended): a presentable compute-only family before a
presentable graphics family gives present index 1, and -1 when only the
compute-only family is presentable. -/
theorem findQueueFamilies_presentFamily_witness :
    (∃ i : Nat,
      (findQueueFamilies
        (exampleDevice VK_PHYSICAL_DEVICE_TYPE_DISCRETE_GPU [⟨2, 1⟩, ⟨1, 1⟩]
          (fun _ => true) ["VK_KHR_swapchain"])).presentFamily = (i : Int) ∧
      graphicsAt
        (exampleDevice VK_PHYSICAL_DEVICE_TYPE_DISCRETE_GPU [⟨2, 1⟩, ⟨1, 1⟩]
          (fun _ => true) ["VK_KHR_swapchain"]) i) ∧
      (findQueueFamilies
        (exampleDevice VK_PHYSICAL_DEVICE_TYPE_DISCRETE_GPU [⟨2, 1⟩, ⟨1, 1⟩]
          (fun i => i == 0) ["VK_KHR_swapchain"])).presentFamily = -1 := by
  constructor
  · obtain ⟨i, h1, h2, _⟩ := (findQueueFamilies_presentFamily
      (exampleDevice VK_PHYSICAL_DEVICE_TYPE_DISCRETE_GPU [⟨2, 1⟩, ⟨1, 1⟩]
        (fun _ => true) ["VK_KHR_swapchain"])).1 ⟨1, ⟨⟨1, 1⟩, rfl, by decide⟩, rfl⟩
    exact ⟨i, h1, h2⟩
  · apply (findQueueFamilies_presentFamily
      (exampleDevice VK_PHYSICAL_DEVICE_TYPE_DISCRETE_GPU [⟨2, 1⟩, ⟨1, 1⟩]
        (fun i => i == 0) ["VK_KHR_swapchain"])).2
    rintro ⟨j, ⟨q, hq, hcap⟩, hs⟩
    have hj : j = 0 := by simpa [exampleDevice] using hs
    subst hj
    simp only [exampleDevice, List.getElem?_cons_zero, Option.some.injEq] at hq
    subst hq
    exact absurd hcap (by decide)

/-! ## Device suitability and selection -/

/-- Erasing the names of the available extensions one after the other keeps
exactly the required names that no available extension carries. -/
theorem mem_foldl_erase (available : List VkExtensionProperties) (required : List String)
    (name : String) :
    name ∈ available.foldl
        (fun requiredExtensions extension =>
          requiredExtensions.filter (fun r => decide (r ≠ extension.extensionName)))
        required ↔
      name ∈ required ∧ ∀ e ∈ available, e.extensionName ≠ name := by
  induction available generalizing required with
  | nil => simp
  | cons e rest ih =>
    rw [List.foldl_cons, ih]
    simp only [List.mem_filter, decide_eq_true_eq, List.mem_cons, forall_eq_or_imp]
    constructor
    · rintro ⟨⟨h1, h2⟩, h3⟩
      exact ⟨h1, fun h => h2 h.symm, h3⟩
    · rintro ⟨h1, h2, h3⟩
      exact ⟨⟨h1, fun h => h2 h.symm⟩, h3⟩

/-- The function `checkDeviceExtensionSupport` answers true exactly when every
name in `deviceExtensions` is the name of an available extension. -/
theorem checkDeviceExtensionSupport_iff (physicalDevice : VkPhysicalDevice) :
    checkDeviceExtensionSupport physicalDevice = true ↔
      ∀ name ∈ deviceExtensions,
        ∃ e ∈ physicalDevice.availableExtensions, e.extensionName = name := by
  unfold checkDeviceExtensionSupport
  simp only [List.isEmpty_iff]
  rw [List.eq_nil_iff_forall_not_mem]
  constructor
  · intro h name hname
    by_contra hno
    apply h name
    rw [mem_foldl_erase]
    exact ⟨List.mem_dedup.mpr hname, fun e he heq => hno ⟨e, he, heq⟩⟩
  · intro h name hmem
    rw [mem_foldl_erase] at hmem
    obtain ⟨e, he, heq⟩ := h name (List.mem_dedup.mp hmem.1)
    exact hmem.2 e he heq

/-- C11: a device is a candidate (`isDeviceSuitable`) if and only if both
queue-family indices were found, every required device extension is among the
supported extensions of the device, and both the surface-format list and the
present-mode list are non-empty; the required extensions are the swapchain
extension alone. -/
theorem isDeviceSuitable_iff (physicalDevice : VkPhysicalDevice) :
    (isDeviceSuitable physicalDevice = true ↔
        ((findQueueFamilies physicalDevice).graphicsFamily ≥ 0 ∧
          (findQueueFamilies physicalDevice).presentFamily ≥ 0) ∧
        (∀ name ∈ deviceExtensions,
          ∃ e ∈ physicalDevice.availableExtensions, e.extensionName = name) ∧
        physicalDevice.swapChainSupport.surfaceFormats ≠ [] ∧
        physicalDevice.swapChainSupport.presentModes ≠ []) ∧
      ((∀ name ∈ deviceExtensions,
          ∃ e ∈ physicalDevice.availableExtensions, e.extensionName = name) ↔
        ∃ e ∈ physicalDevice.availableExtensions, e.extensionName = "VK_KHR_swapchain") := by
  constructor
  · rw [← checkDeviceExtensionSupport_iff]
    unfold isDeviceSuitable
    cases hext : checkDeviceExtensionSupport physicalDevice with
    | false => simp
    | true =>
      simp only [QueueFamilyIndices.isComplete, if_true, Bool.and_true, Bool.and_eq_true,
        decide_eq_true_eq, Bool.not_eq_true', List.isEmpty_eq_false, ne_eq, true_and]
      constructor
      · rintro ⟨h1, h2, h3⟩
        exact ⟨h1, h3, h2⟩
      · rintro ⟨h1, h2, h3⟩
        exact ⟨h1, h3, h2⟩
  · simp [deviceExtensions, VK_KHR_SWAPCHAIN_EXTENSION_NAME]

/-- Witness for C11: a device with one presentable graphics family, the
swapchain extension and non-empty lists is a candidate; without the extension
it is not. -/
theorem isDeviceSuitable_iff_witness :
    isDeviceSuitable
        (exampleDevice VK_PHYSICAL_DEVICE_TYPE_INTEGRATED_GPU [⟨1, 1⟩] (fun _ => true)
          ["VK_KHR_swapchain"]) = true ∧
      ¬ isDeviceSuitable
        (exampleDevice VK_PHYSICAL_DEVICE_TYPE_DISCRETE_GPU [⟨1, 1⟩] (fun _ => true)
          ["VK_KHR_maintenance1"]) = true := by
  constructor
  · exact (isDeviceSuitable_iff _).1.mpr
      ⟨by decide, by decide, by decide, by decide⟩
  · intro h
    have h2 := ((isDeviceSuitable_iff _).1.mp h).2.1 "VK_KHR_swapchain" (by decide)
    revert h2
    decide

/-- A device returned by the selecting loop stands at a position of the list,
is a discrete GPU and a candidate, and no earlier device is both. -/
theorem getPhysicalDeviceLoop_some (devices : List VkPhysicalDevice)
    (physicalDevice : VkPhysicalDevice)
    (h : getPhysicalDeviceLoop devices = some physicalDevice) :
    ∃ i : Nat, devices[i]? = some physicalDevice ∧
      physicalDevice.deviceType = VK_PHYSICAL_DEVICE_TYPE_DISCRETE_GPU ∧
      isDeviceSuitable physicalDevice = true ∧
      ∀ (j : Nat) d, j < i → devices[j]? = some d →
        ¬ (d.deviceType = VK_PHYSICAL_DEVICE_TYPE_DISCRETE_GPU ∧ isDeviceSuitable d = true) := by
  induction devices with
  | nil => simp [getPhysicalDeviceLoop] at h
  | cons d0 rest ih =>
    by_cases hd : (isPhysicalDeviceSuitable d0 && isDeviceSuitable d0) = true
    · simp only [getPhysicalDeviceLoop, if_pos hd, Option.some.injEq] at h
      subst h
      simp only [isPhysicalDeviceSuitable, Bool.and_eq_true, decide_eq_true_eq] at hd
      exact ⟨0, List.getElem?_cons_zero, hd.1, hd.2,
        fun j d hj => absurd hj (Nat.not_lt_zero j)⟩
    · simp only [getPhysicalDeviceLoop, if_neg hd] at h
      obtain ⟨i, hi, htype, hsuit, hmin⟩ := ih h
      refine ⟨i + 1, by simpa using hi, htype, hsuit, ?_⟩
      intro j d hj hdj
      cases j with
      | zero =>
        simp only [List.getElem?_cons_zero, Option.some.injEq] at hdj
        subst hdj
        simpa [isPhysicalDeviceSuitable] using hd
      | succ j =>
        simp only [List.getElem?_cons_succ] at hdj
        exact hmin j d (by omega) hdj

/-- The selecting loop ends with `VK_NULL_HANDLE` exactly when no device of the
list is both a discrete GPU and a candidate. -/
theorem getPhysicalDeviceLoop_none (devices : List VkPhysicalDevice) :
    getPhysicalDeviceLoop devices = none ↔
      ¬ ∃ d ∈ devices,
        d.deviceType = VK_PHYSICAL_DEVICE_TYPE_DISCRETE_GPU ∧ isDeviceSuitable d = true := by
  induction devices with
  | nil => simp [getPhysicalDeviceLoop]
  | cons d0 rest ih =>
    by_cases hd : (isPhysicalDeviceSuitable d0 && isDeviceSuitable d0) = true
    · simp only [getPhysicalDeviceLoop, if_pos hd]
      simp only [isPhysicalDeviceSuitable, Bool.and_eq_true, decide_eq_true_eq] at hd
      constructor
      · intro h
        cases h
      · intro h
        exact absurd ⟨d0, List.mem_cons_self _ _, hd⟩ h
    · simp only [getPhysicalDeviceLoop, if_neg hd]
      rw [ih]
      simp only [isPhysicalDeviceSuitable, Bool.and_eq_true, decide_eq_true_eq] at hd
      constructor
      · rintro h ⟨d, hmem, hprop⟩
        rcases List.mem_cons.mp hmem with h0 | h0
        · subst h0
          exact hd hprop
        · exact h ⟨d, h0, hprop⟩
      · rintro h ⟨d, hmem, hprop⟩
        exact h ⟨d, List.mem_cons_of_mem _ hmem, hprop⟩

/-- The method `pickPhysicalDevice` returns what the selecting loop found. -/
theorem pickPhysicalDevice_ok (devices : List VkPhysicalDevice)
    (physicalDevice : VkPhysicalDevice)
    (h : pickPhysicalDevice devices = Except.ok physicalDevice) :
    getPhysicalDeviceLoop devices = some physicalDevice := by
  unfold pickPhysicalDevice getPhysicalDevice at h
  by_cases h0 : devices.length = 0
  · simp [h0] at h
  · simp only [if_neg h0] at h
    cases hl : getPhysicalDeviceLoop devices with
    | none =>
      rw [hl] at h
      cases h
    | some d =>
      rw [hl] at h
      cases h
      rfl

/-- C12: whenever `pickPhysicalDevice` succeeds, the returned device is the
first device in enumeration order that is both a discrete GPU and a candidate
(`isDeviceSuitable`): it stands at a position of the list, has both
properties, and no earlier device in the list has both. -/
theorem pickPhysicalDevice_first (devices : List VkPhysicalDevice)
    (physicalDevice : VkPhysicalDevice)
    (h : pickPhysicalDevice devices = Except.ok physicalDevice) :
    ∃ i : Nat, devices[i]? = some physicalDevice ∧
      physicalDevice.deviceType = VK_PHYSICAL_DEVICE_TYPE_DISCRETE_GPU ∧
      isDeviceSuitable physicalDevice = true ∧
      ∀ (j : Nat) d, j < i → devices[j]? = some d →
        ¬ (d.deviceType = VK_PHYSICAL_DEVICE_TYPE_DISCRETE_GPU ∧ isDeviceSuitable d = true) :=
  getPhysicalDeviceLoop_some devices physicalDevice (pickPhysicalDevice_ok devices _ h)

/-- Witness for C12: after a capable integrated GPU and a discrete GPU without
the swapchain extension, the first of two capable discrete GPUs is returned. -/
theorem pickPhysicalDevice_first_witness :
    ∃ i : Nat,
      [exampleDevice VK_PHYSICAL_DEVICE_TYPE_INTEGRATED_GPU [⟨1, 1⟩] (fun _ => true)
          ["VK_KHR_swapchain"],
        exampleDevice VK_PHYSICAL_DEVICE_TYPE_DISCRETE_GPU [⟨1, 1⟩] (fun _ => true) [],
        exampleDevice VK_PHYSICAL_DEVICE_TYPE_DISCRETE_GPU [⟨1, 1⟩] (fun _ => true)
          ["VK_KHR_swapchain"],
        exampleDevice VK_PHYSICAL_DEVICE_TYPE_DISCRETE_GPU [⟨3, 2⟩] (fun _ => true)
          ["VK_KHR_swapchain"]][i]? =
        some (exampleDevice VK_PHYSICAL_DEVICE_TYPE_DISCRETE_GPU [⟨1, 1⟩] (fun _ => true)
          ["VK_KHR_swapchain"]) ∧
      isDeviceSuitable (exampleDevice VK_PHYSICAL_DEVICE_TYPE_DISCRETE_GPU [⟨1, 1⟩]
        (fun _ => true) ["VK_KHR_swapchain"]) = true := by
  obtain ⟨i, h1, _, h3, _⟩ := pickPhysicalDevice_first
    [exampleDevice VK_PHYSICAL_DEVICE_TYPE_INTEGRATED_GPU [⟨1, 1⟩] (fun _ => true)
        ["VK_KHR_swapchain"],
      exampleDevice VK_PHYSICAL_DEVICE_TYPE_DISCRETE_GPU [⟨1, 1⟩] (fun _ => true) [],
      exampleDevice VK_PHYSICAL_DEVICE_TYPE_DISCRETE_GPU [⟨1, 1⟩] (fun _ => true)
        ["VK_KHR_swapchain"],
      exampleDevice VK_PHYSICAL_DEVICE_TYPE_DISCRETE_GPU [⟨3, 2⟩] (fun _ => true)
        ["VK_KHR_swapchain"]]
    (exampleDevice VK_PHYSICAL_DEVICE_TYPE_DISCRETE_GPU [⟨1, 1⟩] (fun _ => true)
      ["VK_KHR_swapchain"]) rfl
  exact ⟨i, h1, h3⟩

/-- C13: `pickPhysicalDevice` fails with a no-suitable-device error if and
only if no enumerated device is both a discrete GPU and a candidate: with the
message "failed to find GPUs with Vulkan support!" when the list is empty and
"failed to find a suitable GPU!" when it is not; and when some device has both
properties a device is returned. -/
theorem pickPhysicalDevice_error_iff (devices : List VkPhysicalDevice) :
    ((∃ what, pickPhysicalDevice devices = Except.error what ∧ NoSuitableDeviceError what) ↔
        ¬ ∃ d ∈ devices,
          d.deviceType = VK_PHYSICAL_DEVICE_TYPE_DISCRETE_GPU ∧ isDeviceSuitable d = true) ∧
      (devices = [] →
        pickPhysicalDevice devices = Except.error "failed to find GPUs with Vulkan support!") ∧
      (devices ≠ [] →
        (¬ ∃ d ∈ devices,
          d.deviceType = VK_PHYSICAL_DEVICE_TYPE_DISCRETE_GPU ∧ isDeviceSuitable d = true) →
        pickPhysicalDevice devices = Except.error "failed to find a suitable GPU!") ∧
      ((∃ d ∈ devices,
          d.deviceType = VK_PHYSICAL_DEVICE_TYPE_DISCRETE_GPU ∧ isDeviceSuitable d = true) →
        ∃ physicalDevice, pickPhysicalDevice devices = Except.ok physicalDevice) := by
  have hempty : devices = [] →
      pickPhysicalDevice devices =
        Except.error "failed to find GPUs with Vulkan support!" := by
    intro h
    subst h
    rfl
  have hnone : devices ≠ [] →
      (¬ ∃ d ∈ devices,
        d.deviceType = VK_PHYSICAL_DEVICE_TYPE_DISCRETE_GPU ∧ isDeviceSuitable d = true) →
      pickPhysicalDevice devices = Except.error "failed to find a suitable GPU!" := by
    intro hne hno
    have hlen : ¬ devices.length = 0 := fun h0 => hne (List.length_eq_zero.mp h0)
    unfold pickPhysicalDevice getPhysicalDevice
    simp only [if_neg hlen]
    rw [(getPhysicalDeviceLoop_none devices).mpr hno]
  have hsome : (∃ d ∈ devices,
        d.deviceType = VK_PHYSICAL_DEVICE_TYPE_DISCRETE_GPU ∧ isDeviceSuitable d = true) →
      ∃ physicalDevice, pickPhysicalDevice devices = Except.ok physicalDevice := by
    intro hex
    have hlen : ¬ devices.length = 0 := by
      obtain ⟨d, hd, _⟩ := hex
      intro h0
      rw [List.length_eq_zero.mp h0] at hd
      cases hd
    cases hl : getPhysicalDeviceLoop devices with
    | none => exact absurd hex ((getPhysicalDeviceLoop_none devices).mp hl)
    | some d =>
      refine ⟨d, ?_⟩
      unfold pickPhysicalDevice getPhysicalDevice
      simp only [if_neg hlen]
      rw [hl]
  refine ⟨?_, hempty, hnone, hsome⟩
  constructor
  · rintro ⟨what, herr, _⟩ hex
    obtain ⟨d, hd⟩ := hsome hex
    rw [hd] at herr
    cases herr
  · intro hno
    by_cases hne : devices = []
    · exact ⟨_, hempty hne, Or.inl rfl⟩
    · exact ⟨_, hnone hne hno, Or.inr rfl⟩

/-- Witness for C13: selection fails on the empty list, when the only discrete
GPU lacks the swapchain extension, and when the only fully capable device is
an integrated GPU. -/
theorem pickPhysicalDevice_error_iff_witness :
    pickPhysicalDevice [] = Except.error "failed to find GPUs with Vulkan support!" ∧
      pickPhysicalDevice
          [exampleDevice VK_PHYSICAL_DEVICE_TYPE_DISCRETE_GPU [⟨1, 1⟩] (fun _ => true)
            ["VK_KHR_maintenance1"]] =
        Except.error "failed to find a suitable GPU!" ∧
      pickPhysicalDevice
          [exampleDevice VK_PHYSICAL_DEVICE_TYPE_INTEGRATED_GPU [⟨1, 1⟩] (fun _ => true)
            ["VK_KHR_swapchain"]] =
        Except.error "failed to find a suitable GPU!" := by
  refine ⟨(pickPhysicalDevice_error_iff []).2.1 rfl, ?_, ?_⟩
  · apply (pickPhysicalDevice_error_iff _).2.2.1 (by simp)
    rintro ⟨d, hd, _, hsuit⟩
    rw [List.mem_singleton] at hd
    subst hd
    revert hsuit
    decide
  · apply (pickPhysicalDevice_error_iff _).2.2.1 (by simp)
    rintro ⟨d, hd, htype, _⟩
    rw [List.mem_singleton] at hd
    subst hd
    revert htype
    decide

/-! ## The frame loop -/

/-- The calls of one `drawFrame`: wait, reset, acquire and submit on the slot
of the frame counter, and the present when the submit succeeded. -/
theorem drawFrame_calls (framesInFlight : Nat) (outcomes : DrawFrameOutcomes)
    (app : HelloTriangleApplication) :
    (drawFrame framesInFlight outcomes app).calls =
      DeviceCall.vkWaitForFences app._currentFrame outcomes.vkWaitForFences ::
        DeviceCall.vkResetFences app._currentFrame outcomes.vkResetFences ::
        DeviceCall.vkAcquireNextImageKHR app._currentFrame outcomes.vkAcquireNextImageKHR ::
        submitCall app._currentFrame outcomes ::
        presentTail app._currentFrame outcomes := by
  unfold drawFrame presentTail submitCall
  by_cases h : outcomes.vkQueueSubmit ≠ VK_SUCCESS
  · simp only [if_pos h]
  · simp only [if_neg h, List.cons_append, List.nil_append]

/-- A failing submit makes `drawFrame` throw. -/
theorem drawFrame_result_error (framesInFlight : Nat) (outcomes : DrawFrameOutcomes)
    (app : HelloTriangleApplication) (h : outcomes.vkQueueSubmit ≠ VK_SUCCESS) :
    (drawFrame framesInFlight outcomes app).result =
      Except.error "failed to submit draw command buffer!" := by
  unfold drawFrame
  simp only [if_pos h]

/-- With a successful submit `drawFrame` returns and has only advanced the
frame counter. -/
theorem drawFrame_result_ok (framesInFlight : Nat) (outcomes : DrawFrameOutcomes)
    (app : HelloTriangleApplication) (h : outcomes.vkQueueSubmit = VK_SUCCESS) :
    (drawFrame framesInFlight outcomes app).result =
      Except.ok { app with _currentFrame := (app._currentFrame + 1) % framesInFlight } := by
  unfold drawFrame
  simp only [if_neg (not_not.mpr h)]

/-- A returning `drawFrame` had a successful submit and leaves every member
but the frame counter as it was. -/
theorem drawFrame_ok_inv (framesInFlight : Nat) (outcomes : DrawFrameOutcomes)
    (app app1 : HelloTriangleApplication)
    (h : (drawFrame framesInFlight outcomes app).result = Except.ok app1) :
    outcomes.vkQueueSubmit = VK_SUCCESS ∧
      app1 = { app with _currentFrame := (app._currentFrame + 1) % framesInFlight } := by
  by_cases hs : outcomes.vkQueueSubmit = VK_SUCCESS
  · rw [drawFrame_result_ok framesInFlight outcomes app hs] at h
    cases h
    exact ⟨hs, rfl⟩
  · rw [drawFrame_result_error framesInFlight outcomes app hs] at h
    cases h

/-- The frame with number `k` of the loop runs on the slot that the counter
reaches after `k` frames. -/
theorem mainLoopFrames_slot (framesInFlight : Nat) (frames : List DrawFrameOutcomes)
    (app : HelloTriangleApplication) (k : Nat) (calls : List DeviceCall)
    (hc : app._currentFrame < framesInFlight)
    (hk : (mainLoopFrames framesInFlight frames app).1[k]? = some calls) :
    ∃ outcomes appk, frames[k]? = some outcomes ∧
      appk._currentFrame = (app._currentFrame + k) % framesInFlight ∧
      calls = (drawFrame framesInFlight outcomes appk).calls := by
  induction frames generalizing app k with
  | nil => simp [mainLoopFrames] at hk
  | cons o rest ih =>
    have hpos : 0 < framesInFlight := Nat.lt_of_le_of_lt (Nat.zero_le _) hc
    cases hr : (drawFrame framesInFlight o app).result with
    | error what =>
      simp only [mainLoopFrames, hr] at hk
      cases k with
      | zero =>
        simp only [List.getElem?_cons_zero, Option.some.injEq] at hk
        exact ⟨o, app, List.getElem?_cons_zero, by rw [Nat.add_zero, Nat.mod_eq_of_lt hc],
          hk.symm⟩
      | succ k => simp at hk
    | ok app1 =>
      simp only [mainLoopFrames, hr] at hk
      cases k with
      | zero =>
        simp only [List.getElem?_cons_zero, Option.some.injEq] at hk
        exact ⟨o, app, List.getElem?_cons_zero, by rw [Nat.add_zero, Nat.mod_eq_of_lt hc],
          hk.symm⟩
      | succ k =>
        simp only [List.getElem?_cons_succ] at hk
        have h1 := (drawFrame_ok_inv framesInFlight o app app1 hr).2
        have hc1 : app1._currentFrame < framesInFlight := by
          rw [h1]
          exact Nat.mod_lt _ hpos
        obtain ⟨ok, appk, hfk, hck, hcalls⟩ := ih app1 k hc1 hk
        refine ⟨ok, appk, by simpa using hfk, ?_, hcalls⟩
        rw [hck, h1]
        simp only [Nat.mod_add_mod]
        congr 1
        omega

/-- When the loop returns, the counter has advanced once per frame and no
other member has changed. -/
theorem mainLoopFrames_ok (framesInFlight : Nat) (frames : List DrawFrameOutcomes)
    (app app1 : HelloTriangleApplication) (hc : app._currentFrame < framesInFlight)
    (h : (mainLoopFrames framesInFlight frames app).2 = Except.ok app1) :
    app1 = { app with
      _currentFrame := (app._currentFrame + frames.length) % framesInFlight } := by
  induction frames generalizing app with
  | nil =>
    simp only [mainLoopFrames, Except.ok.injEq] at h
    subst h
    simp only [List.length_nil, Nat.add_zero, Nat.mod_eq_of_lt hc]
  | cons o rest ih =>
    have hpos : 0 < framesInFlight := Nat.lt_of_le_of_lt (Nat.zero_le _) hc
    cases hr : (drawFrame framesInFlight o app).result with
    | error what =>
      simp only [mainLoopFrames, hr] at h
      cases h
    | ok app2 =>
      simp only [mainLoopFrames, hr] at h
      have h2 := (drawFrame_ok_inv framesInFlight o app app2 hr).2
      have hc2 : app2._currentFrame < framesInFlight := by
        rw [h2]
        exact Nat.mod_lt _ hpos
      rw [ih app2 hc2 h, h2]
      simp only [List.length_cons, Nat.mod_add_mod]
      have : app._currentFrame + 1 + rest.length = app._currentFrame + (rest.length + 1) := by
        omega
      rw [this]

/-- When every frame has a successful submit the loop returns after all of them. -/
theorem mainLoopFrames_total (framesInFlight : Nat) (frames : List DrawFrameOutcomes)
    (app : HelloTriangleApplication)
    (h : ∀ outcomes ∈ frames, outcomes.vkQueueSubmit = VK_SUCCESS) :
    (∃ app1, (mainLoopFrames framesInFlight frames app).2 = Except.ok app1) ∧
      (mainLoopFrames framesInFlight frames app).1.length = frames.length := by
  induction frames generalizing app with
  | nil => exact ⟨⟨app, rfl⟩, rfl⟩
  | cons o rest ih =>
    have hs := h o (List.mem_cons_self _ _)
    have hr := drawFrame_result_ok framesInFlight o app hs
    obtain ⟨⟨app1, h1⟩, hlen⟩ :=
      ih { app with _currentFrame := (app._currentFrame + 1) % framesInFlight }
        (fun o1 ho1 => h o1 (List.mem_cons_of_mem _ ho1))
    constructor
    · exact ⟨app1, by simp only [mainLoopFrames, hr]; exact h1⟩
    · simp only [mainLoopFrames, hr, List.length_cons, hlen]

/-- C16: every successful `drawFrame` replaces `_currentFrame` by
`(_currentFrame + 1) mod N` with `N = MAX_FRAMES_IN_FLIGHT = 2`, and a frame
with a successful submit is successful; starting from 0 the counter is
`k mod 2`, hence in `[0, 2)`, after any number `k` of frames; the frame with
number `k` (from 0) issues its calls on slot `k mod 2`; and after 2 frames the
counter is back at the value in `[0, 2)` it started from. -/
theorem drawFrame_currentFrame :
    MAX_FRAMES_IN_FLIGHT = 2 ∧
      (∀ outcomes app app1,
        (drawFrame MAX_FRAMES_IN_FLIGHT outcomes app).result = Except.ok app1 →
        app1._currentFrame = (app._currentFrame + 1) % 2) ∧
      (∀ (outcomes : DrawFrameOutcomes) app, outcomes.vkQueueSubmit = VK_SUCCESS →
        ∃ app1, (drawFrame MAX_FRAMES_IN_FLIGHT outcomes app).result = Except.ok app1) ∧
      (∀ frames app app1, app._currentFrame = 0 →
        (mainLoopFrames MAX_FRAMES_IN_FLIGHT frames app).2 = Except.ok app1 →
        app1._currentFrame = frames.length % 2 ∧ app1._currentFrame < 2) ∧
      (∀ frames app (k : Nat) calls, app._currentFrame = 0 →
        (mainLoopFrames MAX_FRAMES_IN_FLIGHT frames app).1[k]? = some calls →
        ∃ outcomes, frames[k]? = some outcomes ∧
          calls =
            DeviceCall.vkWaitForFences (k % 2) outcomes.vkWaitForFences ::
              DeviceCall.vkResetFences (k % 2) outcomes.vkResetFences ::
              DeviceCall.vkAcquireNextImageKHR (k % 2) outcomes.vkAcquireNextImageKHR ::
              submitCall (k % 2) outcomes ::
              presentTail (k % 2) outcomes) ∧
      (∀ first second app app1, app._currentFrame < 2 →
        (mainLoopFrames MAX_FRAMES_IN_FLIGHT [first, second] app).2 = Except.ok app1 →
        app1._currentFrame = app._currentFrame) := by
  refine ⟨rfl, ?_, ?_, ?_, ?_, ?_⟩
  · intro outcomes app app1 h
    rw [(drawFrame_ok_inv _ outcomes app app1 h).2]
    rfl
  · intro outcomes app h
    exact ⟨_, drawFrame_result_ok _ outcomes app h⟩
  · intro frames app app1 h0 h
    have hc : app._currentFrame < MAX_FRAMES_IN_FLIGHT := by
      rw [h0]
      exact Nat.zero_lt_two
    rw [mainLoopFrames_ok _ frames app app1 hc h]
    simp only [h0, Nat.zero_add, MAX_FRAMES_IN_FLIGHT]
    exact ⟨trivial, Nat.mod_lt _ Nat.zero_lt_two⟩
  · intro frames app k calls h0 hk
    have hc : app._currentFrame < MAX_FRAMES_IN_FLIGHT := by
      rw [h0]
      exact Nat.zero_lt_two
    obtain ⟨outcomes, appk, hfk, hck, hcalls⟩ :=
      mainLoopFrames_slot _ frames app k calls hc hk
    refine ⟨outcomes, hfk, ?_⟩
    rw [hcalls, drawFrame_calls, hck, h0, Nat.zero_add]
    rfl
  · intro first second app app1 hc h
    rw [mainLoopFrames_ok MAX_FRAMES_IN_FLIGHT [first, second] app app1 hc h]
    simp only [List.length_cons, List.length_nil, MAX_FRAMES_IN_FLIGHT]
    omega

/-- Witness for C16: three successful frames from counter 0 end with counter
1, and the third of them (number 2) waits on fence 0 and submits command
buffer 2 on slot 0. -/
theorem drawFrame_currentFrame_witness :
    (∃ app1,
      (mainLoopFrames MAX_FRAMES_IN_FLIGHT [frameSuccess 0, frameSuccess 1, frameSuccess 2]
        exampleApp).2 = Except.ok app1 ∧ app1._currentFrame = 1) ∧
      (mainLoopFrames MAX_FRAMES_IN_FLIGHT [frameSuccess 0, frameSuccess 1, frameSuccess 2]
        exampleApp).1[2]? =
        some [DeviceCall.vkWaitForFences 0 VK_SUCCESS, DeviceCall.vkResetFences 0 VK_SUCCESS,
          DeviceCall.vkAcquireNextImageKHR 0 VK_SUCCESS,
          DeviceCall.vkQueueSubmit 0 VK_PIPELINE_STAGE_COLOR_ATTACHMENT_OUTPUT_BIT 2 0 0
            VK_SUCCESS,
          DeviceCall.vkQueuePresentKHR 0 2 VK_SUCCESS] := by
  constructor
  · obtain ⟨app1, h1⟩ := (mainLoopFrames_total MAX_FRAMES_IN_FLIGHT
      [frameSuccess 0, frameSuccess 1, frameSuccess 2] exampleApp (by decide)).1
    exact ⟨app1, h1, (drawFrame_currentFrame.2.2.2.1 _ exampleApp app1 rfl h1).1⟩
  · cases hk : (mainLoopFrames MAX_FRAMES_IN_FLIGHT
        [frameSuccess 0, frameSuccess 1, frameSuccess 2] exampleApp).1[2]? with
    | none => exact absurd hk (by decide)
    | some calls =>
      obtain ⟨outcomes, hfk, hcalls⟩ :=
        drawFrame_currentFrame.2.2.2.2.1 _ exampleApp 2 calls rfl hk
      simp only [List.getElem?_cons_succ, List.getElem?_cons_zero, Option.some.injEq] at hfk
      subst hfk
      rw [hcalls]
      rfl

/-- Counterexample to C18 as stated: a present that reports
`VK_ERROR_OUT_OF_DATE_KHR`, and a fence wait that reports
`VK_ERROR_DEVICE_LOST`, raise no error; in both frames `drawFrame` issues all
five calls, returns, and has advanced the frame counter. -/
theorem drawFrame_failure_not_fatal :
    (⟨VK_SUCCESS, VK_SUCCESS, VK_SUCCESS, 0, VK_SUCCESS, VK_ERROR_OUT_OF_DATE_KHR⟩ :
        DrawFrameOutcomes).vkQueuePresentKHR ≠ VK_SUCCESS ∧
      (∃ app1,
        (drawFrame MAX_FRAMES_IN_FLIGHT
          ⟨VK_SUCCESS, VK_SUCCESS, VK_SUCCESS, 0, VK_SUCCESS, VK_ERROR_OUT_OF_DATE_KHR⟩
          exampleApp).result = Except.ok app1 ∧ app1._currentFrame = 1) ∧
      (⟨VK_ERROR_DEVICE_LOST, VK_SUCCESS, VK_SUCCESS, 0, VK_SUCCESS, VK_SUCCESS⟩ :
        DrawFrameOutcomes).vkWaitForFences ≠ VK_SUCCESS ∧
      (∃ app1,
        (drawFrame MAX_FRAMES_IN_FLIGHT
          ⟨VK_ERROR_DEVICE_LOST, VK_SUCCESS, VK_SUCCESS, 0, VK_SUCCESS, VK_SUCCESS⟩
          exampleApp).result = Except.ok app1 ∧ app1._currentFrame = 1) ∧
      (drawFrame MAX_FRAMES_IN_FLIGHT
        ⟨VK_ERROR_DEVICE_LOST, VK_SUCCESS, VK_SUCCESS, 0, VK_SUCCESS, VK_SUCCESS⟩
        exampleApp).calls =
        [DeviceCall.vkWaitForFences 0 VK_ERROR_DEVICE_LOST,
          DeviceCall.vkResetFences 0 VK_SUCCESS,
          DeviceCall.vkAcquireNextImageKHR 0 VK_SUCCESS,
          DeviceCall.vkQueueSubmit 0 VK_PIPELINE_STAGE_COLOR_ATTACHMENT_OUTPUT_BIT 0 0 0
            VK_SUCCESS,
          DeviceCall.vkQueuePresentKHR 0 0 VK_SUCCESS] :=
  ⟨by decide, ⟨_, rfl, rfl⟩, by decide, ⟨_, rfl, rfl⟩, rfl⟩

/-- C18 (amended): `drawFrame` raises a fatal error if and only if the queue
submit reports failure; then the error is "failed to submit draw command
buffer!", the present is not issued and the frame does not return a new
state.  The results of the fence wait, the fence reset, the image acquire and
the present are not inspected: when the submit succeeds the frame issues all
five calls and returns with the counter advanced. -/
theorem drawFrame_fatal_iff (framesInFlight : Nat) (outcomes : DrawFrameOutcomes)
    (app : HelloTriangleApplication) :
    ((∃ what, (drawFrame framesInFlight outcomes app).result = Except.error what) ↔
        outcomes.vkQueueSubmit ≠ VK_SUCCESS) ∧
      (outcomes.vkQueueSubmit ≠ VK_SUCCESS →
        (drawFrame framesInFlight outcomes app).result =
            Except.error "failed to submit draw command buffer!" ∧
          (drawFrame framesInFlight outcomes app).calls =
            [DeviceCall.vkWaitForFences app._currentFrame outcomes.vkWaitForFences,
              DeviceCall.vkResetFences app._currentFrame outcomes.vkResetFences,
              DeviceCall.vkAcquireNextImageKHR app._currentFrame
                outcomes.vkAcquireNextImageKHR,
              DeviceCall.vkQueueSubmit app._currentFrame
                VK_PIPELINE_STAGE_COLOR_ATTACHMENT_OUTPUT_BIT outcomes.imageIndex
                app._currentFrame app._currentFrame outcomes.vkQueueSubmit]) ∧
      (outcomes.vkQueueSubmit = VK_SUCCESS →
        (drawFrame framesInFlight outcomes app).result =
            Except.ok
              { app with _currentFrame := (app._currentFrame + 1) % framesInFlight } ∧
          (drawFrame framesInFlight outcomes app).calls =
            [DeviceCall.vkWaitForFences app._currentFrame outcomes.vkWaitForFences,
              DeviceCall.vkResetFences app._currentFrame outcomes.vkResetFences,
              DeviceCall.vkAcquireNextImageKHR app._currentFrame
                outcomes.vkAcquireNextImageKHR,
              DeviceCall.vkQueueSubmit app._currentFrame
                VK_PIPELINE_STAGE_COLOR_ATTACHMENT_OUTPUT_BIT outcomes.imageIndex
                app._currentFrame app._currentFrame outcomes.vkQueueSubmit,
              DeviceCall.vkQueuePresentKHR app._currentFrame outcomes.imageIndex
                outcomes.vkQueuePresentKHR]) := by
  refine ⟨?_, ?_, ?_⟩
  · constructor
    · rintro ⟨what, hw⟩ hs
      rw [drawFrame_result_ok framesInFlight outcomes app hs] at hw
      cases hw
    · intro hs
      exact ⟨_, drawFrame_result_error framesInFlight outcomes app hs⟩
  · intro hs
    refine ⟨drawFrame_result_error framesInFlight outcomes app hs, ?_⟩
    rw [drawFrame_calls]
    simp only [presentTail, submitCall, if_pos hs]
  · intro hs
    refine ⟨drawFrame_result_ok framesInFlight outcomes app hs, ?_⟩
    rw [drawFrame_calls]
    simp only [presentTail, submitCall, if_neg (not_not.mpr hs)]

/-- Witness for C18 (amended): a submit that reports `VK_ERROR_DEVICE_LOST`
makes the frame throw after four calls. -/
theorem drawFrame_fatal_iff_witness :
    (drawFrame MAX_FRAMES_IN_FLIGHT
        ⟨VK_SUCCESS, VK_SUCCESS, VK_SUCCESS, 1, VK_ERROR_DEVICE_LOST, VK_SUCCESS⟩
        exampleApp).result = Except.error "failed to submit draw command buffer!" ∧
      (drawFrame MAX_FRAMES_IN_FLIGHT
        ⟨VK_SUCCESS, VK_SUCCESS, VK_SUCCESS, 1, VK_ERROR_DEVICE_LOST, VK_SUCCESS⟩
        exampleApp).calls =
        [DeviceCall.vkWaitForFences 0 VK_SUCCESS, DeviceCall.vkResetFences 0 VK_SUCCESS,
          DeviceCall.vkAcquireNextImageKHR 0 VK_SUCCESS,
          DeviceCall.vkQueueSubmit 0 VK_PIPELINE_STAGE_COLOR_ATTACHMENT_OUTPUT_BIT 1 0 0
            VK_ERROR_DEVICE_LOST] :=
  (drawFrame_fatal_iff MAX_FRAMES_IN_FLIGHT
    ⟨VK_SUCCESS, VK_SUCCESS, VK_SUCCESS, 1, VK_ERROR_DEVICE_LOST, VK_SUCCESS⟩
    exampleApp).2.1 (by decide)

/-! ## Frame pacing -/

/-- A duplicate-free list of numbers below `n` has at most `n` elements. -/
theorem nodup_length_le (l : List Nat) (n : Nat) (hn : l.Nodup) (hb : ∀ f ∈ l, f < n) :
    l.length ≤ n := by
  rw [← List.toFinset_card_of_nodup hn, ← Finset.card_range n]
  apply Finset.card_le_card
  intro f hf
  rw [List.mem_toFinset] at hf
  exact Finset.mem_range.mpr (hb f hf)

/-- What remains after erasing position `k` of a duplicate-free list are
elements of the list other than the erased one. -/
theorem mem_eraseIdx_of_nodup (l : List Nat) (k f x : Nat) (hn : l.Nodup)
    (hk : l[k]? = some f) (hx : x ∈ l.eraseIdx k) : x ∈ l ∧ x ≠ f := by
  refine ⟨List.mem_of_mem_eraseIdx hx, ?_⟩
  obtain ⟨i, hik, hi⟩ := List.mem_eraseIdx_iff_getElem?.mp hx
  intro hxf
  subst hxf
  obtain ⟨hlt, _⟩ := List.getElem?_eq_some.mp hi
  exact hik (List.getElem?_inj hlt hn (hi.trans hk.symm))

/-- The invariant bounds the number of outstanding submissions. -/
theorem PacingInv.outstanding_le (framesInFlight : Nat) (s : PacingState)
    (h : PacingInv framesInFlight s) : s.outstanding.length ≤ framesInFlight := by
  obtain ⟨h1, _, h3, h4, _⟩ := h
  apply nodup_length_le _ _ h3
  intro f hf
  obtain ⟨hlt, _⟩ := List.getElem?_eq_some.mp (h4 f hf)
  rwa [h1] at hlt

/-- The invariant holds before the first frame. -/
theorem pacingInv_init (framesInFlight : Nat) (app : HelloTriangleApplication)
    (hc : app._currentFrame < framesInFlight) :
    PacingInv framesInFlight (pacingInit framesInFlight app) := by
  refine ⟨List.length_replicate _ _, hc, List.nodup_nil, ?_, Or.inl rfl⟩
  intro f hf
  cases hf

/-- Entering a frame whose fence reset succeeds keeps the invariant. -/
theorem pacingInv_enter (framesInFlight : Nat) (s : PacingState)
    (outcomes : DrawFrameOutcomes) (hinv : PacingInv framesInFlight s)
    (hr : outcomes.vkResetFences = VK_SUCCESS) :
    PacingInv framesInFlight (pacingStep framesInFlight s (PacingEvent.enter outcomes)) := by
  by_cases hc : s.stopped = true ∨ s.todo ≠ []
  · simp only [pacingStep, if_pos hc]
    exact hinv
  · simp only [pacingStep, if_neg hc]
    obtain ⟨h1, h2, h3, h4, _⟩ := hinv
    exact ⟨h1, h2, h3, h4,
      Or.inr ⟨outcomes, hr, rfl, Or.inl (drawFrame_calls framesInFlight outcomes s.app)⟩⟩

/-- A completion by the GPU keeps the invariant. -/
theorem pacingInv_complete (framesInFlight : Nat) (s : PacingState) (k : Nat)
    (hinv : PacingInv framesInFlight s) :
    PacingInv framesInFlight (pacingStep framesInFlight s (PacingEvent.complete k)) := by
  cases hk : s.outstanding[k]? with
  | none =>
    simp only [pacingStep, hk]
    exact hinv
  | some f =>
    simp only [pacingStep, hk]
    obtain ⟨h1, h2, h3, h4, h5⟩ := hinv
    have hfmem : f ∈ s.outstanding := List.getElem?_mem hk
    have hsub : ∀ x ∈ s.outstanding.eraseIdx k, x ∈ s.outstanding ∧ x ≠ f :=
      fun x hx => mem_eraseIdx_of_nodup _ k f x h3 hk hx
    have hkeep : ∀ x, x ∉ s.outstanding → s.fences[x]? = some false →
        (s.fences.set f true)[x]? = some false := by
      intro x hx hfx
      have hne : f ≠ x := fun h => hx (h ▸ hfmem)
      rw [List.getElem?_set_ne hne]
      exact hfx
    refine ⟨by rw [List.length_set]; exact h1, h2,
      h3.sublist (List.eraseIdx_sublist _ _), ?_, ?_⟩
    · intro x hx
      obtain ⟨hxm, hxf⟩ := hsub x hx
      show (s.fences.set f true)[x]? = some false
      rw [List.getElem?_set_ne (Ne.symm hxf)]
      exact h4 x hxm
    · rcases h5 with h5 | ⟨o, hr, hres, hst⟩
      · exact Or.inl h5
      · refine Or.inr ⟨o, hr, hres, ?_⟩
        rcases hst with h | ⟨h, hn⟩ | ⟨h, hn, hf⟩ | ⟨h, hn, hf⟩ | ⟨h, hs⟩
        · exact Or.inl h
        · exact Or.inr (Or.inl ⟨h, fun hm => hn (hsub _ hm).1⟩)
        · exact Or.inr (Or.inr (Or.inl
            ⟨h, fun hm => hn (hsub _ hm).1, hkeep _ hn hf⟩))
        · exact Or.inr (Or.inr (Or.inr (Or.inl
            ⟨h, fun hm => hn (hsub _ hm).1, hkeep _ hn hf⟩)))
        · exact Or.inr (Or.inr (Or.inr (Or.inr ⟨h, hs⟩)))

/-- A call that is blocked leaves the state as it is. -/
theorem pacingStep_call_blocked (framesInFlight : Nat) (s : PacingState)
    (deviceCall : DeviceCall) (rest : List DeviceCall) (htodo : s.todo = deviceCall :: rest)
    (h : applyDeviceCall s.fences s.outstanding deviceCall = none) :
    pacingStep framesInFlight s PacingEvent.call = s := by
  simp only [pacingStep, htodo, h]

/-- A call that is not the last of its frame is taken off `todo`. -/
theorem pacingStep_call_more (framesInFlight : Nat) (s : PacingState)
    (deviceCall : DeviceCall) (rest : List DeviceCall) (fences : List Bool)
    (outstanding : List Nat) (htodo : s.todo = deviceCall :: rest) (hrest : rest ≠ [])
    (h : applyDeviceCall s.fences s.outstanding deviceCall = some (fences, outstanding)) :
    pacingStep framesInFlight s PacingEvent.call =
      { s with todo := rest, fences := fences, outstanding := outstanding } := by
  simp only [pacingStep, htodo, h, if_neg hrest]

/-- After the last call of a frame that returns, the host holds the new state. -/
theorem pacingStep_call_last_ok (framesInFlight : Nat) (s : PacingState)
    (deviceCall : DeviceCall) (fences : List Bool) (outstanding : List Nat)
    (app : HelloTriangleApplication) (htodo : s.todo = [deviceCall])
    (hres : s.result = Except.ok app)
    (h : applyDeviceCall s.fences s.outstanding deviceCall = some (fences, outstanding)) :
    pacingStep framesInFlight s PacingEvent.call =
      { s with app := app, todo := [], fences := fences, outstanding := outstanding } := by
  simp only [pacingStep, htodo, h, hres, if_true]

/-- After the last call of a frame that throws, the host has stopped. -/
theorem pacingStep_call_last_error (framesInFlight : Nat) (s : PacingState)
    (deviceCall : DeviceCall) (fences : List Bool) (outstanding : List Nat)
    (what : String) (htodo : s.todo = [deviceCall])
    (hres : s.result = Except.error what)
    (h : applyDeviceCall s.fences s.outstanding deviceCall = some (fences, outstanding)) :
    pacingStep framesInFlight s PacingEvent.call =
      { s with stopped := true, todo := [], fences := fences, outstanding := outstanding } := by
  simp only [pacingStep, htodo, h, hres, if_true]

/-- A call issued by the host keeps the invariant. -/
theorem pacingInv_call (framesInFlight : Nat) (s : PacingState)
    (hinv : PacingInv framesInFlight s) :
    PacingInv framesInFlight (pacingStep framesInFlight s PacingEvent.call) := by
  obtain ⟨h1, h2, h3, h4, h5⟩ := hinv
  have hpos : 0 < framesInFlight := Nat.lt_of_le_of_lt (Nat.zero_le _) h2
  rcases h5 with h5 | ⟨o, hr, hres, hst⟩
  · have hsame : pacingStep framesInFlight s PacingEvent.call = s := by
      simp only [pacingStep, h5]
    rw [hsame]
    exact ⟨h1, h2, h3, h4, Or.inl h5⟩
  · rcases hst with h | ⟨h, hn⟩ | ⟨h, hn, hf⟩ | ⟨h, hn, hf⟩ | ⟨h, hs⟩
    · -- the wait
      by_cases hsig : s.fences[s.app._currentFrame]? = some true
      · rw [pacingStep_call_more framesInFlight s _ _ s.fences s.outstanding h
          (List.cons_ne_nil _ _) (by simp only [applyDeviceCall, if_pos hsig])]
        refine ⟨h1, h2, h3, h4, Or.inr ⟨o, hr, hres, Or.inr (Or.inl ⟨rfl, ?_⟩)⟩⟩
        intro hm
        have := h4 _ hm
        rw [hsig] at this
        cases this
      · rw [pacingStep_call_blocked framesInFlight s _ _ h
          (by simp only [applyDeviceCall, if_neg hsig])]
        exact ⟨h1, h2, h3, h4, Or.inr ⟨o, hr, hres, Or.inl h⟩⟩
    · -- the reset
      rw [pacingStep_call_more framesInFlight s _ _
        (s.fences.set s.app._currentFrame false) s.outstanding h
        (List.cons_ne_nil _ _) (by simp only [applyDeviceCall, if_pos hr])]
      have hlt : s.app._currentFrame < s.fences.length := by rw [h1]; exact h2
      refine ⟨by rw [List.length_set]; exact h1, h2, h3, ?_,
        Or.inr ⟨o, hr, hres, Or.inr (Or.inr (Or.inl ⟨rfl, hn, ?_⟩))⟩⟩
      · intro x hx
        have hne : s.app._currentFrame ≠ x := fun hc => hn (hc ▸ hx)
        show (s.fences.set s.app._currentFrame false)[x]? = some false
        rw [List.getElem?_set_ne hne]
        exact h4 x hx
      · show (s.fences.set s.app._currentFrame false)[s.app._currentFrame]? = some false
        exact List.getElem?_set_self hlt
    · -- the acquire
      rw [pacingStep_call_more framesInFlight s _ _ s.fences s.outstanding h
        (List.cons_ne_nil _ _) (by simp only [applyDeviceCall])]
      exact ⟨h1, h2, h3, h4, Or.inr ⟨o, hr, hres, Or.inr (Or.inr (Or.inr (Or.inl
        ⟨rfl, hn, hf⟩)))⟩⟩
    · -- the submit
      by_cases hsub : o.vkQueueSubmit = VK_SUCCESS
      · have htail : presentTail s.app._currentFrame o =
            [DeviceCall.vkQueuePresentKHR s.app._currentFrame o.imageIndex
              o.vkQueuePresentKHR] := by
          simp only [presentTail, if_neg (not_not.mpr hsub)]
        rw [pacingStep_call_more framesInFlight s _ _ s.fences
          (s.outstanding ++ [s.app._currentFrame]) h
          (by rw [htail]; exact List.cons_ne_nil _ _)
          (by simp only [submitCall, applyDeviceCall, if_pos hsub])]
        refine ⟨h1, h2, ?_, ?_, Or.inr ⟨o, hr, hres,
          Or.inr (Or.inr (Or.inr (Or.inr ⟨rfl, hsub⟩)))⟩⟩
        · show (s.outstanding ++ [s.app._currentFrame]).Nodup
          rw [List.nodup_append]
          refine ⟨h3, List.nodup_singleton _, ?_⟩
          intro x hx hx1
          rw [List.mem_singleton] at hx1
          exact hn (hx1 ▸ hx)
        · intro x hx
          have hx' : x ∈ s.outstanding ++ [s.app._currentFrame] := hx
          rcases List.mem_append.mp hx' with hx0 | hx0
          · exact h4 x hx0
          · rw [List.mem_singleton] at hx0
            rw [hx0]
            exact hf
      · have htail : presentTail s.app._currentFrame o = [] := by
          simp only [presentTail, if_pos hsub]
        rw [htail] at h
        rw [pacingStep_call_last_error framesInFlight s _ s.fences s.outstanding _ h
          (hres.trans (drawFrame_result_error framesInFlight o s.app hsub))
          (by simp only [submitCall, applyDeviceCall, if_neg hsub])]
        exact ⟨h1, h2, h3, h4, Or.inl rfl⟩
    · -- the present
      have htail : presentTail s.app._currentFrame o =
          [DeviceCall.vkQueuePresentKHR s.app._currentFrame o.imageIndex
            o.vkQueuePresentKHR] := by
        simp only [presentTail, if_neg (not_not.mpr hs)]
      rw [htail] at h
      rw [pacingStep_call_last_ok framesInFlight s _ s.fences s.outstanding _ h
        (hres.trans (drawFrame_result_ok framesInFlight o s.app hs))
        (by simp only [applyDeviceCall])]
      exact ⟨h1, Nat.mod_lt _ hpos, h3, h4, Or.inl rfl⟩

/-- The invariant holds after every sequence of events in which the fence
reset of every entered frame succeeds. -/
theorem pacingInv_run (framesInFlight : Nat) (events : List PacingEvent) (s : PacingState)
    (hinv : PacingInv framesInFlight s)
    (hreset : ∀ outcomes, PacingEvent.enter outcomes ∈ events →
      outcomes.vkResetFences = VK_SUCCESS) :
    PacingInv framesInFlight (pacingRun framesInFlight s events) := by
  induction events generalizing s with
  | nil => exact hinv
  | cons e rest ih =>
    have hrest : ∀ outcomes, PacingEvent.enter outcomes ∈ rest →
        outcomes.vkResetFences = VK_SUCCESS :=
      fun o ho => hreset o (List.mem_cons_of_mem _ ho)
    have hstep : PacingInv framesInFlight (pacingStep framesInFlight s e) := by
      cases e with
      | enter o =>
        exact pacingInv_enter framesInFlight s o hinv (hreset o (List.mem_cons_self _ _))
      | call => exact pacingInv_call framesInFlight s hinv
      | complete k => exact pacingInv_complete framesInFlight s k hinv
    exact ih (pacingStep framesInFlight s e) hstep hrest

/-- C17 (as stated, refuted): with two slots, all fences signaled at the
start and no completion at all, a first frame whose `vkResetFences` fails
(the source does not look at its result) leaves the fence of slot 0 signaled;
the second frame runs on slot 1, and the wait of the third frame then passes
on slot 0 although the first submission is still outstanding: after its
submit three submissions are outstanding, more than the two slots, and no
fence is signaled. -/
theorem pacing_failed_reset_exceeds :
    (pacingInit 2 (exampleInitialised [11, 12, 13])).fences = [true, true] ∧
      (pacingRun 2 (pacingInit 2 (exampleInitialised [11, 12, 13]))
        [PacingEvent.enter
            ⟨VK_SUCCESS, VK_ERROR_OUT_OF_DEVICE_MEMORY, VK_SUCCESS, 0, VK_SUCCESS, VK_SUCCESS⟩,
          PacingEvent.call, PacingEvent.call, PacingEvent.call, PacingEvent.call,
          PacingEvent.call,
          PacingEvent.enter (frameSuccess 1), PacingEvent.call, PacingEvent.call,
          PacingEvent.call, PacingEvent.call, PacingEvent.call,
          PacingEvent.enter (frameSuccess 2), PacingEvent.call, PacingEvent.call,
          PacingEvent.call, PacingEvent.call]).fences = [false, false] ∧
      (pacingRun 2 (pacingInit 2 (exampleInitialised [11, 12, 13]))
        [PacingEvent.enter
            ⟨VK_SUCCESS, VK_ERROR_OUT_OF_DEVICE_MEMORY, VK_SUCCESS, 0, VK_SUCCESS, VK_SUCCESS⟩,
          PacingEvent.call, PacingEvent.call, PacingEvent.call, PacingEvent.call,
          PacingEvent.call,
          PacingEvent.enter (frameSuccess 1), PacingEvent.call, PacingEvent.call,
          PacingEvent.call, PacingEvent.call, PacingEvent.call,
          PacingEvent.enter (frameSuccess 2), PacingEvent.call, PacingEvent.call,
          PacingEvent.call, PacingEvent.call]).outstanding = [0, 1, 0] ∧
      2 <
        (pacingRun 2 (pacingInit 2 (exampleInitialised [11, 12, 13]))
          [PacingEvent.enter
              ⟨VK_SUCCESS, VK_ERROR_OUT_OF_DEVICE_MEMORY, VK_SUCCESS, 0, VK_SUCCESS, VK_SUCCESS⟩,
            PacingEvent.call, PacingEvent.call, PacingEvent.call, PacingEvent.call,
            PacingEvent.call,
            PacingEvent.enter (frameSuccess 1), PacingEvent.call, PacingEvent.call,
            PacingEvent.call, PacingEvent.call, PacingEvent.call,
            PacingEvent.enter (frameSuccess 2), PacingEvent.call, PacingEvent.call,
            PacingEvent.call, PacingEvent.call]).outstanding.length := by
  refine ⟨by decide, by decide, by decide, by decide⟩

/-- C17 (amended): for every `N >= 1` and every interleaving of the calls of
`drawFrame` with GPU completions (a completion signals the fence of one
outstanding submission), where all `N` fences start signaled, a wait passes
only when the fence of its slot is signaled and every `vkResetFences` of the
interleaving succeeds, the number of outstanding submissions is at most `N`
after every prefix of the interleaving. -/
theorem pacing_outstanding_le (framesInFlight : Nat) (hN : 1 ≤ framesInFlight)
    (app : HelloTriangleApplication) (hc : app._currentFrame = 0)
    (events : List PacingEvent)
    (hreset : ∀ outcomes, PacingEvent.enter outcomes ∈ events →
      outcomes.vkResetFences = VK_SUCCESS)
    (k : Nat) :
    (pacingRun framesInFlight (pacingInit framesInFlight app)
      (events.take k)).outstanding.length ≤ framesInFlight := by
  apply PacingInv.outstanding_le
  apply pacingInv_run
  · apply pacingInv_init
    rw [hc]
    exact hN
  · intro o ho
    exact hreset o (List.mem_of_mem_take ho)

/-- Witness for C17: with two slots, two frames run to the end without any
completion leave two submissions outstanding; the wait of the third frame is
then blocked, so further host calls change nothing, and after a completion the
third frame submits while one submission of the first two is still
outstanding. -/
theorem pacing_outstanding_le_witness :
    (pacingRun 2 (pacingInit 2 exampleApp)
        ([PacingEvent.enter (frameSuccess 0), PacingEvent.call, PacingEvent.call,
          PacingEvent.call, PacingEvent.call, PacingEvent.call,
          PacingEvent.enter (frameSuccess 1), PacingEvent.call, PacingEvent.call,
          PacingEvent.call, PacingEvent.call, PacingEvent.call,
          PacingEvent.enter (frameSuccess 2), PacingEvent.call, PacingEvent.call,
          PacingEvent.complete 0, PacingEvent.call, PacingEvent.call, PacingEvent.call,
          PacingEvent.call].take 20)).outstanding.length ≤ 2 ∧
      (pacingRun 2 (pacingInit 2 exampleApp)
        [PacingEvent.enter (frameSuccess 0), PacingEvent.call, PacingEvent.call,
          PacingEvent.call, PacingEvent.call, PacingEvent.call,
          PacingEvent.enter (frameSuccess 1), PacingEvent.call, PacingEvent.call,
          PacingEvent.call, PacingEvent.call, PacingEvent.call,
          PacingEvent.enter (frameSuccess 2), PacingEvent.call,
          PacingEvent.call]).outstanding = [0, 1] ∧
      (pacingRun 2 (pacingInit 2 exampleApp)
        [PacingEvent.enter (frameSuccess 0), PacingEvent.call, PacingEvent.call,
          PacingEvent.call, PacingEvent.call, PacingEvent.call,
          PacingEvent.enter (frameSuccess 1), PacingEvent.call, PacingEvent.call,
          PacingEvent.call, PacingEvent.call, PacingEvent.call,
          PacingEvent.enter (frameSuccess 2), PacingEvent.call, PacingEvent.call,
          PacingEvent.complete 0, PacingEvent.call, PacingEvent.call, PacingEvent.call,
          PacingEvent.call]).outstanding = [1, 0] :=
  ⟨pacing_outstanding_le 2 (by decide) exampleApp rfl _
      (by
        intro o ho
        simp only [List.mem_cons, PacingEvent.enter.injEq, List.mem_singleton,
          reduceCtorEq, or_false, false_or, List.not_mem_nil] at ho
        rcases ho with h | h | h <;> rw [h] <;> rfl)
      20,
    by decide, by decide⟩

/-! ## Teardown order -/

/-- The framebuffer loop destroys element `i`, `i + 1`, ... one after the other. -/
theorem cleanupFramebufferLoop_eq (l : List VkFramebuffer) (i : Nat) :
    cleanupFramebufferLoop i l =
      (List.range' i l.length).map
        (fun j => CleanupCall.vkDestroyFramebuffer (Member._swapChainBuffers j)) := by
  induction l generalizing i with
  | nil => rfl
  | cons f rest ih =>
    simp only [cleanupFramebufferLoop, List.length_cons, List.range'_succ, List.map_cons, ih]

/-- The image-view loop destroys element `i`, `i + 1`, ... one after the other. -/
theorem cleanupImageViewLoop_eq (l : List VkImageView) (i : Nat) :
    cleanupImageViewLoop i l =
      (List.range' i l.length).map
        (fun j => CleanupCall.vkDestroyImageView (Member._swapChainImageViews j)) := by
  induction l generalizing i with
  | nil => rfl
  | cons f rest ih =>
    simp only [cleanupImageViewLoop, List.length_cons, List.range'_succ, List.map_cons, ih]

/-- The calls of `cleanup` in closed form. -/
theorem cleanup_eq (enableValidationLayers : Bool) (app : HelloTriangleApplication) :
    cleanup enableValidationLayers app =
      [CleanupCall.vkDestroySemaphore (Member._renderFinishedSemaphores 0),
        CleanupCall.vkDestroySemaphore (Member._imageAvailableSemaphores 0),
        CleanupCall.vkDestroyFence (Member._inFlightFences 0),
        CleanupCall.vkDestroySemaphore (Member._renderFinishedSemaphores 1),
        CleanupCall.vkDestroySemaphore (Member._imageAvailableSemaphores 1),
        CleanupCall.vkDestroyFence (Member._inFlightFences 1)] ++
      [CleanupCall.vkDestroyCommandPool Member._commandPool] ++
      (List.range app._swapChainBuffers.length).map
        (fun i => CleanupCall.vkDestroyFramebuffer (Member._swapChainBuffers i)) ++
      [CleanupCall.vkDestroyPipeline Member._graphicsPipeline,
        CleanupCall.vkDestroyPipelineLayout Member._pipelineLayout,
        CleanupCall.vkDestroyRenderPass Member._renderPass] ++
      [CleanupCall.vkDestroyShaderModule Member._vertexShaderModule,
        CleanupCall.vkDestroyShaderModule Member._fragmentShaderModule] ++
      [CleanupCall.vkDestroyBuffer Member._vertexBuffer,
        CleanupCall.vkFreeMemory Member._vertexBufferMemory] ++
      (List.range app._swapChainImageViews.length).map
        (fun i => CleanupCall.vkDestroyImageView (Member._swapChainImageViews i)) ++
      [CleanupCall.vkDestroySwapchainKHR Member._swapChain] ++
      [CleanupCall.vkDestroyDevice Member._device] ++
      (if enableValidationLayers = true then
        [CleanupCall.DestroyDebugUtilsMessengerEXT Member._callback]
      else []) ++
      [CleanupCall.vkDestroySurfaceKHR Member._surface] ++
      [CleanupCall.vkDestroyInstance Member._instance] ++
      [CleanupCall.glfwDestroyWindow Member._window, CleanupCall.glfwTerminate] := by
  unfold cleanup
  rw [cleanupFramebufferLoop_eq, cleanupImageViewLoop_eq, ← List.range_eq_range',
    ← List.range_eq_range']
  simp only [MAX_FRAMES_IN_FLIGHT, cleanupSyncLoop, List.append_assoc, List.cons_append,
    List.nil_append]

/-- Appending calls of later stages to calls that are in stage order keeps
the stage order. -/
theorem stage_sorted_append (l1 l2 : List CleanupCall) (m hi : Nat) (hm : m ≤ hi)
    (h1 : List.Pairwise (fun a b => teardownStage a ≤ teardownStage b) l1 ∧
      ∀ c ∈ l1, teardownStage c ≤ m)
    (h2 : List.Pairwise (fun a b => teardownStage a ≤ teardownStage b) l2 ∧
      ∀ c ∈ l2, m ≤ teardownStage c ∧ teardownStage c ≤ hi) :
    List.Pairwise (fun a b => teardownStage a ≤ teardownStage b) (l1 ++ l2) ∧
      ∀ c ∈ l1 ++ l2, teardownStage c ≤ hi := by
  constructor
  · rw [List.pairwise_append]
    exact ⟨h1.1, h2.1, fun a ha b hb => Nat.le_trans (h1.2 a ha) (h2.2 b hb).1⟩
  · intro c hc
    rcases List.mem_append.mp hc with h | h
    · exact Nat.le_trans (h1.2 c h) hm
    · exact (h2.2 c h).2

/-- The framebuffer loop issues calls of stage 3 only. -/
theorem cleanupFramebufferLoop_stage (l : List VkFramebuffer) (i : Nat) :
    List.Pairwise (fun a b => teardownStage a ≤ teardownStage b)
        (cleanupFramebufferLoop i l) ∧
      ∀ c ∈ cleanupFramebufferLoop i l, 3 ≤ teardownStage c ∧ teardownStage c ≤ 3 := by
  induction l generalizing i with
  | nil => exact ⟨List.Pairwise.nil, fun c hc => by cases hc⟩
  | cons f rest ih =>
    obtain ⟨hp, hall⟩ := ih (i + 1)
    constructor
    · simp only [cleanupFramebufferLoop, List.pairwise_cons]
      exact ⟨fun b hb => (hall b hb).1, hp⟩
    · intro c hc
      simp only [cleanupFramebufferLoop, List.mem_cons] at hc
      rcases hc with h | h
      · subst h
        exact ⟨Nat.le_refl _, Nat.le_refl _⟩
      · exact hall c h

/-- The image-view loop issues calls of stage 7 only. -/
theorem cleanupImageViewLoop_stage (l : List VkImageView) (i : Nat) :
    List.Pairwise (fun a b => teardownStage a ≤ teardownStage b)
        (cleanupImageViewLoop i l) ∧
      ∀ c ∈ cleanupImageViewLoop i l, 7 ≤ teardownStage c ∧ teardownStage c ≤ 7 := by
  induction l generalizing i with
  | nil => exact ⟨List.Pairwise.nil, fun c hc => by cases hc⟩
  | cons f rest ih =>
    obtain ⟨hp, hall⟩ := ih (i + 1)
    constructor
    · simp only [cleanupImageViewLoop, List.pairwise_cons]
      exact ⟨fun b hb => (hall b hb).1, hp⟩
    · intro c hc
      simp only [cleanupImageViewLoop, List.mem_cons] at hc
      rcases hc with h | h
      · subst h
        exact ⟨Nat.le_refl _, Nat.le_refl _⟩
      · exact hall c h

/-- The calls of `cleanup` are in stage order. -/
theorem cleanup_stage_sorted (enableValidationLayers : Bool)
    (app : HelloTriangleApplication) :
    List.Pairwise (fun a b => teardownStage a ≤ teardownStage b)
      (cleanup enableValidationLayers app) := by
  unfold cleanup
  have hsync : List.Pairwise (fun a b => teardownStage a ≤ teardownStage b)
        (cleanupSyncLoop 0 MAX_FRAMES_IN_FLIGHT) ∧
      ∀ c ∈ cleanupSyncLoop 0 MAX_FRAMES_IN_FLIGHT, teardownStage c ≤ 1 := by
    simp only [MAX_FRAMES_IN_FLIGHT, cleanupSyncLoop]
    decide
  have h2 := stage_sorted_append _ [CleanupCall.vkDestroyCommandPool Member._commandPool]
    1 2 (by decide) hsync (by decide)
  have h3 := stage_sorted_append _ (cleanupFramebufferLoop 0 app._swapChainBuffers)
    2 3 (by decide) h2
    ⟨(cleanupFramebufferLoop_stage _ 0).1, fun c hc =>
      ⟨Nat.le_trans (by decide) ((cleanupFramebufferLoop_stage _ 0).2 c hc).1,
        ((cleanupFramebufferLoop_stage _ 0).2 c hc).2⟩⟩
  have h6 := stage_sorted_append _
    [CleanupCall.vkDestroyPipeline Member._graphicsPipeline,
      CleanupCall.vkDestroyPipelineLayout Member._pipelineLayout,
      CleanupCall.vkDestroyRenderPass Member._renderPass,
      CleanupCall.vkDestroyShaderModule Member._vertexShaderModule,
      CleanupCall.vkDestroyShaderModule Member._fragmentShaderModule,
      CleanupCall.vkDestroyBuffer Member._vertexBuffer,
      CleanupCall.vkFreeMemory Member._vertexBufferMemory]
    3 6 (by decide) h3 (by decide)
  have h7 := stage_sorted_append _ (cleanupImageViewLoop 0 app._swapChainImageViews)
    6 7 (by decide) h6
    ⟨(cleanupImageViewLoop_stage _ 0).1, fun c hc =>
      ⟨Nat.le_trans (by decide) ((cleanupImageViewLoop_stage _ 0).2 c hc).1,
        ((cleanupImageViewLoop_stage _ 0).2 c hc).2⟩⟩
  have h9 := stage_sorted_append _
    [CleanupCall.vkDestroySwapchainKHR Member._swapChain,
      CleanupCall.vkDestroyDevice Member._device]
    7 9 (by decide) h7 (by decide)
  have h10 := stage_sorted_append _
    (if enableValidationLayers = true then
      [CleanupCall.DestroyDebugUtilsMessengerEXT Member._callback]
    else [])
    9 10 (by decide) h9 (by cases enableValidationLayers <;> decide)
  exact (stage_sorted_append _
    [CleanupCall.vkDestroySurfaceKHR Member._surface,
      CleanupCall.vkDestroyInstance Member._instance,
      CleanupCall.glfwDestroyWindow Member._window,
      CleanupCall.glfwTerminate]
    10 13 (by decide) h10 (by decide)).1

/-- C19: the calls issued by `cleanup` are, in this order: both semaphores and
the fence of slot 0 and of slot 1, the command pool, every framebuffer, the
pipeline, the pipeline layout and the render pass, both shader modules, the
vertex buffer and its memory, every image view, the swapchain, the device, the
diagnostics hook exactly when validation is enabled, the surface and the
instance, followed by the two calls that close the window system; so the
calls that destroy a Vulkan object are exactly the sequence up to the
instance, and the teardown stages of the specification never go backwards. -/
theorem cleanup_order (enableValidationLayers : Bool) (app : HelloTriangleApplication) :
    cleanup enableValidationLayers app =
        [CleanupCall.vkDestroySemaphore (Member._renderFinishedSemaphores 0),
          CleanupCall.vkDestroySemaphore (Member._imageAvailableSemaphores 0),
          CleanupCall.vkDestroyFence (Member._inFlightFences 0),
          CleanupCall.vkDestroySemaphore (Member._renderFinishedSemaphores 1),
          CleanupCall.vkDestroySemaphore (Member._imageAvailableSemaphores 1),
          CleanupCall.vkDestroyFence (Member._inFlightFences 1)] ++
        [CleanupCall.vkDestroyCommandPool Member._commandPool] ++
        (List.range app._swapChainBuffers.length).map
          (fun i => CleanupCall.vkDestroyFramebuffer (Member._swapChainBuffers i)) ++
        [CleanupCall.vkDestroyPipeline Member._graphicsPipeline,
          CleanupCall.vkDestroyPipelineLayout Member._pipelineLayout,
          CleanupCall.vkDestroyRenderPass Member._renderPass] ++
        [CleanupCall.vkDestroyShaderModule Member._vertexShaderModule,
          CleanupCall.vkDestroyShaderModule Member._fragmentShaderModule] ++
        [CleanupCall.vkDestroyBuffer Member._vertexBuffer,
          CleanupCall.vkFreeMemory Member._vertexBufferMemory] ++
        (List.range app._swapChainImageViews.length).map
          (fun i => CleanupCall.vkDestroyImageView (Member._swapChainImageViews i)) ++
        [CleanupCall.vkDestroySwapchainKHR Member._swapChain] ++
        [CleanupCall.vkDestroyDevice Member._device] ++
        (if enableValidationLayers = true then
          [CleanupCall.DestroyDebugUtilsMessengerEXT Member._callback]
        else []) ++
        [CleanupCall.vkDestroySurfaceKHR Member._surface] ++
        [CleanupCall.vkDestroyInstance Member._instance] ++
        [CleanupCall.glfwDestroyWindow Member._window, CleanupCall.glfwTerminate] ∧
      (cleanup enableValidationLayers app).filter destroysVulkanObject =
        [CleanupCall.vkDestroySemaphore (Member._renderFinishedSemaphores 0),
          CleanupCall.vkDestroySemaphore (Member._imageAvailableSemaphores 0),
          CleanupCall.vkDestroyFence (Member._inFlightFences 0),
          CleanupCall.vkDestroySemaphore (Member._renderFinishedSemaphores 1),
          CleanupCall.vkDestroySemaphore (Member._imageAvailableSemaphores 1),
          CleanupCall.vkDestroyFence (Member._inFlightFences 1)] ++
        [CleanupCall.vkDestroyCommandPool Member._commandPool] ++
        (List.range app._swapChainBuffers.length).map
          (fun i => CleanupCall.vkDestroyFramebuffer (Member._swapChainBuffers i)) ++
        [CleanupCall.vkDestroyPipeline Member._graphicsPipeline,
          CleanupCall.vkDestroyPipelineLayout Member._pipelineLayout,
          CleanupCall.vkDestroyRenderPass Member._renderPass] ++
        [CleanupCall.vkDestroyShaderModule Member._vertexShaderModule,
          CleanupCall.vkDestroyShaderModule Member._fragmentShaderModule] ++
        [CleanupCall.vkDestroyBuffer Member._vertexBuffer,
          CleanupCall.vkFreeMemory Member._vertexBufferMemory] ++
        (List.range app._swapChainImageViews.length).map
          (fun i => CleanupCall.vkDestroyImageView (Member._swapChainImageViews i)) ++
        [CleanupCall.vkDestroySwapchainKHR Member._swapChain] ++
        [CleanupCall.vkDestroyDevice Member._device] ++
        (if enableValidationLayers = true then
          [CleanupCall.DestroyDebugUtilsMessengerEXT Member._callback]
        else []) ++
        [CleanupCall.vkDestroySurfaceKHR Member._surface] ++
        [CleanupCall.vkDestroyInstance Member._instance] ∧
      List.Pairwise (fun a b => teardownStage a ≤ teardownStage b)
        (cleanup enableValidationLayers app) ∧
      (CleanupCall.DestroyDebugUtilsMessengerEXT Member._callback ∈
          cleanup enableValidationLayers app ↔
        enableValidationLayers = true) := by
  refine ⟨cleanup_eq enableValidationLayers app, ?_,
    cleanup_stage_sorted enableValidationLayers app, ?_⟩
  · rw [cleanup_eq]
    have hfb : ∀ n : Nat,
        ((List.range n).map
          (fun i => CleanupCall.vkDestroyFramebuffer (Member._swapChainBuffers i))).filter
            destroysVulkanObject =
          (List.range n).map
            (fun i => CleanupCall.vkDestroyFramebuffer (Member._swapChainBuffers i)) := by
      intro n
      rw [List.filter_eq_self]
      intro c hc
      obtain ⟨i, _, hi⟩ := List.mem_map.mp hc
      rw [← hi]
      rfl
    have hiv : ∀ n : Nat,
        ((List.range n).map
          (fun i => CleanupCall.vkDestroyImageView (Member._swapChainImageViews i))).filter
            destroysVulkanObject =
          (List.range n).map
            (fun i => CleanupCall.vkDestroyImageView (Member._swapChainImageViews i)) := by
      intro n
      rw [List.filter_eq_self]
      intro c hc
      obtain ⟨i, _, hi⟩ := List.mem_map.mp hc
      rw [← hi]
      rfl
    cases enableValidationLayers <;>
      simp only [List.filter_append, hfb, hiv, List.filter_cons, List.filter_nil,
        destroysVulkanObject, if_true, if_false, Bool.false_eq_true, List.append_nil]
  · rw [cleanup_eq]
    cases enableValidationLayers <;> simp

/-! ## Initialisation and the per-image lists -/

/-- A sequence of two steps returns exactly when both return. -/
theorem Outcome.bind_eq_ok {α β : Type} (first : Outcome α) (next : α → Outcome β) (b : β) :
    first.bind next = Outcome.ok b ↔ ∃ a, first = Outcome.ok a ∧ next a = Outcome.ok b := by
  cases first with
  | ok a =>
    constructor
    · intro h
      exact ⟨a, rfl, h⟩
    · rintro ⟨a1, h1, h2⟩
      cases h1
      exact h2
  | thrown what =>
    constructor
    · intro h
      cases h
    · rintro ⟨a1, h1, _⟩
      cases h1
  | undefined =>
    constructor
    · intro h
      cases h
    · rintro ⟨a1, h1, _⟩
      cases h1

/-- The image-view loop, when it returns, has created one view per image, in
order, each from its image. -/
theorem createImageViewLoop_ok (results : Nat → VkResult) (format : VkFormat)
    (images : List VkImage) (i : Nat) (views : List VkImageView)
    (h : createImageViewLoop results format i images = Outcome.ok views) :
    views = images.map (imageViewOf format) := by
  induction images generalizing i views with
  | nil =>
    simp only [createImageViewLoop, Outcome.ok.injEq] at h
    rw [← h]
    rfl
  | cons image rest ih =>
    by_cases hr : results i ≠ VK_SUCCESS
    · simp only [createImageViewLoop, if_pos hr] at h
      cases h
    · simp only [createImageViewLoop, if_neg hr] at h
      obtain ⟨tail, htail, hcons⟩ := (Outcome.bind_eq_ok _ _ _).mp h
      cases hcons
      rw [ih (i + 1) tail htail]
      rfl

/-- The framebuffer loop, when it returns, has created one framebuffer per
image view, in order, each with its view as the only attachment. -/
theorem createFrameBuffersLoop_ok (results : Nat → VkResult) (extent : VkExtent2D)
    (views : List VkImageView) (i : Nat) (framebuffers : List VkFramebuffer)
    (h : createFrameBuffersLoop results extent i views = Outcome.ok framebuffers) :
    framebuffers = views.map (framebufferOf extent) := by
  induction views generalizing i framebuffers with
  | nil =>
    simp only [createFrameBuffersLoop, Outcome.ok.injEq] at h
    rw [← h]
    rfl
  | cons view rest ih =>
    by_cases hr : results i ≠ VK_SUCCESS
    · simp only [createFrameBuffersLoop, if_pos hr] at h
      cases h
    · simp only [createFrameBuffersLoop, if_neg hr] at h
      obtain ⟨tail, htail, hcons⟩ := (Outcome.bind_eq_ok _ _ _).mp h
      cases hcons
      rw [ih (i + 1) tail htail]
      rfl

/-- The recording loop, when it returns, has recorded one command buffer per
framebuffer, in order, each begun once and targeting its framebuffer. -/
theorem createCommandBuffersLoop_ok (beginResults endResults : Nat → VkResult)
    (extent : VkExtent2D) (framebuffers : List VkFramebuffer) (i : Nat)
    (commandBuffers : List VkCommandBuffer)
    (h : createCommandBuffersLoop beginResults endResults extent i framebuffers =
      Outcome.ok commandBuffers) :
    commandBuffers = framebuffers.map (commandBufferOf extent) := by
  induction framebuffers generalizing i commandBuffers with
  | nil =>
    simp only [createCommandBuffersLoop, Outcome.ok.injEq] at h
    rw [← h]
    rfl
  | cons framebuffer rest ih =>
    by_cases hb : beginResults i ≠ VK_SUCCESS
    · simp only [createCommandBuffersLoop, if_pos hb] at h
      cases h
    · by_cases he : endResults i ≠ VK_SUCCESS
      · simp only [createCommandBuffersLoop, if_neg hb, if_pos he] at h
        cases h
      · simp only [createCommandBuffersLoop, if_neg hb, if_neg he] at h
        obtain ⟨tail, htail, hcons⟩ := (Outcome.bind_eq_ok _ _ _).mp h
        cases hcons
        rw [ih (i + 1) tail htail]
        rfl

/-- How `createInstance` ends: the layer check, then the result of
`vkCreateInstance`. -/
theorem createInstance_result (enableValidationLayers : Bool) (env : InitOutcomes)
    (app : HelloTriangleApplication) :
    (createInstance enableValidationLayers env app).result =
      if enableValidationLayers = true ∧
          checkValidationLayerSupport env.availableLayers = false then
        Outcome.thrown "validation layers requested, but not available"
      else if env.vkCreateInstance ≠ VK_SUCCESS then
        Outcome.thrown "Failed to create Vulkan instance!"
      else
        Outcome.ok app := by
  unfold createInstance
  simp only
  split_ifs <;> rfl

/-- A returning `createInstance` leaves the state as it is. -/
theorem createInstance_ok (enableValidationLayers : Bool) (env : InitOutcomes)
    (app app1 : HelloTriangleApplication)
    (h : (createInstance enableValidationLayers env app).result = Outcome.ok app1) :
    app1 = app := by
  rw [createInstance_result] at h
  split_ifs at h
  cases h
  rfl

/-- A returning `setupDebugCallback` leaves the state as it is. -/
theorem setupDebugCallback_ok (enableValidationLayers : Bool) (env : InitOutcomes)
    (app app1 : HelloTriangleApplication)
    (h : setupDebugCallback enableValidationLayers env app = Outcome.ok app1) : app1 = app := by
  unfold setupDebugCallback at h
  split_ifs at h <;> cases h <;> rfl

/-- A returning `createSurface` leaves the state as it is. -/
theorem createSurface_ok (env : InitOutcomes) (app app1 : HelloTriangleApplication)
    (h : createSurface env app = Outcome.ok app1) : app1 = app := by
  unfold createSurface at h
  split_ifs at h
  cases h
  rfl

/-- A returning `pickPhysicalDevice` writes `_physicalDevice` only. -/
theorem pickPhysicalDeviceStep_ok (env : InitOutcomes) (app app1 : HelloTriangleApplication)
    (h : pickPhysicalDeviceStep env app = Outcome.ok app1) :
    ∃ physicalDevice, app1 = { app with _physicalDevice := physicalDevice } := by
  unfold pickPhysicalDeviceStep at h
  obtain ⟨d, _, hd⟩ := (Outcome.bind_eq_ok _ _ _).mp h
  cases hd
  exact ⟨d, rfl⟩

/-- How `createLogicalDevice` ends: by the result of `vkCreateDevice`. -/
theorem createLogicalDevice_result (env : InitOutcomes) (app : HelloTriangleApplication) :
    (createLogicalDevice env app).result =
      if env.vkCreateDevice ≠ VK_SUCCESS then
        Outcome.thrown "failed to create logical device!"
      else
        Outcome.ok app := by
  unfold createLogicalDevice
  simp only
  split_ifs <;> rfl

/-- A returning `createLogicalDevice` leaves the state as it is. -/
theorem createLogicalDevice_ok (env : InitOutcomes) (app app1 : HelloTriangleApplication)
    (h : (createLogicalDevice env app).result = Outcome.ok app1) : app1 = app := by
  rw [createLogicalDevice_result] at h
  split_ifs at h
  cases h
  rfl

/-- A returning `createSwapChain` holds the images handed out by the device
and has written the format and the extent besides. -/
theorem createSwapChain_ok (env : InitOutcomes) (app app1 : HelloTriangleApplication)
    (h : createSwapChain env app = Outcome.ok app1) :
    ∃ format extent,
      app1 = { app with
        _swapChainImages := env.swapChainImages
        _swapChainImageFormat := format
        _swapChainExtent := extent } := by
  unfold createSwapChain at h
  cases hinfo : createSwapChainInfo WIDTH HEIGHT app._physicalDevice.swapChainSupport
      (findQueueFamilies app._physicalDevice) with
  | none =>
    simp only [hinfo] at h
    cases h
  | some createInfo =>
    simp only [hinfo] at h
    split_ifs at h
    cases h
    exact ⟨_, _, rfl⟩

/-- A returning `createImageView` has written one view per image. -/
theorem createImageView_ok (env : InitOutcomes) (app app1 : HelloTriangleApplication)
    (h : createImageView env app = Outcome.ok app1) :
    app1 = { app with
      _swapChainImageViews :=
        app._swapChainImages.map (imageViewOf app._swapChainImageFormat) } := by
  unfold createImageView at h
  obtain ⟨views, hviews, hv⟩ := (Outcome.bind_eq_ok _ _ _).mp h
  cases hv
  rw [createImageViewLoop_ok _ _ _ _ _ hviews]

/-- How `createRenderPass` ends: by the result of `vkCreateRenderPass`. -/
theorem createRenderPass_result (env : InitOutcomes) (app : HelloTriangleApplication) :
    (createRenderPass env app).result =
      if env.vkCreateRenderPass ≠ VK_SUCCESS then
        Outcome.thrown "failed to create render pass!"
      else
        Outcome.ok app := by
  unfold createRenderPass
  simp only
  split_ifs <;> rfl

/-- A returning `createRenderPass` leaves the state as it is. -/
theorem createRenderPass_ok (env : InitOutcomes) (app app1 : HelloTriangleApplication)
    (h : (createRenderPass env app).result = Outcome.ok app1) : app1 = app := by
  rw [createRenderPass_result] at h
  split_ifs at h
  cases h
  rfl

/-- How `createGraphicsPipeline` ends: both shader modules in turn, then the
results of `vkCreatePipelineLayout` and of `vkCreateGraphicsPipelines`. -/
theorem createGraphicsPipeline_result (env : InitOutcomes) (app : HelloTriangleApplication) :
    (createGraphicsPipeline env app).result =
      (createShaderModule env.vertexShader
          "/Users/enowak/Downloads/vulkanTesting/vulkanTesting/shaders/vert.spv").bind
        (fun _ =>
          (createShaderModule env.fragmentShader
              "/Users/enowak/Downloads/vulkanTesting/vulkanTesting/shaders/frag.spv").bind
            (fun _ =>
              if env.vkCreatePipelineLayout ≠ VK_SUCCESS then
                Outcome.thrown "failed to create pipeline layout!"
              else if env.vkCreateGraphicsPipelines ≠ VK_SUCCESS then
                Outcome.thrown "failed to create graphics pipeline!"
              else
                Outcome.ok app)) := by
  unfold createGraphicsPipeline
  cases createShaderModule env.vertexShader
      "/Users/enowak/Downloads/vulkanTesting/vulkanTesting/shaders/vert.spv" with
  | thrown what => rfl
  | undefined => rfl
  | ok u =>
    cases createShaderModule env.fragmentShader
        "/Users/enowak/Downloads/vulkanTesting/vulkanTesting/shaders/frag.spv" with
    | thrown what => rfl
    | undefined => rfl
    | ok v =>
      simp only [Outcome.bind]
      split_ifs <;> rfl

/-- A returning `createGraphicsPipeline` leaves the state as it is. -/
theorem createGraphicsPipeline_ok (env : InitOutcomes) (app app1 : HelloTriangleApplication)
    (h : (createGraphicsPipeline env app).result = Outcome.ok app1) : app1 = app := by
  rw [createGraphicsPipeline_result] at h
  obtain ⟨_, _, h1⟩ := (Outcome.bind_eq_ok _ _ _).mp h
  obtain ⟨_, _, h2⟩ := (Outcome.bind_eq_ok _ _ _).mp h1
  split_ifs at h2
  cases h2
  rfl

/-- A returning `createFrameBuffers` has written one framebuffer per view. -/
theorem createFrameBuffers_ok (env : InitOutcomes) (app app1 : HelloTriangleApplication)
    (h : createFrameBuffers env app = Outcome.ok app1) :
    app1 = { app with
      _swapChainBuffers :=
        app._swapChainImageViews.map (framebufferOf app._swapChainExtent) } := by
  unfold createFrameBuffers at h
  obtain ⟨framebuffers, hfb, hv⟩ := (Outcome.bind_eq_ok _ _ _).mp h
  cases hv
  rw [createFrameBuffersLoop_ok _ _ _ _ _ hfb]

/-- A returning `createCommandPool` leaves the state as it is. -/
theorem createCommandPool_ok (env : InitOutcomes) (app app1 : HelloTriangleApplication)
    (h : createCommandPool env app = Outcome.ok app1) : app1 = app := by
  unfold createCommandPool at h
  split_ifs at h
  cases h
  rfl

/-- How `createVertexBuffer` ends: as the first `createBuffer` that throws,
and it returns when both return. -/
theorem createVertexBuffer_result (env : InitOutcomes) (app : HelloTriangleApplication) :
    (createVertexBuffer env app).result =
      (createBuffer env.stagingBuffer VK_BUFFER_USAGE_TRANSFER_SRC_BIT
          (VK_MEMORY_PROPERTY_HOST_VISIBLE_BIT ||| VK_MEMORY_PROPERTY_HOST_COHERENT_BIT)
          BufferVar.stagingBuffer MemoryVar.stagingBufferMemory app).result.bind
        (fun _ =>
          (createBuffer env.vertexBuffer
              (VK_BUFFER_USAGE_TRANSFER_DST_BIT ||| VK_BUFFER_USAGE_VERTEX_BUFFER_BIT)
              VK_MEMORY_PROPERTY_DEVICE_LOCAL_BIT
              BufferVar._vertexBuffer MemoryVar._vertexBufferMemory app).result.bind
            (fun _ => Outcome.ok app)) := by
  unfold createVertexBuffer
  simp only
  split
  · rename_i what h
    rw [h]
    rfl
  · rename_i h
    rw [h]
    rfl
  · rename_i u h
    rw [h]
    simp only [Outcome.bind]
    split
    · rename_i what h2
      rw [h2]
    · rename_i h2
      rw [h2]
    · rename_i v h2
      rw [h2]

/-- A returning `createVertexBuffer` leaves the state as it is. -/
theorem createVertexBuffer_ok (env : InitOutcomes) (app app1 : HelloTriangleApplication)
    (h : (createVertexBuffer env app).result = Outcome.ok app1) : app1 = app := by
  rw [createVertexBuffer_result] at h
  obtain ⟨_, _, h1⟩ := (Outcome.bind_eq_ok _ _ _).mp h
  obtain ⟨_, _, h2⟩ := (Outcome.bind_eq_ok _ _ _).mp h1
  cases h2
  rfl

/-- A returning `createCommandBuffers` has recorded one command buffer per
framebuffer. -/
theorem createCommandBuffers_ok (env : InitOutcomes) (app app1 : HelloTriangleApplication)
    (h : createCommandBuffers env app = Outcome.ok app1) :
    app1 = { app with
      _commandBuffers :=
        app._swapChainBuffers.map (commandBufferOf app._swapChainExtent) } := by
  unfold createCommandBuffers at h
  split_ifs at h
  obtain ⟨commandBuffers, hcb, hv⟩ := (Outcome.bind_eq_ok _ _ _).mp h
  cases hv
  rw [createCommandBuffersLoop_ok _ _ _ _ _ _ hcb]

/-- A returning `createSynchronizationObjects` writes the three vectors of
synchronisation objects only. -/
theorem createSynchronizationObjects_ok (env : InitOutcomes)
    (app app1 : HelloTriangleApplication)
    (h : createSynchronizationObjects env app = Outcome.ok app1) :
    ∃ imageAvailable renderFinished fences,
      app1 = { app with
        _imageAvailableSemaphores := imageAvailable
        _renderFinishedSemaphores := renderFinished
        _inFlightFences := fences } := by
  unfold createSynchronizationObjects at h
  obtain ⟨objects, _, hv⟩ := (Outcome.bind_eq_ok _ _ _).mp h
  cases hv
  exact ⟨_, _, _, rfl⟩

/-- After a returning `initVulkan` the images are those of the device, the
views are made from the images, the framebuffers from the views and the
command buffers from the framebuffers, element by element. -/
theorem initVulkan_ok (enableValidationLayers : Bool) (env : InitOutcomes)
    (app0 app : HelloTriangleApplication)
    (h : initVulkan enableValidationLayers env app0 = Outcome.ok app) :
    app._swapChainImages = env.swapChainImages ∧
      app._swapChainImageViews =
        app._swapChainImages.map (imageViewOf app._swapChainImageFormat) ∧
      app._swapChainBuffers =
        app._swapChainImageViews.map (framebufferOf app._swapChainExtent) ∧
      app._commandBuffers =
        app._swapChainBuffers.map (commandBufferOf app._swapChainExtent) ∧
      app._currentFrame = app0._currentFrame := by
  unfold initVulkan at h
  obtain ⟨a1, h1, h⟩ := (Outcome.bind_eq_ok _ _ _).mp h
  obtain ⟨a2, h2, h⟩ := (Outcome.bind_eq_ok _ _ _).mp h
  obtain ⟨a3, h3, h⟩ := (Outcome.bind_eq_ok _ _ _).mp h
  obtain ⟨a4, h4, h⟩ := (Outcome.bind_eq_ok _ _ _).mp h
  obtain ⟨a5, h5, h⟩ := (Outcome.bind_eq_ok _ _ _).mp h
  obtain ⟨a6, h6, h⟩ := (Outcome.bind_eq_ok _ _ _).mp h
  obtain ⟨a7, h7, h⟩ := (Outcome.bind_eq_ok _ _ _).mp h
  obtain ⟨a8, h8, h⟩ := (Outcome.bind_eq_ok _ _ _).mp h
  obtain ⟨a9, h9, h⟩ := (Outcome.bind_eq_ok _ _ _).mp h
  obtain ⟨a10, h10, h⟩ := (Outcome.bind_eq_ok _ _ _).mp h
  obtain ⟨a11, h11, h⟩ := (Outcome.bind_eq_ok _ _ _).mp h
  obtain ⟨a12, h12, h⟩ := (Outcome.bind_eq_ok _ _ _).mp h
  obtain ⟨a13, h13, h⟩ := (Outcome.bind_eq_ok _ _ _).mp h
  have e1 := createInstance_ok _ _ _ _ h1
  have e2 := setupDebugCallback_ok _ _ _ _ h2
  have e3 := createSurface_ok _ _ _ h3
  obtain ⟨d, e4⟩ := pickPhysicalDeviceStep_ok _ _ _ h4
  have e5 := createLogicalDevice_ok _ _ _ h5
  obtain ⟨format, extent, e6⟩ := createSwapChain_ok _ _ _ h6
  have e7 := createImageView_ok _ _ _ h7
  have e8 := createRenderPass_ok _ _ _ h8
  have e9 := createGraphicsPipeline_ok _ _ _ h9
  have e10 := createFrameBuffers_ok _ _ _ h10
  have e11 := createCommandPool_ok _ _ _ h11
  have e12 := createVertexBuffer_ok _ _ _ h12
  have e13 := createCommandBuffers_ok _ _ _ h13
  obtain ⟨ia, rf, fences, e14⟩ := createSynchronizationObjects_ok _ _ _ h
  subst e14 e13 e12 e11 e10 e9 e8 e7 e6 e5 e4 e3 e2 e1
  exact ⟨rfl, rfl, rfl, rfl, rfl⟩

/-- When every `vkCreateImageView` succeeds the loop returns. -/
theorem createImageViewLoop_success (results : Nat → VkResult) (format : VkFormat)
    (images : List VkImage) (i : Nat) (h : ∀ j, results j = VK_SUCCESS) :
    createImageViewLoop results format i images =
      Outcome.ok (images.map (imageViewOf format)) := by
  induction images generalizing i with
  | nil => rfl
  | cons image rest ih =>
    simp only [createImageViewLoop, if_neg (not_not.mpr (h i)), ih (i + 1), Outcome.bind,
      List.map_cons, imageViewOf]

/-- When every `vkCreateFramebuffer` succeeds the loop returns. -/
theorem createFrameBuffersLoop_success (results : Nat → VkResult) (extent : VkExtent2D)
    (views : List VkImageView) (i : Nat) (h : ∀ j, results j = VK_SUCCESS) :
    createFrameBuffersLoop results extent i views =
      Outcome.ok (views.map (framebufferOf extent)) := by
  induction views generalizing i with
  | nil => rfl
  | cons view rest ih =>
    simp only [createFrameBuffersLoop, if_neg (not_not.mpr (h i)), ih (i + 1), Outcome.bind,
      List.map_cons, framebufferOf]

/-- When every begin and end of a recording succeeds the loop returns. -/
theorem createCommandBuffersLoop_success (beginResults endResults : Nat → VkResult)
    (extent : VkExtent2D) (framebuffers : List VkFramebuffer) (i : Nat)
    (hb : ∀ j, beginResults j = VK_SUCCESS) (he : ∀ j, endResults j = VK_SUCCESS) :
    createCommandBuffersLoop beginResults endResults extent i framebuffers =
      Outcome.ok (framebuffers.map (commandBufferOf extent)) := by
  induction framebuffers generalizing i with
  | nil => rfl
  | cons framebuffer rest ih =>
    simp only [createCommandBuffersLoop, if_neg (not_not.mpr (hb i)),
      if_neg (not_not.mpr (he i)), ih (i + 1), Outcome.bind, List.map_cons, commandBufferOf,
      verticesSize, Nat.zero_add, List.nil_append]

/-- A sequence of two steps returns what the second returns after the first. -/
theorem Outcome.bind_ok_intro {α β : Type} {first : Outcome α} {next : α → Outcome β}
    {b : β} (a : α) (h1 : first = Outcome.ok a) (h2 : next a = Outcome.ok b) :
    first.bind next = Outcome.ok b :=
  (Outcome.bind_eq_ok first next b).mpr ⟨a, h1, h2⟩

/-- When every `vkCreateImageView` succeeds `createImageView` returns. -/
theorem createImageView_success (env : InitOutcomes) (app : HelloTriangleApplication)
    (h : ∀ j, env.vkCreateImageView j = VK_SUCCESS) :
    createImageView env app =
      Outcome.ok { app with
        _swapChainImageViews :=
          app._swapChainImages.map (imageViewOf app._swapChainImageFormat) } := by
  unfold createImageView
  rw [createImageViewLoop_success _ _ _ _ h]
  rfl

/-- When every `vkCreateFramebuffer` succeeds `createFrameBuffers` returns. -/
theorem createFrameBuffers_success (env : InitOutcomes) (app : HelloTriangleApplication)
    (h : ∀ j, env.vkCreateFramebuffer j = VK_SUCCESS) :
    createFrameBuffers env app =
      Outcome.ok { app with
        _swapChainBuffers :=
          app._swapChainImageViews.map (framebufferOf app._swapChainExtent) } := by
  unfold createFrameBuffers
  rw [createFrameBuffersLoop_success _ _ _ _ h]
  rfl

/-- When the allocation and every begin and end of a recording succeed
`createCommandBuffers` returns. -/
theorem createCommandBuffers_success (env : InitOutcomes) (app : HelloTriangleApplication)
    (ha : env.vkAllocateCommandBuffers = VK_SUCCESS)
    (hb : ∀ j, env.vkBeginCommandBuffer j = VK_SUCCESS)
    (he : ∀ j, env.vkEndCommandBuffer j = VK_SUCCESS) :
    createCommandBuffers env app =
      Outcome.ok { app with
        _commandBuffers :=
          app._swapChainBuffers.map (commandBufferOf app._swapChainExtent) } := by
  unfold createCommandBuffers
  rw [if_neg (not_not.mpr ha), createCommandBuffersLoop_success _ _ _ _ _ hb he]
  rfl

/-- How `createBuffer` ends: by the result of `vkCreateBuffer`, the search for
a memory type and the result of `vkAllocateMemory`, in this order. -/
theorem createBuffer_result (outcomes : CreateBufferOutcomes) (usage properties : Nat)
    (buffer : BufferVar) (bufferMemory : MemoryVar) (app : HelloTriangleApplication) :
    (createBuffer outcomes usage properties buffer bufferMemory app).result =
      if outcomes.vkCreateBuffer ≠ VK_SUCCESS then
        Outcome.thrown "failed to create buffer!"
      else
        (Outcome.ofExcept
            (findMemoryType app._physicalDevice.memoryProperties outcomes.memoryTypeBits
              properties)).bind
          (fun _ =>
            if outcomes.vkAllocateMemory ≠ VK_SUCCESS then
              Outcome.thrown "failed to allocate buffer memory!"
            else
              Outcome.ok ()) := by
  unfold createBuffer
  simp only
  by_cases hc : outcomes.vkCreateBuffer ≠ VK_SUCCESS
  · rw [if_pos hc, if_pos hc]
  · rw [if_neg hc, if_neg hc]
    cases findMemoryType app._physicalDevice.memoryProperties outcomes.memoryTypeBits
        properties with
    | error what => rfl
    | ok i =>
      simp only [Outcome.ofExcept, Outcome.bind]
      by_cases ha : outcomes.vkAllocateMemory ≠ VK_SUCCESS
      · rw [if_pos ha, if_pos ha]
      · rw [if_neg ha, if_neg ha]

/-- When the buffer is created, a memory type is found and the memory is
allocated, `createBuffer` returns. -/
theorem createBuffer_success (outcomes : CreateBufferOutcomes) (usage properties : Nat)
    (buffer : BufferVar) (bufferMemory : MemoryVar)
    (app : HelloTriangleApplication) (i : Nat)
    (hc : outcomes.vkCreateBuffer = VK_SUCCESS)
    (hm : findMemoryType app._physicalDevice.memoryProperties outcomes.memoryTypeBits
      properties = Except.ok i)
    (ha : outcomes.vkAllocateMemory = VK_SUCCESS) :
    (createBuffer outcomes usage properties buffer bufferMemory app).result =
      Outcome.ok () := by
  rw [createBuffer_result, if_neg (not_not.mpr hc), hm]
  simp only [Outcome.ofExcept, Outcome.bind, if_neg (not_not.mpr ha)]

/-- When both buffers are created `createVertexBuffer` returns. -/
theorem createVertexBuffer_success (env : InitOutcomes) (app : HelloTriangleApplication)
    (hs : (createBuffer env.stagingBuffer VK_BUFFER_USAGE_TRANSFER_SRC_BIT
      (VK_MEMORY_PROPERTY_HOST_VISIBLE_BIT ||| VK_MEMORY_PROPERTY_HOST_COHERENT_BIT)
      BufferVar.stagingBuffer MemoryVar.stagingBufferMemory app).result = Outcome.ok ())
    (hv : (createBuffer env.vertexBuffer
      (VK_BUFFER_USAGE_TRANSFER_DST_BIT ||| VK_BUFFER_USAGE_VERTEX_BUFFER_BIT)
      VK_MEMORY_PROPERTY_DEVICE_LOCAL_BIT
      BufferVar._vertexBuffer MemoryVar._vertexBufferMemory app).result = Outcome.ok ()) :
    (createVertexBuffer env app).result = Outcome.ok app := by
  rw [createVertexBuffer_result, hs, Outcome.bind, hv, Outcome.bind]

/-- On the devices of the examples a filter with bits 0 and 1 finds memory
type 1 for host-visible, host-coherent memory and memory type 0 for
device-local memory. -/
theorem findMemoryType_exampleDevice (deviceType : VkPhysicalDeviceType)
    (queueFamilies : List VkQueueFamilyProperties) (surfaceSupport : Nat → Bool)
    (extensionNames : List String) :
    findMemoryType
        (exampleDevice deviceType queueFamilies surfaceSupport extensionNames).memoryProperties
        3 (VK_MEMORY_PROPERTY_HOST_VISIBLE_BIT ||| VK_MEMORY_PROPERTY_HOST_COHERENT_BIT) =
        Except.ok 1 ∧
      findMemoryType
        (exampleDevice deviceType queueFamilies surfaceSupport extensionNames).memoryProperties
        3 VK_MEMORY_PROPERTY_DEVICE_LOCAL_BIT = Except.ok 0 := by
  have h1 : findMemoryTypeLoop 3
      (VK_MEMORY_PROPERTY_HOST_VISIBLE_BIT ||| VK_MEMORY_PROPERTY_HOST_COHERENT_BIT) 0
      [⟨VK_MEMORY_PROPERTY_DEVICE_LOCAL_BIT, 0⟩,
        ⟨VK_MEMORY_PROPERTY_HOST_VISIBLE_BIT ||| VK_MEMORY_PROPERTY_HOST_COHERENT_BIT, 1⟩] =
      some 1 := by decide
  have h0 : findMemoryTypeLoop 3 VK_MEMORY_PROPERTY_DEVICE_LOCAL_BIT 0
      [⟨VK_MEMORY_PROPERTY_DEVICE_LOCAL_BIT, 0⟩,
        ⟨VK_MEMORY_PROPERTY_HOST_VISIBLE_BIT ||| VK_MEMORY_PROPERTY_HOST_COHERENT_BIT, 1⟩] =
      some 0 := by decide
  constructor
  · show (match findMemoryTypeLoop 3
        (VK_MEMORY_PROPERTY_HOST_VISIBLE_BIT ||| VK_MEMORY_PROPERTY_HOST_COHERENT_BIT) 0
        [⟨VK_MEMORY_PROPERTY_DEVICE_LOCAL_BIT, 0⟩,
          ⟨VK_MEMORY_PROPERTY_HOST_VISIBLE_BIT ||| VK_MEMORY_PROPERTY_HOST_COHERENT_BIT, 1⟩] with
      | some i => Except.ok i
      | none => Except.error "failed to find suitable memory type!") = Except.ok 1
    rw [h1]
  · show (match findMemoryTypeLoop 3 VK_MEMORY_PROPERTY_DEVICE_LOCAL_BIT 0
        [⟨VK_MEMORY_PROPERTY_DEVICE_LOCAL_BIT, 0⟩,
          ⟨VK_MEMORY_PROPERTY_HOST_VISIBLE_BIT ||| VK_MEMORY_PROPERTY_HOST_COHERENT_BIT, 1⟩] with
      | some i => Except.ok i
      | none => Except.error "failed to find suitable memory type!") = Except.ok 0
    rw [h0]

/-- With the answers of `exampleInitOutcomes`, `initVulkan` returns for every
list of swapchain images. -/
theorem initVulkan_example (swapChainImages : List VkImage) :
    initVulkan false (exampleInitOutcomes swapChainImages) exampleApp =
      Outcome.ok (exampleInitialised swapChainImages) := by
  unfold initVulkan
  refine Outcome.bind_ok_intro exampleApp rfl ?_
  refine Outcome.bind_ok_intro exampleApp rfl ?_
  refine Outcome.bind_ok_intro exampleApp rfl ?_
  refine Outcome.bind_ok_intro exampleApp rfl ?_
  refine Outcome.bind_ok_intro exampleApp rfl ?_
  refine Outcome.bind_ok_intro
    (exampleStateWith swapChainImages [] [] [] [] [] []) rfl ?_
  refine Outcome.bind_ok_intro
    (exampleStateWith swapChainImages
      (swapChainImages.map (imageViewOf VK_FORMAT_B8G8R8A8_UNORM)) [] [] [] [] [])
    (createImageView_success _ _ (fun _ => rfl)) ?_
  refine Outcome.bind_ok_intro _ rfl ?_
  refine Outcome.bind_ok_intro _ rfl ?_
  refine Outcome.bind_ok_intro
    (exampleStateWith swapChainImages
      (swapChainImages.map (imageViewOf VK_FORMAT_B8G8R8A8_UNORM))
      ((swapChainImages.map (imageViewOf VK_FORMAT_B8G8R8A8_UNORM)).map
        (framebufferOf ⟨640, 480⟩)) [] [] [] [])
    (createFrameBuffers_success _ _ (fun _ => rfl)) ?_
  refine Outcome.bind_ok_intro _ rfl ?_
  refine Outcome.bind_ok_intro _
    (createVertexBuffer_success _ _
      (createBuffer_success _ _ _ _ _ _ 1 rfl (findMemoryType_exampleDevice _ _ _ _).1 rfl)
      (createBuffer_success _ _ _ _ _ _ 0 rfl (findMemoryType_exampleDevice _ _ _ _).2 rfl)) ?_
  refine Outcome.bind_ok_intro
    (exampleStateWith swapChainImages
      (swapChainImages.map (imageViewOf VK_FORMAT_B8G8R8A8_UNORM))
      ((swapChainImages.map (imageViewOf VK_FORMAT_B8G8R8A8_UNORM)).map
        (framebufferOf ⟨640, 480⟩))
      (((swapChainImages.map (imageViewOf VK_FORMAT_B8G8R8A8_UNORM)).map
        (framebufferOf ⟨640, 480⟩)).map (commandBufferOf ⟨640, 480⟩)) [] [] [])
    (createCommandBuffers_success _ _ rfl (fun _ => rfl) (fun _ => rfl)) ?_
  rfl

/-- The frames of the loop leave the per-image lists as they are. -/
theorem mainLoopFrames_lists (framesInFlight : Nat) (frames : List DrawFrameOutcomes)
    (app app1 : HelloTriangleApplication)
    (h : (mainLoopFrames framesInFlight frames app).2 = Except.ok app1) :
    app1._swapChainImages = app._swapChainImages ∧
      app1._swapChainImageViews = app._swapChainImageViews ∧
      app1._swapChainBuffers = app._swapChainBuffers ∧
      app1._commandBuffers = app._commandBuffers := by
  induction frames generalizing app with
  | nil =>
    simp only [mainLoopFrames, Except.ok.injEq] at h
    subst h
    exact ⟨rfl, rfl, rfl, rfl⟩
  | cons o rest ih =>
    cases hr : (drawFrame framesInFlight o app).result with
    | error what =>
      simp only [mainLoopFrames, hr] at h
      cases h
    | ok app2 =>
      simp only [mainLoopFrames, hr] at h
      have h2 := (drawFrame_ok_inv framesInFlight o app app2 hr).2
      obtain ⟨i1, i2, i3, i4⟩ := ih app2 h
      rw [i1, i2, i3, i4, h2]
      exact ⟨rfl, rfl, rfl, rfl⟩

/-- C20: after a successful `initVulkan`, for every list of swapchain images
handed out by the device, the lists of images, image views, framebuffers and
command buffers have the same length; view `i` is created from image `i`,
framebuffer `i` attaches view `i` alone, and command buffer `i` has been begun
exactly once and its recording targets framebuffer `i`; and neither one
`drawFrame` nor any number of frames of the loop changes any of these lists. -/
theorem initVulkan_perImage (enableValidationLayers : Bool) (env : InitOutcomes)
    (app0 app : HelloTriangleApplication)
    (h : initVulkan enableValidationLayers env app0 = Outcome.ok app) :
    app._swapChainImages = env.swapChainImages ∧
      app._swapChainImageViews.length = app._swapChainImages.length ∧
      app._swapChainBuffers.length = app._swapChainImages.length ∧
      app._commandBuffers.length = app._swapChainImages.length ∧
      (∀ (i : Nat) image, app._swapChainImages[i]? = some image →
        ∃ view framebuffer commandBuffer,
          app._swapChainImageViews[i]? = some view ∧
          view.createInfo.image = image ∧
          app._swapChainBuffers[i]? = some framebuffer ∧
          framebuffer.createInfo.attachments = [view] ∧
          app._commandBuffers[i]? = some commandBuffer ∧
          commandBuffer.beginCount = 1 ∧
          commandBuffer.commands =
            [Command.vkCmdBeginRenderPass framebuffer app._swapChainExtent,
              Command.vkCmdBindPipeline,
              Command.vkCmdBindVertexBuffers 0 1,
              Command.vkCmdDraw 3 1 0 0,
              Command.vkCmdEndRenderPass]) ∧
      (∀ framesInFlight outcomes app1,
        (drawFrame framesInFlight outcomes app).result = Except.ok app1 →
        app1._swapChainImages = app._swapChainImages ∧
          app1._swapChainImageViews = app._swapChainImageViews ∧
          app1._swapChainBuffers = app._swapChainBuffers ∧
          app1._commandBuffers = app._commandBuffers) ∧
      (∀ framesInFlight frames app1,
        (mainLoopFrames framesInFlight frames app).2 = Except.ok app1 →
        app1._swapChainImages = app._swapChainImages ∧
          app1._swapChainImageViews = app._swapChainImageViews ∧
          app1._swapChainBuffers = app._swapChainBuffers ∧
          app1._commandBuffers = app._commandBuffers) := by
  obtain ⟨himg, hviews, hfb, hcb, _⟩ := initVulkan_ok enableValidationLayers env app0 app h
  refine ⟨himg, ?_, ?_, ?_, ?_, ?_, ?_⟩
  · rw [hviews, List.length_map]
  · rw [hfb, List.length_map, hviews, List.length_map]
  · rw [hcb, List.length_map, hfb, List.length_map, hviews, List.length_map]
  · intro i image hi
    have hv : app._swapChainImageViews[i]? =
        some (imageViewOf app._swapChainImageFormat image) := by
      rw [hviews, List.getElem?_map, hi]
      rfl
    have hf : app._swapChainBuffers[i]? =
        some (framebufferOf app._swapChainExtent
          (imageViewOf app._swapChainImageFormat image)) := by
      rw [hfb, List.getElem?_map, hv]
      rfl
    have hc : app._commandBuffers[i]? =
        some (commandBufferOf app._swapChainExtent
          (framebufferOf app._swapChainExtent
            (imageViewOf app._swapChainImageFormat image))) := by
      rw [hcb, List.getElem?_map, hf]
      rfl
    exact ⟨_, _, _, hv, rfl, hf, rfl, hc, rfl, rfl⟩
  · intro framesInFlight outcomes app1 h1
    rw [(drawFrame_ok_inv framesInFlight outcomes app app1 h1).2]
    exact ⟨rfl, rfl, rfl, rfl⟩
  · intro framesInFlight frames app1 h1
    exact mainLoopFrames_lists framesInFlight frames app app1 h1

/-- Witness for C20: with three swapchain images a successful initialisation
exists, and it ends with three views, three framebuffers and three command
buffers. -/
theorem initVulkan_perImage_witness :
    ∃ app, initVulkan false (exampleInitOutcomes [11, 12, 13]) exampleApp = Outcome.ok app ∧
      app._swapChainImages = [11, 12, 13] ∧
      app._swapChainImageViews.length = 3 ∧
      app._swapChainBuffers.length = 3 ∧
      app._commandBuffers.length = 3 := by
  have happ := initVulkan_example [11, 12, 13]
  generalize exampleInitialised [11, 12, 13] = app at happ
  obtain ⟨h1, h2, h3, h4, _⟩ :=
    initVulkan_perImage false (exampleInitOutcomes [11, 12, 13]) exampleApp app happ
  have himg : app._swapChainImages = [11, 12, 13] := h1
  refine ⟨app, happ, himg, ?_, ?_, ?_⟩
  · rw [h2, himg]
    rfl
  · rw [h3, himg]
    rfl
  · rw [h4, himg]
    rfl


/-! ## The diagnostics hook -/

/-- C21 (as stated, refuted): with validation enabled and the lookup of the
messenger-creation function returning nothing, `setupDebugCallback` is not a
no-op: on the example answers it raises "failed to set up debug callback!",
and so does `initVulkan`, which does not continue. -/
theorem setupDebugCallback_unresolved_raises :
    exampleUnresolvedMessenger.vkCreateDebugUtilsMessengerEXT = none ∧
      setupDebugCallback true exampleUnresolvedMessenger exampleApp =
        Outcome.thrown "failed to set up debug callback!" ∧
      (createInstance true exampleUnresolvedMessenger exampleApp).result =
        Outcome.ok exampleApp ∧
      initVulkan true exampleUnresolvedMessenger exampleApp =
        Outcome.thrown "failed to set up debug callback!" := by
  refine ⟨rfl, rfl, rfl, rfl⟩

/-- C21 (amended): when the lookup of the messenger-creation function returns
nothing, `CreateDebugUtilsMessengerEXT` returns
`VK_ERROR_EXTENSION_NOT_PRESENT`; with validation enabled `setupDebugCallback`
then raises "failed to set up debug callback!" and `initVulkan`, once
`createInstance` has returned, ends with that error; only with validation
disabled is `setupDebugCallback` a no-op. -/
theorem setupDebugCallback_unresolved (env : InitOutcomes) (app : HelloTriangleApplication)
    (h : env.vkCreateDebugUtilsMessengerEXT = none) :
    CreateDebugUtilsMessengerEXT env.vkCreateDebugUtilsMessengerEXT =
        VK_ERROR_EXTENSION_NOT_PRESENT ∧
      setupDebugCallback true env app = Outcome.thrown "failed to set up debug callback!" ∧
      setupDebugCallback false env app = Outcome.ok app ∧
      (∀ app1, (createInstance true env app).result = Outcome.ok app1 →
        initVulkan true env app = Outcome.thrown "failed to set up debug callback!") := by
  have hthrow : ∀ a : HelloTriangleApplication,
      setupDebugCallback true env a = Outcome.thrown "failed to set up debug callback!" := by
    intro a
    unfold setupDebugCallback CreateDebugUtilsMessengerEXT
    rw [h]
    rfl
  refine ⟨?_, hthrow app, rfl, ?_⟩
  · rw [h]
    rfl
  · intro app1 h1
    unfold initVulkan
    rw [h1]
    show (setupDebugCallback true env app1).bind _ = _
    rw [hthrow app1]
    rfl

/-- Witness for C21 (amended): on the example answers with an unresolved
lookup, `setupDebugCallback` raises and `initVulkan` ends with that error
after `createInstance` has returned. -/
theorem setupDebugCallback_unresolved_witness :
    exampleUnresolvedMessenger.vkCreateDebugUtilsMessengerEXT = none ∧
      (createInstance true exampleUnresolvedMessenger exampleApp).result =
        Outcome.ok exampleApp ∧
      setupDebugCallback true exampleUnresolvedMessenger exampleApp =
        Outcome.thrown "failed to set up debug callback!" ∧
      initVulkan true exampleUnresolvedMessenger exampleApp =
        Outcome.thrown "failed to set up debug callback!" :=
  ⟨rfl, rfl,
    (setupDebugCallback_unresolved exampleUnresolvedMessenger exampleApp rfl).2.1,
    (setupDebugCallback_unresolved exampleUnresolvedMessenger exampleApp rfl).2.2.2
      exampleApp rfl⟩


/-! ## The staging buffer of the vertex upload -/

/-- C22 (as stated, refuted): when the device rejects the creation of the
destination buffer after the staging buffer exists, `createVertexBuffer`
raises "failed to create buffer!" after eight calls, none of which releases
anything: the staging buffer and its memory are still alive. -/
theorem createVertexBuffer_staging_outlives :
    (createVertexBuffer exampleDestinationRejected exampleApp).result =
        Outcome.thrown "failed to create buffer!" ∧
      (createVertexBuffer exampleDestinationRejected exampleApp).calls =
        [UploadCall.vkCreateBuffer VK_BUFFER_USAGE_TRANSFER_SRC_BIT BufferVar.stagingBuffer
            VK_SUCCESS,
          UploadCall.vkGetBufferMemoryRequirements BufferVar.stagingBuffer,
          UploadCall.vkAllocateMemory 1 MemoryVar.stagingBufferMemory VK_SUCCESS,
          UploadCall.vkBindBufferMemory BufferVar.stagingBuffer MemoryVar.stagingBufferMemory,
          UploadCall.vkMapMemory MemoryVar.stagingBufferMemory,
          UploadCall.memcpy,
          UploadCall.vkUnmapMemory MemoryVar.stagingBufferMemory,
          UploadCall.vkCreateBuffer
            (VK_BUFFER_USAGE_TRANSFER_DST_BIT ||| VK_BUFFER_USAGE_VERTEX_BUFFER_BIT)
            BufferVar._vertexBuffer VK_ERROR_OUT_OF_DEVICE_MEMORY] ∧
      bufferAlive BufferVar.stagingBuffer
        (createVertexBuffer exampleDestinationRejected exampleApp).calls = true ∧
      memoryAlive MemoryVar.stagingBufferMemory
        (createVertexBuffer exampleDestinationRejected exampleApp).calls = true := by
  refine ⟨rfl, by decide, by decide, by decide⟩


/-- The four ways in which `createBuffer` runs: `vkCreateBuffer` fails; or no
memory type is found; or `vkAllocateMemory` fails; or all succeed and the
memory is bound. -/
theorem createBuffer_cases (outcomes : CreateBufferOutcomes) (usage properties : Nat)
    (buffer : BufferVar) (bufferMemory : MemoryVar) (app : HelloTriangleApplication) :
    (outcomes.vkCreateBuffer ≠ VK_SUCCESS ∧
        createBuffer outcomes usage properties buffer bufferMemory app =
          ⟨[UploadCall.vkCreateBuffer usage buffer outcomes.vkCreateBuffer],
            Outcome.thrown "failed to create buffer!"⟩) ∨
      (outcomes.vkCreateBuffer = VK_SUCCESS ∧ ∃ what,
        createBuffer outcomes usage properties buffer bufferMemory app =
          ⟨[UploadCall.vkCreateBuffer usage buffer VK_SUCCESS,
              UploadCall.vkGetBufferMemoryRequirements buffer],
            Outcome.thrown what⟩) ∨
      (outcomes.vkCreateBuffer = VK_SUCCESS ∧ outcomes.vkAllocateMemory ≠ VK_SUCCESS ∧ ∃ i,
        createBuffer outcomes usage properties buffer bufferMemory app =
          ⟨[UploadCall.vkCreateBuffer usage buffer VK_SUCCESS,
              UploadCall.vkGetBufferMemoryRequirements buffer,
              UploadCall.vkAllocateMemory i bufferMemory outcomes.vkAllocateMemory],
            Outcome.thrown "failed to allocate buffer memory!"⟩) ∨
      (outcomes.vkCreateBuffer = VK_SUCCESS ∧ outcomes.vkAllocateMemory = VK_SUCCESS ∧ ∃ i,
        createBuffer outcomes usage properties buffer bufferMemory app =
          ⟨[UploadCall.vkCreateBuffer usage buffer VK_SUCCESS,
              UploadCall.vkGetBufferMemoryRequirements buffer,
              UploadCall.vkAllocateMemory i bufferMemory VK_SUCCESS,
              UploadCall.vkBindBufferMemory buffer bufferMemory],
            Outcome.ok ()⟩) := by
  unfold createBuffer
  simp only
  by_cases hc : outcomes.vkCreateBuffer ≠ VK_SUCCESS
  · left
    exact ⟨hc, if_pos hc⟩
  · right
    have hc1 : outcomes.vkCreateBuffer = VK_SUCCESS := not_not.mp hc
    rw [if_neg hc, hc1]
    cases findMemoryType app._physicalDevice.memoryProperties outcomes.memoryTypeBits
        properties with
    | error what =>
      left
      exact ⟨rfl, what, rfl⟩
    | ok i =>
      right
      by_cases ha : outcomes.vkAllocateMemory ≠ VK_SUCCESS
      · left
        exact ⟨rfl, ha, i, if_pos ha⟩
      · right
        have ha1 : outcomes.vkAllocateMemory = VK_SUCCESS := not_not.mp ha
        refine ⟨rfl, ha1, i, ?_⟩
        simp only [if_neg ha]
        rw [ha1]


/-- C22 (amended): `createVertexBuffer` releases the staging resources exactly
when it returns.  When it returns, its last two calls destroy the staging
buffer and free its memory, and neither is alive afterwards.  When it raises,
it has made no releasing call at all: the staging buffer is alive whenever its
creation succeeded, and the staging memory whenever the staging `createBuffer`
returned. -/
theorem createVertexBuffer_staging (env : InitOutcomes) (app : HelloTriangleApplication) :
    ((createVertexBuffer env app).result.returned = true →
        (∃ before, (createVertexBuffer env app).calls =
          before ++ [UploadCall.vkDestroyBuffer BufferVar.stagingBuffer,
            UploadCall.vkFreeMemory MemoryVar.stagingBufferMemory]) ∧
        bufferAlive BufferVar.stagingBuffer (createVertexBuffer env app).calls = false ∧
        memoryAlive MemoryVar.stagingBufferMemory (createVertexBuffer env app).calls = false) ∧
      ((createVertexBuffer env app).result.returned = false →
        (∀ call ∈ (createVertexBuffer env app).calls, call.releases = false) ∧
        bufferAlive BufferVar.stagingBuffer (createVertexBuffer env app).calls =
          decide (env.stagingBuffer.vkCreateBuffer = VK_SUCCESS) ∧
        memoryAlive MemoryVar.stagingBufferMemory (createVertexBuffer env app).calls =
          (createBuffer env.stagingBuffer VK_BUFFER_USAGE_TRANSFER_SRC_BIT
            (VK_MEMORY_PROPERTY_HOST_VISIBLE_BIT ||| VK_MEMORY_PROPERTY_HOST_COHERENT_BIT)
            BufferVar.stagingBuffer MemoryVar.stagingBufferMemory app).result.returned) := by
  unfold createVertexBuffer
  rcases createBuffer_cases env.stagingBuffer VK_BUFFER_USAGE_TRANSFER_SRC_BIT
      (VK_MEMORY_PROPERTY_HOST_VISIBLE_BIT ||| VK_MEMORY_PROPERTY_HOST_COHERENT_BIT)
      BufferVar.stagingBuffer MemoryVar.stagingBufferMemory app with
    ⟨hc, hs⟩ | ⟨hc, what, hs⟩ | ⟨hc, ha, i, hs⟩ | ⟨hc, ha, i, hs⟩
  · simp only [hs]
    simp [Outcome.returned, UploadCall.releases, bufferAlive, bufferAliveFrom, memoryAlive,
      memoryAliveFrom, hc]
  · simp only [hs]
    simp [Outcome.returned, UploadCall.releases, bufferAlive, bufferAliveFrom, memoryAlive,
      memoryAliveFrom, hc]
  · simp only [hs]
    simp [Outcome.returned, UploadCall.releases, bufferAlive, bufferAliveFrom, memoryAlive,
      memoryAliveFrom, hc, ha]
  · simp only [hs]
    rcases createBuffer_cases env.vertexBuffer
        (VK_BUFFER_USAGE_TRANSFER_DST_BIT ||| VK_BUFFER_USAGE_VERTEX_BUFFER_BIT)
        VK_MEMORY_PROPERTY_DEVICE_LOCAL_BIT
        BufferVar._vertexBuffer MemoryVar._vertexBufferMemory app with
      ⟨hc2, hd⟩ | ⟨hc2, what, hd⟩ | ⟨hc2, ha2, k, hd⟩ | ⟨hc2, ha2, k, hd⟩
    · simp only [hd]
      simp [Outcome.returned, UploadCall.releases, bufferAlive, bufferAliveFrom, memoryAlive,
        memoryAliveFrom, hc, ha, hc2]
    · simp only [hd]
      simp [Outcome.returned, UploadCall.releases, bufferAlive, bufferAliveFrom, memoryAlive,
        memoryAliveFrom, hc, ha, hc2]
    · simp only [hd]
      simp [Outcome.returned, UploadCall.releases, bufferAlive, bufferAliveFrom, memoryAlive,
        memoryAliveFrom, hc, ha, hc2, ha2]
    · simp only [hd]
      refine ⟨fun _ => ⟨⟨_, rfl⟩, ?_, ?_⟩, ?_⟩
      · simp [bufferAlive, bufferAliveFrom, copyBuffer]
      · simp [memoryAlive, memoryAliveFrom, copyBuffer]
      · simp [Outcome.returned]


/-- Witness for C22 (amended): when every call succeeds the staging buffer and
its memory are not alive after `createVertexBuffer`; when the destination
buffer is rejected the method raises without a releasing call. -/
theorem createVertexBuffer_staging_witness :
    ((createVertexBuffer (exampleInitOutcomes [11, 12, 13]) exampleApp).result.returned =
          true ∧
        bufferAlive BufferVar.stagingBuffer
          (createVertexBuffer (exampleInitOutcomes [11, 12, 13]) exampleApp).calls = false ∧
        memoryAlive MemoryVar.stagingBufferMemory
          (createVertexBuffer (exampleInitOutcomes [11, 12, 13]) exampleApp).calls = false) ∧
      ((createVertexBuffer exampleDestinationRejected exampleApp).result.returned = false ∧
        ∀ call ∈ (createVertexBuffer exampleDestinationRejected exampleApp).calls,
          call.releases = false) :=
  ⟨⟨rfl, ((createVertexBuffer_staging (exampleInitOutcomes [11, 12, 13]) exampleApp).1 rfl).2⟩,
    ⟨rfl, ((createVertexBuffer_staging exampleDestinationRejected exampleApp).2 rfl).1⟩⟩


/-! ## Rejected create and allocate calls -/

/-- The answers of the device to the calls of `copyBuffer` have no influence
on how `initVulkan` ends. -/
theorem initVulkan_copyBuffer (enableValidationLayers : Bool) (env : InitOutcomes)
    (copy : CopyBufferOutcomes) (app : HelloTriangleApplication) :
    initVulkan enableValidationLayers { env with copyBuffer := copy } app =
      initVulkan enableValidationLayers env app := by
  unfold initVulkan
  simp only [createVertexBuffer_result]
  rfl

/-- C23 (the code departs from the claim): when the device rejects the
allocation of the one-shot command buffer of `copyBuffer` and answers every
other call with success, `createVertexBuffer` goes on to begin, record, end,
submit and free that command buffer, and `initVulkan` returns as if nothing
had failed; whatever the calls of `copyBuffer` report, `initVulkan` ends the
same way.  The same rejection in `createCommandBuffers` is fatal. -/
theorem initVulkan_upload_allocation_unchecked :
    (createVertexBuffer exampleUploadAllocationRejected exampleApp).calls =
        [UploadCall.vkCreateBuffer VK_BUFFER_USAGE_TRANSFER_SRC_BIT BufferVar.stagingBuffer
            VK_SUCCESS,
          UploadCall.vkGetBufferMemoryRequirements BufferVar.stagingBuffer,
          UploadCall.vkAllocateMemory 1 MemoryVar.stagingBufferMemory VK_SUCCESS,
          UploadCall.vkBindBufferMemory BufferVar.stagingBuffer MemoryVar.stagingBufferMemory,
          UploadCall.vkMapMemory MemoryVar.stagingBufferMemory,
          UploadCall.memcpy,
          UploadCall.vkUnmapMemory MemoryVar.stagingBufferMemory,
          UploadCall.vkCreateBuffer
            (VK_BUFFER_USAGE_TRANSFER_DST_BIT ||| VK_BUFFER_USAGE_VERTEX_BUFFER_BIT)
            BufferVar._vertexBuffer VK_SUCCESS,
          UploadCall.vkGetBufferMemoryRequirements BufferVar._vertexBuffer,
          UploadCall.vkAllocateMemory 0 MemoryVar._vertexBufferMemory VK_SUCCESS,
          UploadCall.vkBindBufferMemory BufferVar._vertexBuffer MemoryVar._vertexBufferMemory,
          UploadCall.vkAllocateCommandBuffers VK_ERROR_OUT_OF_HOST_MEMORY,
          UploadCall.vkBeginCommandBuffer VK_SUCCESS,
          UploadCall.vkCmdCopyBuffer BufferVar.stagingBuffer BufferVar._vertexBuffer,
          UploadCall.vkEndCommandBuffer VK_SUCCESS,
          UploadCall.vkQueueSubmit VK_SUCCESS,
          UploadCall.vkQueueWaitIdle VK_SUCCESS,
          UploadCall.vkFreeCommandBuffers,
          UploadCall.vkDestroyBuffer BufferVar.stagingBuffer,
          UploadCall.vkFreeMemory MemoryVar.stagingBufferMemory] ∧
      initVulkan false exampleUploadAllocationRejected exampleApp =
        Outcome.ok (exampleInitialised [11, 12, 13]) ∧
      (∀ (enableValidationLayers : Bool) (env : InitOutcomes) (copy : CopyBufferOutcomes)
          (app : HelloTriangleApplication),
        initVulkan enableValidationLayers { env with copyBuffer := copy } app =
          initVulkan enableValidationLayers env app) ∧
      initVulkan false exampleRecordingAllocationRejected exampleApp =
        Outcome.thrown "failed to allocate command buffers!" := by
  refine ⟨by decide, ?_, initVulkan_copyBuffer, rfl⟩
  unfold exampleUploadAllocationRejected
  rw [initVulkan_copyBuffer, initVulkan_example]


/-! ## The validation-layer check of `createInstance` -/

/-- The inner loop of the layer check finds a name exactly when the name is in
the list of available layers. -/
theorem checkValidationLayerFound_iff (layerName : String) (availableLayers : List String) :
    checkValidationLayerFound layerName availableLayers = true ↔
      layerName ∈ availableLayers := by
  induction availableLayers with
  | nil => simp [checkValidationLayerFound]
  | cons layerProperty rest ih =>
    unfold checkValidationLayerFound
    by_cases h : layerName = layerProperty
    · simp [h]
    · rw [if_neg h, ih]
      simp [h]

/-- The outer loop of the layer check answers true exactly when every
requested name is in the list of available layers. -/
theorem checkValidationLayerSupportLoop_iff (availableLayers requested : List String) :
    checkValidationLayerSupportLoop availableLayers requested = true ↔
      ∀ layerName ∈ requested, layerName ∈ availableLayers := by
  induction requested with
  | nil => simp [checkValidationLayerSupportLoop]
  | cons layerName rest ih =>
    unfold checkValidationLayerSupportLoop
    by_cases h : checkValidationLayerFound layerName availableLayers = false
    · rw [if_pos h]
      have hnot : layerName ∉ availableLayers := by
        intro hmem
        rw [(checkValidationLayerFound_iff _ _).mpr hmem] at h
        cases h
      simp [hnot]
    · rw [if_neg h, ih]
      have hmem : layerName ∈ availableLayers :=
        (checkValidationLayerFound_iff _ _).mp (by simpa using h)
      simp [hmem]

/-- The layer check fails exactly when a requested name is missing. -/
theorem checkValidationLayerSupport_false_iff (availableLayers : List String) :
    checkValidationLayerSupport availableLayers = false ↔
      ∃ layerName ∈ validationLayers, layerName ∉ availableLayers := by
  unfold checkValidationLayerSupport
  rw [← Bool.not_eq_true, checkValidationLayerSupportLoop_iff]
  push_neg
  rfl


/-- C24: `checkValidationLayerSupport` answers true exactly when every
requested layer name is among the available ones; with validation enabled
`createInstance` raises "validation layers requested, but not available" if
and only if some requested name is missing, and then it has only asked for
the layers: `vkCreateInstance` is not called and `initVulkan` ends with that
error.  When no name is missing `createInstance` ends by the result of
`vkCreateInstance` alone.  With validation disabled the layers are not asked
for and that error is never raised. -/
theorem createInstance_configurationError (env : InitOutcomes)
    (app : HelloTriangleApplication) :
    (checkValidationLayerSupport env.availableLayers = true ↔
        ∀ layerName ∈ validationLayers, layerName ∈ env.availableLayers) ∧
      ((createInstance true env app).result =
          Outcome.thrown "validation layers requested, but not available" ↔
        ∃ layerName ∈ validationLayers, layerName ∉ env.availableLayers) ∧
      ((∃ layerName ∈ validationLayers, layerName ∉ env.availableLayers) →
        (createInstance true env app).calls =
            [InstanceCall.vkEnumerateInstanceLayerProperties,
              InstanceCall.vkEnumerateInstanceLayerProperties] ∧
          initVulkan true env app =
            Outcome.thrown "validation layers requested, but not available") ∧
      ((∀ layerName ∈ validationLayers, layerName ∈ env.availableLayers) →
        (createInstance true env app).result =
          if env.vkCreateInstance ≠ VK_SUCCESS then
            Outcome.thrown "Failed to create Vulkan instance!"
          else
            Outcome.ok app) ∧
      (createInstance false env app).result ≠
        Outcome.thrown "validation layers requested, but not available" ∧
      InstanceCall.vkEnumerateInstanceLayerProperties ∉
        (createInstance false env app).calls := by
  have hne : ("Failed to create Vulkan instance!" : String) ≠
      "validation layers requested, but not available" := by decide
  refine ⟨checkValidationLayerSupportLoop_iff _ _, ?_, ?_, ?_, ?_, ?_⟩
  · rw [createInstance_result, ← checkValidationLayerSupport_false_iff]
    constructor
    · intro h
      by_cases hc : checkValidationLayerSupport env.availableLayers = false
      · exact hc
      · rw [if_neg (fun hand => hc hand.2)] at h
        split_ifs at h
        exact absurd (Outcome.thrown.inj h) hne
    · intro hc
      rw [if_pos ⟨rfl, hc⟩]
  · intro hmiss
    have hc := (checkValidationLayerSupport_false_iff _).mpr hmiss
    constructor
    · unfold createInstance
      simp only [hc, and_self, if_true]
    · unfold initVulkan
      rw [createInstance_result, if_pos ⟨rfl, hc⟩]
      rfl
  · intro hall
    have hc : ¬ (true = true ∧ checkValidationLayerSupport env.availableLayers = false) := by
      rintro ⟨_, hf⟩
      unfold checkValidationLayerSupport at hf
      rw [(checkValidationLayerSupportLoop_iff _ _).mpr hall] at hf
      cases hf
    rw [createInstance_result, if_neg hc]
  · rw [createInstance_result]
    intro h
    rw [if_neg (by simp)] at h
    split_ifs at h
    exact absurd (Outcome.thrown.inj h) hne
  · unfold createInstance
    simp only [Bool.false_eq_true, false_and, if_false]
    split_ifs <;> simp


/-- Witness for C24: when the loader reports only an unrelated layer,
`createInstance` raises after asking for the layers and `initVulkan` ends with
that error; when the requested layer is reported and `vkCreateInstance`
succeeds, `createInstance` returns. -/
theorem createInstance_configurationError_witness :
    ((∃ layerName ∈ validationLayers, layerName ∉ exampleLayerMissing.availableLayers) ∧
        (createInstance true exampleLayerMissing exampleApp).calls =
          [InstanceCall.vkEnumerateInstanceLayerProperties,
            InstanceCall.vkEnumerateInstanceLayerProperties] ∧
        initVulkan true exampleLayerMissing exampleApp =
          Outcome.thrown "validation layers requested, but not available") ∧
      ((∀ layerName ∈ validationLayers,
          layerName ∈ (exampleInitOutcomes [11, 12, 13]).availableLayers) ∧
        (createInstance true (exampleInitOutcomes [11, 12, 13]) exampleApp).result =
          Outcome.ok exampleApp) :=
  ⟨⟨⟨"VK_LAYER_LUNARG_standard_validation", by decide, by decide⟩,
      (createInstance_configurationError exampleLayerMissing exampleApp).2.2.1
        ⟨"VK_LAYER_LUNARG_standard_validation", by decide, by decide⟩⟩,
    ⟨by decide,
      ((createInstance_configurationError (exampleInitOutcomes [11, 12, 13])
        exampleApp).2.2.2.1 (by decide)).trans (if_neg (by decide))⟩⟩


/-! ## The wiring of one frame -/

/-- C25: in the frame that `drawFrame` runs with counter value `c` and
acquired image index `j` (whatever `j` the device writes), the calls are, in
this order: the wait on the one fence `_inFlightFences[c]`, the reset of that
fence, the acquire that signals `_imageAvailableSemaphores[c]` and no fence,
one submit on the graphics queue of one `VkSubmitInfo` that waits on the one
semaphore `_imageAvailableSemaphores[c]` at the color-attachment-output stage,
executes the one command buffer `_commandBuffers[j]` and signals the one
semaphore `_renderFinishedSemaphores[c]`, given the fence
`_inFlightFences[c]`, and, when the submit is accepted, one present on the
present queue that waits on the one semaphore `_renderFinishedSemaphores[c]`
and presents image `j` of the swapchain.  The short call list of the frame is
this list with every handle reduced to its index, and no other submit, present
or acquire is among the calls. -/
theorem drawFrame_wiring (framesInFlight : Nat) (outcomes : DrawFrameOutcomes)
    (app : HelloTriangleApplication) :
    (drawFrame framesInFlight outcomes app).trace =
        [FrameCall.vkWaitForFences Member._device 1 [Member._inFlightFences app._currentFrame]
            VK_TRUE UINT64_MAX outcomes.vkWaitForFences,
          FrameCall.vkResetFences Member._device 1 [Member._inFlightFences app._currentFrame]
            outcomes.vkResetFences,
          FrameCall.vkAcquireNextImageKHR Member._device Member._swapChain UINT64_MAX
            (some (Member._imageAvailableSemaphores app._currentFrame)) none
            outcomes.vkAcquireNextImageKHR,
          FrameCall.vkQueueSubmit Member._graphicsQueue 1
            [{ waitSemaphoreCount := 1
               pWaitSemaphores := [Member._imageAvailableSemaphores app._currentFrame]
               pWaitDstStageMask := [VK_PIPELINE_STAGE_COLOR_ATTACHMENT_OUTPUT_BIT]
               commandBufferCount := 1
               pCommandBuffers := [Member._commandBuffers outcomes.imageIndex]
               signalSemaphoreCount := 1
               pSignalSemaphores := [Member._renderFinishedSemaphores app._currentFrame] }]
            (some (Member._inFlightFences app._currentFrame)) outcomes.vkQueueSubmit] ++
          (if outcomes.vkQueueSubmit = VK_SUCCESS then
            [FrameCall.vkQueuePresentKHR Member._presentQueue
              { waitSemaphoreCount := 1
                pWaitSemaphores := [Member._renderFinishedSemaphores app._currentFrame]
                swapchainCount := 1
                pSwapchains := [Member._swapChain]
                pImageIndices := [outcomes.imageIndex]
                pResults := none }
              outcomes.vkQueuePresentKHR]
          else []) ∧
      (drawFrame framesInFlight outcomes app).trace.map FrameCall.toDeviceCall =
        (drawFrame framesInFlight outcomes app).calls.map some ∧
      (∀ queue submitCount pSubmits fence result,
        FrameCall.vkQueueSubmit queue submitCount pSubmits fence result ∈
            (drawFrame framesInFlight outcomes app).trace →
          queue = Member._graphicsQueue ∧ submitCount = 1 ∧
            pSubmits =
              [{ waitSemaphoreCount := 1
                 pWaitSemaphores := [Member._imageAvailableSemaphores app._currentFrame]
                 pWaitDstStageMask := [VK_PIPELINE_STAGE_COLOR_ATTACHMENT_OUTPUT_BIT]
                 commandBufferCount := 1
                 pCommandBuffers := [Member._commandBuffers outcomes.imageIndex]
                 signalSemaphoreCount := 1
                 pSignalSemaphores := [Member._renderFinishedSemaphores app._currentFrame] }] ∧
            fence = some (Member._inFlightFences app._currentFrame)) ∧
      (∀ queue pPresentInfo result,
        FrameCall.vkQueuePresentKHR queue pPresentInfo result ∈
            (drawFrame framesInFlight outcomes app).trace →
          queue = Member._presentQueue ∧
            pPresentInfo =
              { waitSemaphoreCount := 1
                pWaitSemaphores := [Member._renderFinishedSemaphores app._currentFrame]
                swapchainCount := 1
                pSwapchains := [Member._swapChain]
                pImageIndices := [outcomes.imageIndex]
                pResults := none } ∧
            outcomes.vkQueueSubmit = VK_SUCCESS) ∧
      (∀ device swapchain timeout semaphore fence result,
        FrameCall.vkAcquireNextImageKHR device swapchain timeout semaphore fence result ∈
            (drawFrame framesInFlight outcomes app).trace →
          semaphore = some (Member._imageAvailableSemaphores app._currentFrame) ∧
            fence = none) := by
  have htrace : (drawFrame framesInFlight outcomes app).trace =
      [FrameCall.vkWaitForFences Member._device 1 [Member._inFlightFences app._currentFrame]
          VK_TRUE UINT64_MAX outcomes.vkWaitForFences,
        FrameCall.vkResetFences Member._device 1 [Member._inFlightFences app._currentFrame]
          outcomes.vkResetFences,
        FrameCall.vkAcquireNextImageKHR Member._device Member._swapChain UINT64_MAX
          (some (Member._imageAvailableSemaphores app._currentFrame)) none
          outcomes.vkAcquireNextImageKHR,
        FrameCall.vkQueueSubmit Member._graphicsQueue 1
          [{ waitSemaphoreCount := 1
             pWaitSemaphores := [Member._imageAvailableSemaphores app._currentFrame]
             pWaitDstStageMask := [VK_PIPELINE_STAGE_COLOR_ATTACHMENT_OUTPUT_BIT]
             commandBufferCount := 1
             pCommandBuffers := [Member._commandBuffers outcomes.imageIndex]
             signalSemaphoreCount := 1
             pSignalSemaphores := [Member._renderFinishedSemaphores app._currentFrame] }]
          (some (Member._inFlightFences app._currentFrame)) outcomes.vkQueueSubmit] ++
        (if outcomes.vkQueueSubmit = VK_SUCCESS then
          [FrameCall.vkQueuePresentKHR Member._presentQueue
            { waitSemaphoreCount := 1
              pWaitSemaphores := [Member._renderFinishedSemaphores app._currentFrame]
              swapchainCount := 1
              pSwapchains := [Member._swapChain]
              pImageIndices := [outcomes.imageIndex]
              pResults := none }
            outcomes.vkQueuePresentKHR]
        else []) := by
    unfold drawFrame
    by_cases h : outcomes.vkQueueSubmit = VK_SUCCESS
    · simp [h]
    · simp [h]
  refine ⟨htrace, ?_, ?_, ?_, ?_⟩
  · rw [htrace, drawFrame_calls]
    unfold submitCall presentTail
    by_cases h : outcomes.vkQueueSubmit = VK_SUCCESS
    · simp [h, FrameCall.toDeviceCall]
    · simp [h, FrameCall.toDeviceCall]
  · intro queue submitCount pSubmits fence result hmem
    rw [htrace] at hmem
    by_cases h : outcomes.vkQueueSubmit = VK_SUCCESS
    · simp [h] at hmem
      exact ⟨hmem.1, hmem.2.1, hmem.2.2.1, hmem.2.2.2.1⟩
    · simp [h] at hmem
      exact ⟨hmem.1, hmem.2.1, hmem.2.2.1, hmem.2.2.2.1⟩
  · intro queue pPresentInfo result hmem
    rw [htrace] at hmem
    by_cases h : outcomes.vkQueueSubmit = VK_SUCCESS
    · simp [h] at hmem
      exact ⟨hmem.1, hmem.2.1, h⟩
    · simp [h] at hmem
  · intro device swapchain timeout semaphore fence result hmem
    rw [htrace] at hmem
    by_cases h : outcomes.vkQueueSubmit = VK_SUCCESS
    · simp [h] at hmem
      exact ⟨hmem.2.2.2.1, hmem.2.2.2.2.1⟩
    · simp [h] at hmem
      exact ⟨hmem.2.2.2.1, hmem.2.2.2.2.1⟩

/-- Witness for C25: with the counter at 1 and acquired image 2, the frame
waits on and resets `_inFlightFences[1]`, acquires with
`_imageAvailableSemaphores[1]`, submits `_commandBuffers[2]` between
`_imageAvailableSemaphores[1]` and `_renderFinishedSemaphores[1]` with
`_inFlightFences[1]`, and presents image 2 after
`_renderFinishedSemaphores[1]`; the submit found among the calls has these
arguments. -/
theorem drawFrame_wiring_witness :
    (drawFrame MAX_FRAMES_IN_FLIGHT (frameSuccess 2)
        { exampleInitialised [11, 12, 13] with _currentFrame := 1 }).trace =
        [FrameCall.vkWaitForFences Member._device 1 [Member._inFlightFences 1] VK_TRUE
            UINT64_MAX VK_SUCCESS,
          FrameCall.vkResetFences Member._device 1 [Member._inFlightFences 1] VK_SUCCESS,
          FrameCall.vkAcquireNextImageKHR Member._device Member._swapChain UINT64_MAX
            (some (Member._imageAvailableSemaphores 1)) none VK_SUCCESS,
          FrameCall.vkQueueSubmit Member._graphicsQueue 1
            [⟨1, [Member._imageAvailableSemaphores 1],
              [VK_PIPELINE_STAGE_COLOR_ATTACHMENT_OUTPUT_BIT], 1, [Member._commandBuffers 2], 1,
              [Member._renderFinishedSemaphores 1]⟩]
            (some (Member._inFlightFences 1)) VK_SUCCESS,
          FrameCall.vkQueuePresentKHR Member._presentQueue
            ⟨1, [Member._renderFinishedSemaphores 1], 1, [Member._swapChain], [2], none⟩
            VK_SUCCESS] ∧
      FrameCall.vkQueueSubmit Member._graphicsQueue 1
          [⟨1, [Member._imageAvailableSemaphores 1],
            [VK_PIPELINE_STAGE_COLOR_ATTACHMENT_OUTPUT_BIT], 1, [Member._commandBuffers 2], 1,
            [Member._renderFinishedSemaphores 1]⟩]
          (some (Member._inFlightFences 1)) VK_SUCCESS ∈
        (drawFrame MAX_FRAMES_IN_FLIGHT (frameSuccess 2)
          { exampleInitialised [11, 12, 13] with _currentFrame := 1 }).trace ∧
      (Member._graphicsQueue = Member._graphicsQueue ∧ 1 = 1 ∧
        ([⟨1, [Member._imageAvailableSemaphores 1],
            [VK_PIPELINE_STAGE_COLOR_ATTACHMENT_OUTPUT_BIT], 1, [Member._commandBuffers 2], 1,
            [Member._renderFinishedSemaphores 1]⟩] : List VkSubmitInfo) =
          [{ waitSemaphoreCount := 1
             pWaitSemaphores := [Member._imageAvailableSemaphores 1]
             pWaitDstStageMask := [VK_PIPELINE_STAGE_COLOR_ATTACHMENT_OUTPUT_BIT]
             commandBufferCount := 1
             pCommandBuffers := [Member._commandBuffers 2]
             signalSemaphoreCount := 1
             pSignalSemaphores := [Member._renderFinishedSemaphores 1] }] ∧
        some (Member._inFlightFences 1) = some (Member._inFlightFences 1)) :=
  ⟨(drawFrame_wiring MAX_FRAMES_IN_FLIGHT (frameSuccess 2)
      { exampleInitialised [11, 12, 13] with _currentFrame := 1 }).1.trans (by decide),
    by decide,
    (drawFrame_wiring MAX_FRAMES_IN_FLIGHT (frameSuccess 2)
      { exampleInitialised [11, 12, 13] with _currentFrame := 1 }).2.2.1
      Member._graphicsQueue 1
      [⟨1, [Member._imageAvailableSemaphores 1],
        [VK_PIPELINE_STAGE_COLOR_ATTACHMENT_OUTPUT_BIT], 1, [Member._commandBuffers 2], 1,
        [Member._renderFinishedSemaphores 1]⟩]
      (some (Member._inFlightFences 1)) VK_SUCCESS (by decide)⟩

/-! ## The subpass dependency and the dynamic state -/

/-- C26: the structure that `createRenderPass` hands to `vkCreateRenderPass`
holds no subpass dependency; when the creation succeeds the method then
writes the dependency from outside the pass to subpass 0 into its local
structure, which nothing reads any more.  Whenever `createGraphicsPipeline`
reaches `vkCreateGraphicsPipelines`, the structure it hands over has a null
dynamic state, although the method has filled in a dynamic-state record with
two states once both shader modules exist; with the pipeline layout created as
well, the call is reached. -/
theorem create_parameters_unattached (env : InitOutcomes) (app : HelloTriangleApplication) :
    ((createRenderPass env app).pCreateInfo.dependencyCount = 0 ∧
        (createRenderPass env app).pCreateInfo.pDependencies = []) ∧
      (env.vkCreateRenderPass = VK_SUCCESS →
        (createRenderPass env app).renderPassInfo.dependencyCount = 1 ∧
          (createRenderPass env app).renderPassInfo.pDependencies =
            [{ srcSubpass := VK_SUBPASS_EXTERNAL
               dstSubpass := 0
               srcStageMask := VK_PIPELINE_STAGE_COLOR_ATTACHMENT_OUTPUT_BIT
               srcAccessMask := 0
               dstStageMask := VK_PIPELINE_STAGE_COLOR_ATTACHMENT_OUTPUT_BIT
               dstAccessMask :=
                 VK_ACCESS_COLOR_ATTACHMENT_READ_BIT |||
                   VK_ACCESS_COLOR_ATTACHMENT_WRITE_BIT }]) ∧
      (∀ pipelineInfo, (createGraphicsPipeline env app).pCreateInfo = some pipelineInfo →
        pipelineInfo.pDynamicState = none) ∧
      (env.vertexShader.shaderSize ≠ 0 → env.vertexShader.vkCreateShaderModule = VK_SUCCESS →
        env.fragmentShader.shaderSize ≠ 0 →
        env.fragmentShader.vkCreateShaderModule = VK_SUCCESS →
        (createGraphicsPipeline env app).dynamicState =
            some { dynamicStateCount := 2
                   pDynamicStates := [VK_DYNAMIC_STATE_VIEWPORT, VK_DYNAMIC_STATE_LINE_WIDTH] } ∧
          (env.vkCreatePipelineLayout = VK_SUCCESS →
            ∃ pipelineInfo, (createGraphicsPipeline env app).pCreateInfo = some pipelineInfo)) := by
  refine ⟨?_, ?_, ?_, ?_⟩
  · unfold createRenderPass
    simp only
    split_ifs <;> exact ⟨rfl, rfl⟩
  · intro h
    unfold createRenderPass
    rw [if_neg (not_not.mpr h)]
    exact ⟨rfl, rfl⟩
  · intro pipelineInfo h
    unfold createGraphicsPipeline at h
    split at h
    · simp at h
    · simp at h
    · split at h
      · simp at h
      · simp at h
      · simp only at h
        split_ifs at h <;>
          · simp only [Option.some.injEq] at h
            subst h
            rfl
  · intro hv1 hv2 hf1 hf2
    have hvert : createShaderModule env.vertexShader
        "/Users/enowak/Downloads/vulkanTesting/vulkanTesting/shaders/vert.spv" =
        Outcome.ok () := by
      unfold createShaderModule
      rw [if_neg hv1, if_neg (not_not.mpr hv2)]
    have hfrag : createShaderModule env.fragmentShader
        "/Users/enowak/Downloads/vulkanTesting/vulkanTesting/shaders/frag.spv" =
        Outcome.ok () := by
      unfold createShaderModule
      rw [if_neg hf1, if_neg (not_not.mpr hf2)]
    unfold createGraphicsPipeline
    simp only [hvert, hfrag]
    constructor
    · split_ifs <;> rfl
    · intro hl
      rw [if_neg (not_not.mpr hl)]
      split_ifs <;> exact ⟨_, rfl⟩


/-- Witness for C26: when every call succeeds, the dependency is in the local
structure of `createRenderPass` after the creation, the structure given to
`vkCreateGraphicsPipelines` has a null dynamic state, and the dynamic-state
record with two states has been filled in. -/
theorem create_parameters_unattached_witness :
    ((createRenderPass (exampleInitOutcomes [11, 12, 13]) exampleApp).renderPassInfo.dependencyCount
          = 1 ∧
        (createRenderPass (exampleInitOutcomes [11, 12, 13]) exampleApp).renderPassInfo.pDependencies
          = [{ srcSubpass := VK_SUBPASS_EXTERNAL
               dstSubpass := 0
               srcStageMask := VK_PIPELINE_STAGE_COLOR_ATTACHMENT_OUTPUT_BIT
               srcAccessMask := 0
               dstStageMask := VK_PIPELINE_STAGE_COLOR_ATTACHMENT_OUTPUT_BIT
               dstAccessMask :=
                 VK_ACCESS_COLOR_ATTACHMENT_READ_BIT |||
                   VK_ACCESS_COLOR_ATTACHMENT_WRITE_BIT }]) ∧
      ((createGraphicsPipeline (exampleInitOutcomes [11, 12, 13]) exampleApp).pCreateInfo =
          some
            { stageCount := 2
              pStages := [⟨VK_SHADER_STAGE_VERTEX_BIT, "main"⟩, ⟨VK_SHADER_STAGE_FRAGMENT_BIT, "main"⟩]
              pDepthStencilState := none
              pDynamicState := none
              subpass := 0
              basePipelineIndex := -1 } ∧
        (none : Option VkPipelineDynamicStateCreateInfo) = none) ∧
      (createGraphicsPipeline (exampleInitOutcomes [11, 12, 13]) exampleApp).dynamicState =
        some { dynamicStateCount := 2
               pDynamicStates := [VK_DYNAMIC_STATE_VIEWPORT, VK_DYNAMIC_STATE_LINE_WIDTH] } :=
  ⟨(create_parameters_unattached (exampleInitOutcomes [11, 12, 13]) exampleApp).2.1 rfl,
    ⟨rfl,
      (create_parameters_unattached (exampleInitOutcomes [11, 12, 13]) exampleApp).2.2.1
        { stageCount := 2
          pStages := [⟨VK_SHADER_STAGE_VERTEX_BIT, "main"⟩, ⟨VK_SHADER_STAGE_FRAGMENT_BIT, "main"⟩]
          pDepthStencilState := none
          pDynamicState := none
          subpass := 0
          basePipelineIndex := -1 } rfl⟩,
    ((create_parameters_unattached (exampleInitOutcomes [11, 12, 13]) exampleApp).2.2.2
      (by decide) rfl (by decide) rfl).1⟩


/-! ## Graphics and present family are the same family -/

/-- The result of `findQueueFamilies` has no present family, or names one
family for both queues. -/
theorem findQueueFamilies_same_or_none (physicalDevice : VkPhysicalDevice) :
    (findQueueFamilies physicalDevice).presentFamily = -1 ∨
      ∃ i : Nat, findQueueFamilies physicalDevice = ⟨(i : Int), (i : Int)⟩ := by
  classical
  by_cases h : ∃ i, graphicsAt physicalDevice i ∧ physicalDevice.surfaceSupport i = true
  · right
    refine ⟨Nat.find h, ?_⟩
    exact findQueueFamilies_first_both physicalDevice (Nat.find h) (Nat.find_spec h).1
      (Nat.find_spec h).2 (fun j hj => Nat.find_min h hj)
  · left
    exact (findQueueFamilies_no_both physicalDevice (fun j hj => h ⟨j, hj⟩)).1

/-- A device that passes `isDeviceSuitable` has complete indices and at least
one surface format. -/
theorem isDeviceSuitable_complete (physicalDevice : VkPhysicalDevice)
    (h : isDeviceSuitable physicalDevice = true) :
    (findQueueFamilies physicalDevice).isComplete = true ∧
      physicalDevice.swapChainSupport.surfaceFormats ≠ [] := by
  unfold isDeviceSuitable at h
  simp only [Bool.and_eq_true] at h
  obtain ⟨⟨hcomplete, hext⟩, hadequate⟩ := h
  refine ⟨hcomplete, ?_⟩
  rw [hext] at hadequate
  simp only [if_true, Bool.and_eq_true, Bool.not_eq_true_eq_eq_false,
    List.isEmpty_eq_false] at hadequate
  intro hnil
  simp [hnil] at hadequate

/-- The set built from one family index twice has that index as its only
element. -/
theorem uniqueQueueFamilies_same (i : Int) : uniqueQueueFamilies ⟨i, i⟩ = [i] := by
  simp [uniqueQueueFamilies, stdSetInsert]


/-- C27: for every list of queue families and every surface-support answer
the result of `findQueueFamilies` has present family -1 or a present family
equal to its graphics family; so complete indices name one family for both
queues, and for a device that passes `isDeviceSuitable` the swapchain create
parameters use exclusive sharing with no listed family, and
`createLogicalDevice` hands `vkCreateDevice` exactly one queue-create record,
for that family and with one queue. -/
theorem findQueueFamilies_alias (physicalDevice : VkPhysicalDevice) :
    ((findQueueFamilies physicalDevice).presentFamily = -1 ∨
        (findQueueFamilies physicalDevice).presentFamily =
          (findQueueFamilies physicalDevice).graphicsFamily) ∧
      ((findQueueFamilies physicalDevice).isComplete = true →
        (findQueueFamilies physicalDevice).graphicsFamily =
          (findQueueFamilies physicalDevice).presentFamily) ∧
      (isDeviceSuitable physicalDevice = true →
        (∀ width height, ∃ info,
          createSwapChainInfo width height physicalDevice.swapChainSupport
              (findQueueFamilies physicalDevice) = some info ∧
            info.imageSharingMode = VK_SHARING_MODE_EXCLUSIVE ∧
            info.queueFamilyIndexCount = 0 ∧
            info.pQueueFamilyIndices = none) ∧
          (∀ (env : InitOutcomes) (app : HelloTriangleApplication),
            app._physicalDevice = physicalDevice →
              (createLogicalDevice env app).pCreateInfo.queueCreateInfoCount = 1 ∧
                (createLogicalDevice env app).pCreateInfo.pQueueCreateInfos =
                  [{ queueFamilyIndex :=
                       castUInt32 (findQueueFamilies physicalDevice).graphicsFamily
                     queueCount := 1 }])) := by
  have hcomplete : (findQueueFamilies physicalDevice).isComplete = true →
      ∃ i : Nat, findQueueFamilies physicalDevice = ⟨(i : Int), (i : Int)⟩ := by
    intro hc
    rcases findQueueFamilies_same_or_none physicalDevice with hnone | hsame
    · have hfalse : (findQueueFamilies physicalDevice).isComplete = false := by
        unfold QueueFamilyIndices.isComplete
        rw [hnone]
        simp
      rw [hfalse] at hc
      cases hc
    · exact hsame
  refine ⟨?_, ?_, ?_⟩
  · rcases findQueueFamilies_same_or_none physicalDevice with hnone | ⟨i, hi⟩
    · exact Or.inl hnone
    · right
      rw [hi]
  · intro hc
    obtain ⟨i, hi⟩ := hcomplete hc
    rw [hi]
  · intro hs
    obtain ⟨hc, hne⟩ := isDeviceSuitable_complete physicalDevice hs
    obtain ⟨i, hi⟩ := hcomplete hc
    constructor
    · intro width height
      obtain ⟨info, hinfo, _, hmode, hcount, hptr⟩ :=
        createSwapChainInfo_some width height physicalDevice.swapChainSupport
          (findQueueFamilies physicalDevice) hne
      refine ⟨info, hinfo, ?_, ?_, ?_⟩
      · rw [hmode, hi]
        simp
      · rw [hcount, hi]
        simp
      · rw [hptr, hi]
        simp
    · intro env app happ
      unfold createLogicalDevice
      simp only [happ]
      have hinfo : createLogicalDeviceInfo (findQueueFamilies physicalDevice) =
          { pQueueCreateInfos :=
              [{ queueFamilyIndex :=
                   castUInt32 (findQueueFamilies physicalDevice).graphicsFamily
                 queueCount := 1 }]
            queueCreateInfoCount := 1
            enabledExtensionCount := deviceExtensions.length % 4294967296
            ppEnabledExtensionNames := deviceExtensions } := by
        rw [hi]
        unfold createLogicalDeviceInfo
        simp only [uniqueQueueFamilies_same, List.map_cons, List.map_nil, List.length_singleton]
      rw [hinfo]
      split_ifs <;> exact ⟨rfl, rfl⟩


/-- Witness for C27: on a capable device with a presentable compute family 0
and a presentable graphics family 1, both indices are 1, the swapchain is
shared exclusively and one queue-create record, for family 1, is handed to
`vkCreateDevice`. -/
theorem findQueueFamilies_alias_witness :
    isDeviceSuitable exampleTwoFamilyDevice = true ∧
      findQueueFamilies exampleTwoFamilyDevice = ⟨1, 1⟩ ∧
      (∃ info,
        createSwapChainInfo 800 600 exampleTwoFamilyDevice.swapChainSupport
            (findQueueFamilies exampleTwoFamilyDevice) = some info ∧
          info.imageSharingMode = VK_SHARING_MODE_EXCLUSIVE ∧
          info.queueFamilyIndexCount = 0 ∧
          info.pQueueFamilyIndices = none) ∧
      ((createLogicalDevice (exampleInitOutcomes [11, 12, 13])
            { exampleApp with _physicalDevice := exampleTwoFamilyDevice }).pCreateInfo.queueCreateInfoCount
          = 1 ∧
        (createLogicalDevice (exampleInitOutcomes [11, 12, 13])
            { exampleApp with _physicalDevice := exampleTwoFamilyDevice }).pCreateInfo.pQueueCreateInfos
          = [{ queueFamilyIndex :=
                 castUInt32 (findQueueFamilies exampleTwoFamilyDevice).graphicsFamily
               queueCount := 1 }]) :=
  ⟨by decide, by decide,
    ((findQueueFamilies_alias exampleTwoFamilyDevice).2.2 (by decide)).1 800 600,
    ((findQueueFamilies_alias exampleTwoFamilyDevice).2.2 (by decide)).2
      (exampleInitOutcomes [11, 12, 13])
      { exampleApp with _physicalDevice := exampleTwoFamilyDevice } rfl⟩

end VulkanSandbox
